import Mathlib

/-!
# Command-processing core of the CTAP2 authenticator (`ctap.c`)

A shallow embedding of `src/ctap.c`.  Byte buffers are lists of naturals
(each entry a byte value), machine integers are `Nat`/`Int` with explicit
wrap-around where the C code can overflow, the module's static variables
are the fields of `State`, and every collaborator that lives outside
`ctap.c` (crypto facade, CBOR codec and request parsers, device oracles,
header constants) is a field of `Env`.
-/

namespace Ctap

/-- A byte buffer; every entry stands for one `uint8_t`. -/
abbrev Bytes := List Nat

/-! ## Header constants -/

/-- `PIN_TOKEN_SIZE` (line 17). -/
def PIN_TOKEN_SIZE : Nat := 16
/-- Modelled from the spec: `ctap.h` is not part of the sources; the client-data-hash is 32 bytes. -/
def CLIENT_DATA_HASH_SIZE : Nat := 32
/-- Modelled from the spec: `ctap.h` is not part of the sources; the credential tag is 16 bytes. -/
def CREDENTIAL_TAG_SIZE : Nat := 16
/-- The credential id size checked by the `#if CREDENTIAL_ID_SIZE != 150` guard. -/
def CREDENTIAL_ID_SIZE : Nat := 150

/-- Modelled from the spec: command bytes of section 6 (`ctap.h` is not part of the sources). -/
def CTAP_MAKE_CREDENTIAL : Nat := 0x01
/-- Modelled from the spec: command byte of get-assertion. -/
def CTAP_GET_ASSERTION : Nat := 0x02
/-- Modelled from the spec: the spec leaves the cancel byte open; the published CTAP2 value is taken. -/
def CTAP_CANCEL : Nat := 0x03
/-- Modelled from the spec: command byte of get-info. -/
def CTAP_GET_INFO : Nat := 0x04
/-- Modelled from the spec: command byte of client-PIN. -/
def CTAP_CLIENT_PIN : Nat := 0x06
/-- Modelled from the spec: command byte of reset. -/
def CTAP_RESET : Nat := 0x07
/-- Modelled from the spec: command byte of get-next-assertion. -/
def GET_NEXT_ASSERTION : Nat := 0x08

/-- Modelled from the spec: status codes follow the published CTAP2 error table
(`ctap_errors.h` is not part of the sources). -/
def CTAP1_ERR_SUCCESS : Nat := 0x00
/-- Modelled from the spec: published CTAP2 error table. -/
def CTAP1_ERR_INVALID_COMMAND : Nat := 0x01
/-- Modelled from the spec: published CTAP2 error table. -/
def CTAP2_ERR_MISSING_PARAMETER : Nat := 0x14
/-- Modelled from the spec: published CTAP2 error table. -/
def CTAP2_ERR_CREDENTIAL_EXCLUDED : Nat := 0x19
/-- Modelled from the spec: published CTAP2 error table. -/
def CTAP2_ERR_CREDENTIAL_NOT_VALID : Nat := 0x22
/-- Modelled from the spec: published CTAP2 error table. -/
def CTAP2_ERR_NOT_ALLOWED : Nat := 0x30
/-- Modelled from the spec: published CTAP2 error table. -/
def CTAP2_ERR_PIN_INVALID : Nat := 0x31
/-- Modelled from the spec: published CTAP2 error table. -/
def CTAP2_ERR_PIN_AUTH_INVALID : Nat := 0x33
/-- Modelled from the spec: published CTAP2 error table. -/
def CTAP2_ERR_PIN_NOT_SET : Nat := 0x35
/-- Modelled from the spec: published CTAP2 error table. -/
def CTAP2_ERR_PIN_REQUIRED : Nat := 0x36
/-- Modelled from the spec: published CTAP2 error table. -/
def CTAP2_ERR_PIN_POLICY_VIOLATION : Nat := 0x37
/-- Modelled from the spec: published CTAP2 error table. -/
def CTAP1_ERR_OTHER : Nat := 0x7F

/-- Modelled from the spec: client-PIN subcommand numbers of the CTAP2 PIN protocol
(`ctap_parse.h` is not part of the sources). -/
def CP_cmdGetRetries : Nat := 0x01
/-- Modelled from the spec: client-PIN subcommand number. -/
def CP_cmdGetKeyAgreement : Nat := 0x02
/-- Modelled from the spec: client-PIN subcommand number. -/
def CP_cmdSetPin : Nat := 0x03
/-- Modelled from the spec: client-PIN subcommand number. -/
def CP_cmdChangePin : Nat := 0x04
/-- Modelled from the spec: client-PIN subcommand number. -/
def CP_cmdGetPinToken : Nat := 0x05

/-- Modelled from the spec: the only credential type, `public-key` (`ctap.h` is not part of the sources). -/
def PUB_KEY_CRED_PUB_KEY : Nat := 0x03
/-- Modelled from the spec: COSE algorithm identifier of ES256 (`alg: -7`). -/
def COSE_ALG_ES256 : Int := -7
/-- Modelled from the spec: canonical COSE labels and values of an EC2/P-256 key
(`cose_key.h` is not part of the sources). -/
def COSE_KEY_LABEL_KTY : Int := 1
/-- Modelled from the spec: canonical COSE label. -/
def COSE_KEY_LABEL_ALG : Int := 3
/-- Modelled from the spec: canonical COSE label. -/
def COSE_KEY_LABEL_CRV : Int := -1
/-- Modelled from the spec: canonical COSE label. -/
def COSE_KEY_LABEL_X : Int := -2
/-- Modelled from the spec: canonical COSE label. -/
def COSE_KEY_LABEL_Y : Int := -3
/-- Modelled from the spec: COSE key type EC2. -/
def COSE_KEY_KTY_EC2 : Int := 2
/-- Modelled from the spec: COSE curve P-256. -/
def COSE_KEY_CRV_P256 : Int := 1

/-- Modelled from the spec: response map keys of section 6. -/
def RESP_versions : Nat := 1
/-- Modelled from the spec: response map key. -/
def RESP_aaguid : Nat := 3
/-- Modelled from the spec: response map key. -/
def RESP_options : Nat := 4
/-- Modelled from the spec: response map key. -/
def RESP_maxMsgSize : Nat := 5
/-- Modelled from the spec: response map key. -/
def RESP_pinProtocols : Nat := 6
/-- Modelled from the spec: response map key. -/
def RESP_fmt : Nat := 1
/-- Modelled from the spec: response map key. -/
def RESP_authData : Nat := 2
/-- Modelled from the spec: response map key. -/
def RESP_attStmt : Nat := 3
/-- Modelled from the spec: response map key. -/
def RESP_credential : Nat := 1
/-- Modelled from the spec: response map key. -/
def RESP_signature : Nat := 3
/-- Modelled from the spec: response map key. -/
def RESP_publicKeyCredentialUserEntity : Nat := 4
/-- Modelled from the spec: response map key. -/
def RESP_numberOfCredentials : Nat := 5
/-- Modelled from the spec: response map key. -/
def RESP_keyAgreement : Nat := 1
/-- Modelled from the spec: response map key. -/
def RESP_pinToken : Nat := 2
/-- Modelled from the spec: response map key. -/
def RESP_retries : Nat := 3

/-! ## Byte-level helpers (libc) -/

/-- A C `int` narrowed to `uint8_t` (the return type of the handlers). -/
def u8 (n : Nat) : Nat := n % 256

/-- A C `int` expression stored into a `uint8_t`. -/
def u8i (n : Int) : Nat := (n % 256).toNat

/-- A value of type `uint32_t`. -/
def u32 (n : Nat) : Nat := n % 4294967296

/-- The four bytes of a `uint32_t` as they lie in memory (little-endian host, as the spec fixes). -/
def le32 (n : Nat) : Bytes :=
  [n % 256, n / 256 % 256, n / 65536 % 256, n / 16777216 % 256]

/-- The four bytes in memory of `ntohl(n)`: the network-order encoding of `n`. -/
def be32 (n : Nat) : Bytes :=
  [n / 16777216 % 256, n / 65536 % 256, n / 256 % 256, n % 256]

/-- Result of `strnlen(s, n)`: the number of bytes before the first NUL among the first `n`. -/
def strnlen (s : Bytes) (n : Nat) : Nat :=
  ((s.take n).takeWhile (fun b => b != 0)).length

/-- Truth of `memcmp(a, b, n) == 0` on buffers that hold at least `n` bytes. -/
def memcmp_eq (a b : Bytes) (n : Nat) : Bool :=
  a.take n == b.take n

/-- The `n` bytes a C read finds at `buf + off` (bytes beyond the list read as 0). -/
def readBytes (buf : Bytes) (off n : Nat) : Bytes :=
  (List.range n).map (fun i => buf.getD (off + i) 0)

/-- Effect of `memmove(dst + off, src, |src|)` on `dst`. -/
def memmove : Bytes → Nat → Bytes → Bytes
  | dst, _, [] => dst
  | dst, off, b :: bs => memmove (dst.set off b) (off + 1) bs

/-- Number of leading zero bytes among the first `n` bytes (the two `for` loops of
`ctap_calculate_signature`). -/
def leading_zeros (buf : Bytes) (n : Nat) : Nat :=
  ((buf.take n).takeWhile (fun b => b == 0)).length

/-! ## Data model -/

/-- `struct rpId`: the relying-party id bytes; `size` is the length of `id`. -/
structure rpId where
  id : Bytes
  deriving DecidableEq, Repr

/-- `CTAP_userEntity`: `id_size` is the length of `id`; `name` is the fixed-width
character array. -/
structure CTAP_userEntity where
  id : Bytes
  name : Bytes
  deriving DecidableEq, Repr

/-- The `fields` view of the credential-id union: tag, user, count. -/
structure CredentialFields where
  tag : Bytes
  user : CTAP_userEntity
  count : Nat
  deriving DecidableEq, Repr

/-- `CTAP_credentialDescriptor`. -/
structure CTAP_credentialDescriptor where
  type : Nat
  credential : CredentialFields
  deriving DecidableEq, Repr

/-- `CTAP_authDataHeader`: rpIdHash[32], flags, signCount (held as its four bytes in memory). -/
structure CTAP_authDataHeader where
  rpIdHash : Bytes
  flags : Nat
  signCount : Bytes
  deriving DecidableEq, Repr

/-- Items handed to the CBOR encoder, in emission order. -/
inductive CborItem where
  | map (n : Nat)
  | array (n : Nat)
  | close
  | uint (n : Nat)
  | int (n : Int)
  | bytes (b : Bytes)
  | text (s : String)
  | textz (b : Bytes)
  | bool (b : Bool)
  deriving DecidableEq, Repr

/-- `CTAP_attestHeader` with the COSE key that follows it in the buffer. -/
structure CTAP_attest where
  aaguid : Bytes
  credLenH : Nat
  credLenL : Nat
  credential : CredentialFields
  cose_key : List CborItem
  deriving DecidableEq, Repr

/-- `CTAP_authData` as assembled in `auth_data_buf`. -/
structure CTAP_authData where
  head : CTAP_authDataHeader
  attest : Option CTAP_attest
  deriving DecidableEq, Repr

/-- `CTAP_makeCredential`: the parsed request.  `excludeList` holds, per entry, the
return code of `parse_credential_descriptor` and the descriptor it fills;
`excludeListSize` is its length. -/
structure CTAP_makeCredential where
  paramsParsed : Nat
  clientDataHash : Bytes
  rp : rpId
  user : CTAP_userEntity
  publicKeyCredentialType : Nat
  COSEAlgorithmIdentifier : Int
  excludeList : List (Nat × CTAP_credentialDescriptor)
  pinAuth : Bytes
  pinAuthPresent : Nat
  deriving DecidableEq, Repr

/-- `CTAP_getAssertion`: the parsed request; `credLen` is the length of `creds`. -/
structure CTAP_getAssertion where
  clientDataHash : Bytes
  rp : rpId
  creds : List CTAP_credentialDescriptor
  pinAuth : Bytes
  pinAuthPresent : Nat
  deriving DecidableEq, Repr

/-- `CTAP_clientPin`: the parsed request.  `newPinEnc` is the whole
`NEW_PIN_ENC_MAX_SIZE` array, of which `newPinEncSize` bytes were received. -/
structure CTAP_clientPin where
  pinProtocol : Nat
  subCommand : Nat
  keyAgreementPresent : Nat
  pubkey : Bytes
  pinAuth : Bytes
  pinAuthPresent : Nat
  newPinEnc : Bytes
  newPinEncSize : Nat
  pinHashEnc : Bytes
  pinHashEncPresent : Nat
  getRetries : Nat
  deriving DecidableEq, Repr

/-- The key the crypto facade currently has loaded for signing. -/
inductive LoadedKey where
  | none
  | attestation
  | seed (b : Bytes)
  deriving DecidableEq, Repr

/-- State of the collaborators outside `ctap.c`: how often each oracle has been
called, the epoch of the device master secret, and the loaded signing key. -/
structure World where
  count_calls : Nat
  presence_calls : Nat
  verification_calls : Nat
  rng_calls : Nat
  keypair_calls : Nat
  sign_calls : Nat
  secret_epoch : Nat
  loaded_key : LoadedKey
  deriving DecidableEq, Repr

/-- The static `getAssertionState` (the unused `index` and `time` fields are left out). -/
structure GetAssertionState where
  authData : CTAP_authDataHeader
  clientDataHash : Bytes
  creds : List CTAP_credentialDescriptor
  lastcmd : Nat
  count : Nat
  deriving DecidableEq, Repr

/-- The static variables of `ctap.c`, with the state of the collaborators. -/
structure State where
  PIN_TOKEN : Bytes
  KEY_AGREEMENT_PUB : Bytes
  KEY_AGREEMENT_PRIV : Bytes
  PIN_CODE_SET : Nat
  PIN_CODE : Bytes
  PIN_CODE_HASH : Bytes
  DEVICE_LOCKOUT : Nat
  getAssertionState : GetAssertionState
  _flash_tries : Int
  world : World
  deriving DecidableEq, Repr

/-- `CTAP_RESPONSE`: the encoder buffer and the length reported to the transport
(counted in encoder items). -/
structure CTAP_RESPONSE where
  data : List CborItem
  length : Nat
  deriving DecidableEq, Repr

/-- Everything `ctap.c` takes from outside: header constants without a value in the
spec, the crypto facade, the request parsers and the device oracles.  An oracle is
a function of the number of calls made so far. -/
structure Env where
  USER_NAME_LIMIT : Nat
  NEW_PIN_ENC_MAX_SIZE : Nat
  MC_requiredMask : Nat
  CTAP_AAGUID : Bytes
  CTAP_MAX_MESSAGE_SIZE : Int
  attestation_cert_der : Bytes
  /-- Value of the outer `lead_r` that line 360 reads before the local is declared. -/
  lead_r_outer : Nat
  /-- Value of the outer `lead_s` that line 359 reads before the local is declared. -/
  lead_s_outer : Nat
  sha256 : Bytes → Bytes
  sha256_hmac : Bytes → Bytes → Bytes
  ecc256_shared_secret : Bytes → Bytes → Bytes
  ecc256_derive_public_key : Bytes → Bytes × Bytes
  ecc256_sign : LoadedKey → Bytes → Nat → Bytes
  ecc256_make_key_pair : Nat → Bytes × Bytes
  aes256_decrypt : Bytes → Bytes → Bytes
  aes256_encrypt : Bytes → Bytes → Bytes
  master_secret : Nat → Bytes
  atomic_count : Nat → Nat
  user_presence_test : Nat → Nat
  user_verification : Nat → Nat
  generate_rng : Nat → Nat → Bytes × Int
  parse_make_credential : Bytes → Nat × CTAP_makeCredential
  parse_get_assertion : Bytes → Nat × CTAP_getAssertion
  parse_client_pin : Bytes → Nat × CTAP_clientPin
  credential_id : CredentialFields → Bytes
  cbor_bytes : List CborItem → Bytes

/-! ## PIN bookkeeping (lines 1175–1248) -/

/-- `ctap_is_pin_set`. -/
def ctap_is_pin_set (s : State) : Nat :=
  if s.PIN_CODE_SET = 1 then 1 else 0

/-- `ctap_device_locked`. -/
def ctap_device_locked (s : State) : Nat :=
  if s.DEVICE_LOCKOUT = 1 then 1 else 0

/-- `ctap_leftover_pin_attempts`. -/
def ctap_leftover_pin_attempts (s : State) : Int :=
  s._flash_tries

/-- `ctap_reset_pin_attempts`. -/
def ctap_reset_pin_attempts (s : State) : State :=
  { s with _flash_tries := 8 }

/-- `ctap_decrement_pin_attempts`: the returned byte (`-1` as `uint8_t` in the
lockout branch) and the new state. -/
def ctap_decrement_pin_attempts (s : State) : Nat × State :=
  if s._flash_tries > 0 then
    (0, { s with _flash_tries := s._flash_tries - 1 })
  else
    (255, { s with DEVICE_LOCKOUT := 1 })

/-- `crypto_ecc256_make_key_pair(KEY_AGREEMENT_PUB, KEY_AGREEMENT_PRIV)`. -/
def make_key_agreement_pair (env : Env) (s : State) : State :=
  let kp := env.ecc256_make_key_pair s.world.keypair_calls
  { s with
    KEY_AGREEMENT_PUB := kp.1
    KEY_AGREEMENT_PRIV := kp.2
    world := { s.world with keypair_calls := s.world.keypair_calls + 1 } }

/-- `ctap_update_pin`; `none` is the `exit(1)` of the length check. -/
def ctap_update_pin (env : Env) (s : State) (pin : Bytes) (len : Int) : Option State :=
  if len > (env.NEW_PIN_ENC_MAX_SIZE : Int) - 1 ∨ len < 4 then none
  else
    let code := pin.take len.toNat ++ List.replicate (env.NEW_PIN_ENC_MAX_SIZE - len.toNat) 0
    some { s with
      PIN_CODE := code
      PIN_CODE_HASH := env.sha256 (code.take len.toNat)
      PIN_CODE_SET := 1 }

/-- `ctap_reset`. -/
def ctap_reset (env : Env) (s : State) : State :=
  let s1 : State :=
    { s with
      _flash_tries := 8
      PIN_CODE_SET := 0
      DEVICE_LOCKOUT := 0
      PIN_CODE := List.replicate env.NEW_PIN_ENC_MAX_SIZE 0
      PIN_CODE_HASH := List.replicate 32 0 }
  let s2 := make_key_agreement_pair env s1
  { s2 with world := { s2.world with secret_epoch := s2.world.secret_epoch + 1 } }

/-- `ctap_init`; `none` is the `exit(1)` taken when the RNG fails. -/
def ctap_init (env : Env) (s : State) : Option State :=
  let s1 := ctap_reset_pin_attempts s
  let s2 : State := { s1 with DEVICE_LOCKOUT := 0 }
  let r := env.generate_rng s2.world.rng_calls PIN_TOKEN_SIZE
  let s3 : State :=
    { s2 with
      PIN_TOKEN := r.1
      world := { s2.world with rng_calls := s2.world.rng_calls + 1 } }
  if r.2 ≠ 1 then none
  else some (make_key_agreement_pair env s3)

/-- The zero-initialised statics the program starts with. -/
def boot_state (env : Env) : State where
  PIN_TOKEN := List.replicate PIN_TOKEN_SIZE 0
  KEY_AGREEMENT_PUB := List.replicate 64 0
  KEY_AGREEMENT_PRIV := List.replicate 32 0
  PIN_CODE_SET := 0
  PIN_CODE := List.replicate env.NEW_PIN_ENC_MAX_SIZE 0
  PIN_CODE_HASH := List.replicate 32 0
  DEVICE_LOCKOUT := 0
  getAssertionState :=
    { authData := { rpIdHash := List.replicate 32 0, flags := 0, signCount := [0, 0, 0, 0] }
      clientDataHash := List.replicate CLIENT_DATA_HASH_SIZE 0
      creds := []
      lastcmd := 0
      count := 0 }
  _flash_tries := 0
  world :=
    { count_calls := 0, presence_calls := 0, verification_calls := 0, rng_calls := 0,
      keypair_calls := 0, sign_calls := 0, secret_epoch := 0, loaded_key := LoadedKey.none }

/-! ## PIN authorisation, get-info, COSE keys (lines 36–240) -/

/-- `verify_pin_auth`. -/
def verify_pin_auth (env : Env) (s : State) (pinAuth clientDataHash : Bytes) : Nat :=
  let hmac := env.sha256_hmac (s.PIN_TOKEN.take PIN_TOKEN_SIZE)
    (clientDataHash.take CLIENT_DATA_HASH_SIZE)
  if memcmp_eq pinAuth hmac 16 then 0 else CTAP2_ERR_PIN_AUTH_INVALID

/-- `ctap_get_info`: the status and the items written to the encoder. -/
def ctap_get_info (env : Env) (s : State) : Nat × List CborItem :=
  (CTAP1_ERR_SUCCESS,
    [ CborItem.map 5,
      CborItem.uint RESP_versions, CborItem.array 2,
        CborItem.text "U2F_V2", CborItem.text "FIDO_2_0", CborItem.close,
      CborItem.uint RESP_aaguid, CborItem.bytes (env.CTAP_AAGUID.take 16),
      CborItem.uint RESP_maxMsgSize, CborItem.int env.CTAP_MAX_MESSAGE_SIZE,
      CborItem.uint RESP_pinProtocols, CborItem.array 1, CborItem.int 1, CborItem.close,
      CborItem.uint RESP_options, CborItem.map 5,
        CborItem.text "plat", CborItem.bool false,
        CborItem.text "rk", CborItem.bool false,
        CborItem.text "up", CborItem.bool true,
        CborItem.text "uv", CborItem.bool false,
        CborItem.text "clientPin", CborItem.bool (ctap_is_pin_set s != 0),
      CborItem.close,
      CborItem.close ])

/-- `ctap_add_cose_key`: the items written. -/
def ctap_add_cose_key (x y : Bytes) (algtype : Int) : List CborItem :=
  [ CborItem.map 5,
    CborItem.int COSE_KEY_LABEL_KTY, CborItem.int COSE_KEY_KTY_EC2,
    CborItem.int COSE_KEY_LABEL_ALG, CborItem.int algtype,
    CborItem.int COSE_KEY_LABEL_CRV, CborItem.int COSE_KEY_CRV_P256,
    CborItem.int COSE_KEY_LABEL_X, CborItem.bytes (x.take 32),
    CborItem.int COSE_KEY_LABEL_Y, CborItem.bytes (y.take 32),
    CborItem.close ]

/-- `ctap_generate_cose_key`: nothing is written for an unsupported type or algorithm. -/
def ctap_generate_cose_key (env : Env) (hmac_input : Bytes) (credtype : Nat)
    (algtype : Int) : List CborItem :=
  if credtype ≠ PUB_KEY_CRED_PUB_KEY then []
  else if algtype = COSE_ALG_ES256 then
    let xy := env.ecc256_derive_public_key hmac_input
    ctap_add_cose_key xy.1 xy.2 algtype
  else []

/-! ## Credential tag (lines 242–254, 431–443) -/

/-- The byte string `make_auth_tag` feeds to SHA-256, the device secret last. -/
def auth_tag_input (env : Env) (secret : Bytes) (rp : rpId) (user : CTAP_userEntity)
    (count : Nat) : Bytes :=
  rp.id ++ user.id ++ user.name.take (strnlen user.name env.USER_NAME_LIMIT)
    ++ le32 count ++ secret

/-- `make_auth_tag`. -/
def make_auth_tag (env : Env) (s : State) (rp : rpId) (user : CTAP_userEntity)
    (count : Nat) : Bytes :=
  (env.sha256 (auth_tag_input env (env.master_secret s.world.secret_epoch) rp user count)).take
    CREDENTIAL_TAG_SIZE

/-- `ctap_authenticate_credential`. -/
def ctap_authenticate_credential (env : Env) (s : State) (rp : rpId)
    (desc : CTAP_credentialDescriptor) : Nat :=
  if desc.type ≠ PUB_KEY_CRED_PUB_KEY then 0
  else
    let tag := make_auth_tag env s rp desc.credential.user desc.credential.count
    if memcmp_eq desc.credential.tag tag CREDENTIAL_TAG_SIZE then 1 else 0

/-! ## Authenticator data and signing (lines 256–428) -/

/-- The bytes of a `CTAP_authDataHeader` in memory: rpIdHash, flags, signCount. -/
def authDataHeader_bytes (h : CTAP_authDataHeader) : Bytes :=
  h.rpIdHash ++ [h.flags] ++ h.signCount

/-- The bytes of `auth_data_buf` that are hashed and emitted: the header and, when
present, the attested credential data followed by the encoded COSE key. -/
def authData_bytes (env : Env) (a : CTAP_authData) : Bytes :=
  match a.attest with
  | none => authDataHeader_bytes a.head
  | some t =>
    authDataHeader_bytes a.head ++ t.aaguid ++ [t.credLenH, t.credLenL]
      ++ env.credential_id t.credential ++ env.cbor_bytes t.cose_key

/-- `auth_data_update_count`: the returned count, the header with its new signCount,
and the world after one or two calls of the counter oracle. -/
def auth_data_update_count (env : Env) (w : World) (authData : CTAP_authDataHeader) :
    Nat × CTAP_authDataHeader × World :=
  let c1 := u32 (env.atomic_count w.count_calls)
  let w1 : World := { w with count_calls := w.count_calls + 1 }
  let r : Nat × World :=
    if c1 = 0 then
      (u32 (env.atomic_count w1.count_calls), { w1 with count_calls := w1.count_calls + 1 })
    else (c1, w1)
  (r.1, { authData with signCount := be32 r.1 }, r.2)

/-- `ctap_make_auth_data`: the assembled buffer, the items appended to `map`, and the
world after the oracle calls.  The buffer-size assertion cannot fail for the two
callers (300 and 37 bytes) and is left out. -/
def ctap_make_auth_data (env : Env) (s : State) (rp : rpId) (user : Option CTAP_userEntity)
    (credtype : Nat) (algtype : Int) : CTAP_authData × List CborItem × World :=
  let head0 : CTAP_authDataHeader :=
    { rpIdHash := env.sha256 rp.id, flags := 0, signCount := [0, 0, 0, 0] }
  let r := auth_data_update_count env s.world head0
  let count := r.1
  let up := env.user_presence_test r.2.2.presence_calls
  let w1 : World := { r.2.2 with presence_calls := r.2.2.presence_calls + 1 }
  let uv := env.user_verification w1.verification_calls
  let w2 : World := { w1 with verification_calls := w1.verification_calls + 1 }
  let flags := u8 ((u8 (up <<< 0)) ||| (uv <<< 2))
  let a : CTAP_authData :=
    if credtype ≠ 0 then
      let u := user.getD { id := [], name := [] }
      let cred : CredentialFields :=
        { tag := make_auth_tag env s rp u count, user := u, count := count }
      { head := { r.2.1 with flags := u8 (flags ||| (1 <<< 6)) }
        attest := some
          { aaguid := env.CTAP_AAGUID.take 16
            credLenH := (CREDENTIAL_ID_SIZE &&& 0xFF00) >>> 8
            credLenL := CREDENTIAL_ID_SIZE &&& 0x00FF
            credential := cred
            cose_key := ctap_generate_cose_key env (env.credential_id cred) credtype algtype } }
    else
      { head := { r.2.1 with flags := flags }, attest := none }
  (a, [CborItem.int RESP_authData, CborItem.bytes (authData_bytes env a)], w2)

/-- Lines 358–386 of `ctap_calculate_signature`: the DER encoding of the raw
signature in `sigbuf` written over `sigder`, and the returned length.  `lead_r0`,
`lead_s0` are the values the names `lead_r`, `lead_s` have on lines 359–360, ahead of
the declarations of the locals on lines 362–363.  The bytes `memmove` reads past
`sigbuf[63]` are read as 0; they land beyond the returned length. -/
def ctap_calculate_signature_der (lead_r0 lead_s0 : Nat) (sigbuf sigder : Bytes) :
    Int × Bytes :=
  let pad_s : Int := if (sigbuf.getD (32 + lead_s0) 0) &&& 0x80 = 0x80 then 1 else 0
  let pad_r : Int := if (sigbuf.getD (0 + lead_r0) 0) &&& 0x80 = 0x80 then 1 else 0
  let lead_s : Int := leading_zeros (sigbuf.drop 32) 32
  let lead_r : Int := leading_zeros sigbuf 32
  let d := sigder.set 0 0x30
  let d := d.set 1 (u8i (0x44 + pad_s + pad_r - lead_s - lead_r))
  let d := d.set 2 0x02
  let d := d.set (3 + pad_r).toNat 0
  let d := d.set 3 (u8i (0x20 + pad_r - lead_r))
  let d := memmove d (4 + pad_r).toNat (readBytes sigbuf lead_r.toNat 32)
  let d := d.set (4 + 32 + pad_r - lead_r).toNat 0x02
  let d := d.set (5 + 32 + pad_r + pad_s - lead_r).toNat 0
  let d := d.set (5 + 32 + pad_r - lead_r).toNat (u8i (0x20 + pad_s - lead_s))
  let d := memmove d (6 + 32 + pad_r + pad_s - lead_r).toNat
    (readBytes sigbuf (32 + lead_s).toNat 32)
  (0x46 + pad_s + pad_r - lead_r - lead_s, d)

/-- Result of `ctap_calculate_signature`: the returned length and the three output
buffers. -/
structure SignatureResult where
  len : Int
  hashbuf : Bytes
  sigbuf : Bytes
  sigder : Bytes
  world : World
  deriving DecidableEq, Repr

/-- `ctap_calculate_signature`: hash `data ‖ clientDataHash`, sign with the loaded
key, DER-encode into `sigder`. -/
def ctap_calculate_signature (env : Env) (w : World) (data clientDataHash sigder : Bytes) :
    SignatureResult :=
  let hashbuf := env.sha256 (data ++ clientDataHash.take CLIENT_DATA_HASH_SIZE)
  let sigbuf := env.ecc256_sign w.loaded_key (hashbuf.take 32) w.sign_calls
  let r := ctap_calculate_signature_der env.lead_r_outer env.lead_s_outer sigbuf sigder
  { len := r.1, hashbuf := hashbuf, sigbuf := sigbuf, sigder := r.2
    world := { w with sign_calls := w.sign_calls + 1 } }

/-- `ctap_add_attest_statement`: the items written (the function ends without a
`return`; its callers see the 0 left by the last encoder call). -/
def ctap_add_attest_statement (env : Env) (sigder : Bytes) (len : Int) : Nat × List CborItem :=
  (0,
    [ CborItem.int RESP_attStmt, CborItem.map 3,
      CborItem.text "alg", CborItem.int COSE_ALG_ES256,
      CborItem.text "sig", CborItem.bytes (sigder.take len.toNat),
      CborItem.text "x5c", CborItem.array 1, CborItem.bytes env.attestation_cert_der,
      CborItem.close,
      CborItem.close ])

/-! ## Make-credential (lines 447–522) -/

/-- The exclude-list loop of `ctap_make_credential` (lines 483–495): `some code` when
the loop returns, `none` when it runs to the end. -/
def ctap_make_credential_exclude (env : Env) (s : State) (rp : rpId) :
    List (Nat × CTAP_credentialDescriptor) → Option Nat
  | [] => none
  | (ret, excl_cred) :: rest =>
    if ret ≠ 0 then some (u8 ret)
    else if ctap_authenticate_credential env s rp excl_cred ≠ 0 then
      some CTAP2_ERR_CREDENTIAL_EXCLUDED
    else ctap_make_credential_exclude env s rp rest

/-- Lines 497–521 of `ctap_make_credential`: assemble, attest and emit the response. -/
def ctap_make_credential_finish (env : Env) (s : State) (MC : CTAP_makeCredential) :
    Nat × List CborItem × State :=
  let r := ctap_make_auth_data env s MC.rp (some MC.user) MC.publicKeyCredentialType
    MC.COSEAlgorithmIdentifier
  let auth_data_buf := authData_bytes env r.1
  let w1 : World := { r.2.2 with loaded_key := LoadedKey.attestation }
  let sg := ctap_calculate_signature env w1 auth_data_buf MC.clientDataHash
    (readBytes auth_data_buf 96 72)
  let st := ctap_add_attest_statement env sg.sigder sg.len
  let items := [CborItem.map 3] ++ r.2.1 ++ st.2
  if st.1 ≠ 0 then (u8 st.1, items, { s with world := sg.world })
  else
    (CTAP1_ERR_SUCCESS,
      items ++ [CborItem.int RESP_fmt, CborItem.text "packed", CborItem.close],
      { s with world := sg.world })

/-- Lines 483–521 of `ctap_make_credential`: what runs once the PIN check has passed. -/
def ctap_make_credential_body (env : Env) (s : State) (MC : CTAP_makeCredential) :
    Nat × List CborItem × State :=
  match ctap_make_credential_exclude env s MC.rp MC.excludeList with
  | some code => (code, [], s)
  | none => ctap_make_credential_finish env s MC

/-- `ctap_make_credential`: status, items written to the encoder, new state. -/
def ctap_make_credential (env : Env) (s : State) (request : Bytes) :
    Nat × List CborItem × State :=
  let p := env.parse_make_credential request
  let MC := p.2
  if p.1 ≠ 0 then (u8 p.1, [], s)
  else if MC.paramsParsed &&& env.MC_requiredMask ≠ env.MC_requiredMask then
    (CTAP2_ERR_MISSING_PARAMETER, [], s)
  else if ctap_is_pin_set s = 1 ∧ MC.pinAuthPresent = 0 then
    (CTAP2_ERR_PIN_REQUIRED, [], s)
  else
    let ret := if ctap_is_pin_set s ≠ 0 then verify_pin_auth env s MC.pinAuth MC.clientDataHash
      else 0
    if ret ≠ 0 then (u8 ret, [], s)
    else ctap_make_credential_body env s MC

/-! ## Get-assertion and its continuation (lines 537–804) -/

/-- `ctap_add_credential_descriptor`: the items written. -/
def ctap_add_credential_descriptor (env : Env) (cred : CTAP_credentialDescriptor) :
    List CborItem :=
  [ CborItem.int RESP_credential, CborItem.map 2,
    CborItem.text "type", CborItem.int cred.type,
    CborItem.text "id", CborItem.bytes (env.credential_id cred.credential),
    CborItem.close ]

/-- `ctap_add_user_entity`: the items written. -/
def ctap_add_user_entity (user : CTAP_userEntity) : List CborItem :=
  [ CborItem.int RESP_publicKeyCredentialUserEntity, CborItem.map 2,
    CborItem.text "id", CborItem.bytes user.id,
    CborItem.text "displayName", CborItem.textz (user.name.takeWhile (fun b => b != 0)),
    CborItem.close ]

/-- `cred_cmp_func`: the `uint32_t` difference `b.count - a.count`, returned as `int`. -/
def cred_cmp_func (a b : CTAP_credentialDescriptor) : Int :=
  let d := (u32 b.credential.count + 4294967296 - u32 a.credential.count) % 4294967296
  if d < 2147483648 then (d : Int) else (d : Int) - 4294967296

/-- The libc `qsort` driven by `cred_cmp_func`, as an insertion sort: an element goes
in front of the first one it does not compare greater than.  Where the comparison is
a consistent order on pairwise distinct keys the result is the one sorted list, as for
any sorting routine; elsewhere the C standard leaves the result of `qsort` open. -/
def qsort_creds (creds : List CTAP_credentialDescriptor) : List CTAP_credentialDescriptor :=
  creds.insertionSort (fun a b => cred_cmp_func a b ≤ 0)

/-- The loop of `ctap_filter_invalid_credentials` (lines 612–623): credentials that
fail to authenticate get count 0. -/
def invalidate_credentials (env : Env) (s : State) (rp : rpId)
    (creds : List CTAP_credentialDescriptor) : List CTAP_credentialDescriptor :=
  creds.map (fun c =>
    if ctap_authenticate_credential env s rp c = 0 then
      { c with credential := { c.credential with count := 0 } }
    else c)

/-- `ctap_filter_invalid_credentials`: the number of valid credentials and the
request with its credentials invalidated and sorted. -/
def ctap_filter_invalid_credentials (env : Env) (s : State) (GA : CTAP_getAssertion) :
    Int × CTAP_getAssertion :=
  (((GA.creds.filter (fun c => ctap_authenticate_credential env s GA.rp c != 0)).length : Int),
    { GA with creds := qsort_creds (invalidate_credentials env s GA.rp GA.creds) })

/-- `save_credential_list`. -/
def save_credential_list (s : State) (head : CTAP_authDataHeader) (clientDataHash : Bytes)
    (creds : List CTAP_credentialDescriptor) (count : Nat) : State :=
  if count ≠ 0 then
    { s with getAssertionState :=
      { s.getAssertionState with
        clientDataHash := clientDataHash.take CLIENT_DATA_HASH_SIZE
        authData := head
        creds := creds.take count ++ s.getAssertionState.creds.drop count
        count := count } }
  else
    { s with getAssertionState := { s.getAssertionState with count := count } }

/-- The all-zero descriptor an untouched slot of `getAssertionState.creds` holds. -/
def zero_credential : CTAP_credentialDescriptor :=
  { type := 0
    credential :=
      { tag := List.replicate CREDENTIAL_TAG_SIZE 0, user := { id := [], name := [] }, count := 0 } }

/-- `pop_credential`: `none` is the `NULL` result. -/
def pop_credential (s : State) : Option CTAP_credentialDescriptor × State :=
  if s.getAssertionState.count > 0 then
    let n := s.getAssertionState.count - 1
    (some (s.getAssertionState.creds.getD n zero_credential),
      { s with getAssertionState := { s.getAssertionState with count := n } })
  else (none, s)

/-- Result of `ctap_end_get_assertion`: return code, items written, `auth_data_buf`
after the call (its first 32 bytes serve as `hashbuf`), and the world. -/
structure EndGetAssertion where
  ret : Nat
  items : List CborItem
  auth_data_buf : CTAP_authDataHeader
  world : World
  deriving DecidableEq, Repr

/-- `ctap_end_get_assertion`.  The call of `ctap_calculate_signature` passes
`auth_data_buf` as `hashbuf`, so the digest overwrites the rpIdHash bytes.  The local
`sigder` is taken as 72 zero bytes; every byte below the returned length is written by
`ctap_calculate_signature`. -/
def ctap_end_get_assertion (env : Env) (w : World) (cred : CTAP_credentialDescriptor)
    (auth_data_buf : CTAP_authDataHeader) (clientDataHash : Bytes) : EndGetAssertion :=
  let w1 : World := { w with loaded_key := LoadedKey.seed (env.credential_id cred.credential) }
  let sg := ctap_calculate_signature env w1 (authDataHeader_bytes auth_data_buf) clientDataHash
    (List.replicate 72 0)
  { ret := 0
    items := ctap_add_credential_descriptor env cred ++ ctap_add_user_entity cred.credential.user
      ++ [CborItem.int RESP_signature, CborItem.bytes (sg.sigder.take sg.len.toNat)]
    auth_data_buf := { auth_data_buf with rpIdHash := sg.hashbuf.take 32 }
    world := sg.world }

/-- `ctap_get_next_assertion`: status, items written, new state. -/
def ctap_get_next_assertion (env : Env) (s : State) : Nat × List CborItem × State :=
  let p := pop_credential s
  match p.1 with
  | none => (CTAP2_ERR_NOT_ALLOWED, [], p.2)
  | some cred =>
    let u := auth_data_update_count env p.2.world p.2.getAssertionState.authData
    let authData := u.2.1
    let e := ctap_end_get_assertion env u.2.2 cred authData p.2.getAssertionState.clientDataHash
    let s1 : State :=
      { p.2 with
        getAssertionState := { p.2.getAssertionState with authData := e.auth_data_buf }
        world := e.world }
    let items := [CborItem.map 4, CborItem.int RESP_authData,
      CborItem.bytes (authDataHeader_bytes authData)] ++ e.items
    if e.ret ≠ 0 then (u8 e.ret, items, s1)
    else (0, items ++ [CborItem.close], s1)

/-- Lines 748–803 of `ctap_get_assertion`: what runs once the PIN check has passed.
The function ends without a `return`; on that path the caller sees the 0 left by the
last encoder call. -/
def ctap_get_assertion_body (env : Env) (s : State) (GA : CTAP_getAssertion) :
    Nat × List CborItem × State :=
  let r := ctap_make_auth_data env s GA.rp none 0 0
  let s1 : State := { s with world := r.2.2 }
  let auth_data_buf := r.1.head
  let items0 := [CborItem.map 5] ++ r.2.1
  let f := ctap_filter_invalid_credentials env s1 GA
  let validCredCount := f.1
  if validCredCount > 0 then
    let s2 := save_credential_list s1 auth_data_buf GA.clientDataHash f.2.creds
      (validCredCount - 1).toNat
    let cred := f.2.creds.getD (validCredCount - 1).toNat zero_credential
    let e := ctap_end_get_assertion env s2.world cred auth_data_buf GA.clientDataHash
    let items := items0 ++ [CborItem.int RESP_numberOfCredentials, CborItem.int validCredCount]
      ++ e.items
    let s3 : State := { s2 with world := e.world }
    if e.ret ≠ 0 then (u8 e.ret, items, s3)
    else (0, items ++ [CborItem.close], s3)
  else
    (CTAP2_ERR_CREDENTIAL_NOT_VALID, items0, s1)

/-- `ctap_get_assertion`: status, items written to the encoder, new state. -/
def ctap_get_assertion (env : Env) (s : State) (request : Bytes) :
    Nat × List CborItem × State :=
  let p := env.parse_get_assertion request
  let GA := p.2
  if p.1 ≠ 0 then (u8 p.1, [], s)
  else if s.PIN_CODE_SET = 1 ∧ GA.pinAuthPresent = 0 then
    (CTAP2_ERR_PIN_REQUIRED, [], s)
  else
    let ret := if ctap_is_pin_set s ≠ 0 then verify_pin_auth env s GA.pinAuth GA.clientDataHash
      else 0
    if ret ≠ 0 then (u8 ret, [], s)
    else ctap_get_assertion_body env s GA

/-! ## Client PIN (lines 806–1039) -/

/-- The `while ((len & 0xf) != 0) len++` loop: `len` rounded up to a multiple of 16. -/
def round_up_16 (len : Nat) : Nat :=
  if len % 16 = 0 then len else len + (16 - len % 16)

/-- The SHA-256 of the ECDH shared secret (lines 817–821 and 888–892). -/
def pin_shared_secret (env : Env) (s : State) (platform_pubkey : Bytes) : Bytes :=
  env.sha256 ((env.ecc256_shared_secret platform_pubkey s.KEY_AGREEMENT_PRIV).take 32)

/-- `ctap_update_pin_if_verified`; `pinHashEnc = none` is the `NULL` argument of
setPin.  The outer `none` is the `exit(1)` inside `ctap_update_pin`. -/
def ctap_update_pin_if_verified (env : Env) (s : State) (pinEnc : Bytes) (len : Nat)
    (platform_pubkey pinAuth : Bytes) (pinHashEnc : Option Bytes) : Option (Nat × State) :=
  if len < 64 then some (CTAP1_ERR_OTHER, s)
  else
    let shared_secret := pin_shared_secret env s platform_pubkey
    let hmac := env.sha256_hmac (shared_secret.take 32)
      (pinEnc.take len ++ (match pinHashEnc with
        | some h => h.take 16
        | none => []))
    if ¬ memcmp_eq hmac pinAuth 16 then some (CTAP2_ERR_PIN_AUTH_INVALID, s)
    else
      let len1 := round_up_16 len
      let pinEnc1 := env.aes256_decrypt shared_secret (pinEnc.take len1) ++ pinEnc.drop len1
      let ret := strnlen pinEnc1 env.NEW_PIN_ENC_MAX_SIZE
      if ret = env.NEW_PIN_ENC_MAX_SIZE then some (CTAP1_ERR_OTHER, s)
      else if ret < 4 then some (CTAP2_ERR_PIN_POLICY_VIOLATION, s)
      else if ctap_is_pin_set s ≠ 0 then
        let pinHashEnc1 := env.aes256_decrypt shared_secret ((pinHashEnc.getD []).take 16)
        if ¬ memcmp_eq pinHashEnc1 s.PIN_CODE_HASH 16 then
          some (CTAP2_ERR_PIN_INVALID,
            (ctap_decrement_pin_attempts (make_key_agreement_pair env s)).2)
        else
          (ctap_update_pin env (ctap_reset_pin_attempts s) pinEnc1 ret).map
            (fun s1 => (0, s1))
      else
        (ctap_update_pin env s pinEnc1 ret).map (fun s1 => (0, s1))

/-- `ctap_add_pin_if_verified`: status, items written, new state. -/
def ctap_add_pin_if_verified (env : Env) (s : State) (platform_pubkey pinHashEnc : Bytes) :
    Nat × List CborItem × State :=
  let shared_secret := pin_shared_secret env s platform_pubkey
  let pinHashEnc1 := env.aes256_decrypt shared_secret (pinHashEnc.take 16)
  if ¬ memcmp_eq pinHashEnc1 s.PIN_CODE_HASH 16 then
    (CTAP2_ERR_PIN_INVALID, [],
      (ctap_decrement_pin_attempts (make_key_agreement_pair env s)).2)
  else
    let s1 := ctap_reset_pin_attempts s
    (0, [CborItem.bytes (env.aes256_encrypt shared_secret (s.PIN_TOKEN.take PIN_TOKEN_SIZE))], s1)

/-- The tail of `ctap_client_pin` (lines 1024–1038): the retries entry and the close. -/
def ctap_client_pin_tail (s : State) (getRetries num_map : Nat) : List CborItem :=
  (if getRetries ≠ 0 then
    [CborItem.int RESP_retries, CborItem.int (ctap_leftover_pin_attempts s)] else [])
  ++ (if num_map ≠ 0 then [CborItem.close] else [])

/-- The `CP_cmdSetPin` case of `ctap_client_pin` (lines 965–979) with what follows
the `switch`. -/
def ctap_client_pin_setPin (env : Env) (s : State) (CP : CTAP_clientPin) (num_map : Nat) :
    Option (Nat × List CborItem × State) :=
  if ctap_is_pin_set s ≠ 0 then some (CTAP2_ERR_NOT_ALLOWED, [], s)
  else if CP.newPinEncSize = 0 ∨ CP.pinAuthPresent = 0 ∨ CP.keyAgreementPresent = 0 then
    some (CTAP2_ERR_MISSING_PARAMETER, [], s)
  else
    (ctap_update_pin_if_verified env s CP.newPinEnc CP.newPinEncSize CP.pubkey CP.pinAuth
      none).map (fun r =>
        if r.1 ≠ 0 then (u8 r.1, [], r.2)
        else (0, ctap_client_pin_tail r.2 CP.getRetries num_map, r.2))

/-- The `CP_cmdChangePin` case of `ctap_client_pin` (lines 980–995) with what follows
the `switch`. -/
def ctap_client_pin_changePin (env : Env) (s : State) (CP : CTAP_clientPin) (num_map : Nat) :
    Option (Nat × List CborItem × State) :=
  if ctap_is_pin_set s = 0 then some (CTAP2_ERR_PIN_NOT_SET, [], s)
  else if CP.newPinEncSize = 0 ∨ CP.pinAuthPresent = 0 ∨ CP.keyAgreementPresent = 0
      ∨ CP.pinHashEncPresent = 0 then
    some (CTAP2_ERR_MISSING_PARAMETER, [], s)
  else
    (ctap_update_pin_if_verified env s CP.newPinEnc CP.newPinEncSize CP.pubkey CP.pinAuth
      (some CP.pinHashEnc)).map (fun r =>
        if r.1 ≠ 0 then (u8 r.1, [], r.2)
        else (0, ctap_client_pin_tail r.2 CP.getRetries num_map, r.2))

/-- The `CP_cmdGetPinToken` case of `ctap_client_pin` (lines 996–1017) with what
follows the `switch`. -/
def ctap_client_pin_getPinToken (env : Env) (s : State) (CP : CTAP_clientPin) (num_map : Nat) :
    Nat × List CborItem × State :=
  if ctap_is_pin_set s = 0 then (CTAP2_ERR_PIN_NOT_SET, [], s)
  else if CP.keyAgreementPresent = 0 ∨ CP.pinHashEncPresent = 0 then
    (CTAP2_ERR_MISSING_PARAMETER, [CborItem.map (num_map + 1)], s)
  else
    let r := ctap_add_pin_if_verified env s CP.pubkey CP.pinHashEnc
    let items := [CborItem.map (num_map + 1), CborItem.int RESP_pinToken] ++ r.2.1
    if r.1 ≠ 0 then (u8 r.1, items, r.2.2)
    else (0, items ++ ctap_client_pin_tail r.2.2 CP.getRetries (num_map + 1), r.2.2)

/-- `ctap_client_pin`: status, items written, new state; `none` is `exit(1)`. -/
def ctap_client_pin (env : Env) (s : State) (request : Bytes) :
    Option (Nat × List CborItem × State) :=
  let p := env.parse_client_pin request
  let CP := p.2
  if p.1 ≠ 0 then some (u8 p.1, [], s)
  else if CP.pinProtocol ≠ 1 ∨ CP.subCommand = 0 then some (CTAP1_ERR_OTHER, [], s)
  else
    let num_map : Nat := if CP.getRetries ≠ 0 then 1 else 0
    if CP.subCommand = CP_cmdGetRetries then
      some (0, [CborItem.map 1] ++ ctap_client_pin_tail s 1 num_map, s)
    else if CP.subCommand = CP_cmdGetKeyAgreement then
      some (0,
        [CborItem.map (num_map + 1), CborItem.int RESP_keyAgreement]
          ++ ctap_add_cose_key (s.KEY_AGREEMENT_PUB.take 32) (s.KEY_AGREEMENT_PUB.drop 32)
            COSE_ALG_ES256
          ++ ctap_client_pin_tail s CP.getRetries (num_map + 1), s)
    else if CP.subCommand = CP_cmdSetPin then ctap_client_pin_setPin env s CP num_map
    else if CP.subCommand = CP_cmdChangePin then ctap_client_pin_changePin env s CP num_map
    else if CP.subCommand = CP_cmdGetPinToken then
      some (ctap_client_pin_getPinToken env s CP num_map)
    else some (CTAP1_ERR_OTHER, [], s)

/-! ## Dispatcher (lines 1043–1157) -/

/-- The second `switch` of `ctap_handle_packet`: the status, the items written, the
value `cmd` has at `done`, and the new state; `none` is `exit(1)`. -/
def ctap_handle_packet_dispatch (env : Env) (s : State) (cmd : Nat) (pkt : Bytes) :
    Option (Nat × List CborItem × Nat × State) :=
  if cmd = CTAP_MAKE_CREDENTIAL then
    let r := ctap_make_credential env s pkt
    some (r.1, r.2.1, cmd, r.2.2)
  else if cmd = CTAP_GET_ASSERTION then
    let r := ctap_get_assertion env s pkt
    some (r.1, r.2.1, cmd, r.2.2)
  else if cmd = CTAP_CANCEL then some (0, [], cmd, s)
  else if cmd = CTAP_GET_INFO then
    let r := ctap_get_info env s
    some (r.1, r.2, cmd, s)
  else if cmd = CTAP_CLIENT_PIN then
    (ctap_client_pin env s pkt).map (fun r => (r.1, r.2.1, cmd, r.2.2))
  else if cmd = CTAP_RESET then
    let up := env.user_presence_test s.world.presence_calls
    let s1 : State :=
      { s with world := { s.world with presence_calls := s.world.presence_calls + 1 } }
    if up ≠ 0 then some (0, [], cmd, ctap_reset env s1)
    else some (CTAP2_ERR_NOT_ALLOWED, [], cmd, s1)
  else if cmd = GET_NEXT_ASSERTION then
    if s.getAssertionState.lastcmd = CTAP_GET_ASSERTION then
      let r := ctap_get_next_assertion env s
      some (r.1, r.2.1, (if r.1 = 0 then CTAP_GET_ASSERTION else cmd), r.2.2)
    else some (CTAP2_ERR_NOT_ALLOWED, [], cmd, s)
  else some (CTAP1_ERR_INVALID_COMMAND, [], cmd, s)

/-- `ctap_handle_packet`: the returned status, the response and the new state, for
the packet `pkt_raw` (command byte first); `none` is `exit(1)`. -/
def ctap_handle_packet (env : Env) (s : State) (pkt_raw : Bytes) :
    Option (Nat × CTAP_RESPONSE × State) :=
  let cmd := pkt_raw.headD 0
  let pkt := pkt_raw.tail
  let r : Option (Nat × List CborItem × Nat × State) :=
    if (cmd = CTAP_MAKE_CREDENTIAL ∨ cmd = CTAP_GET_ASSERTION ∨ cmd = CTAP_CLIENT_PIN)
        ∧ ctap_device_locked s ≠ 0 then
      some (CTAP2_ERR_NOT_ALLOWED, [], cmd, s)
    else ctap_handle_packet_dispatch env s cmd pkt
  r.map (fun r =>
    let s1 : State :=
      { r.2.2.2 with getAssertionState := { r.2.2.2.getAssertionState with lastcmd := r.2.2.1 } }
    (r.1,
      { data := r.2.1, length := if r.1 ≠ CTAP1_ERR_SUCCESS then 0 else r.2.1.length },
      s1))

/-- A run of `ctap_handle_packet` over a list of packets: the statuses and responses
in order and the final state; `none` when a call exits. -/
def ctap_run (env : Env) : State → List Bytes → Option (List (Nat × CTAP_RESPONSE) × State)
  | s, [] => some ([], s)
  | s, pkt :: rest =>
    match ctap_handle_packet env s pkt with
    | none => none
    | some r =>
      match ctap_run env r.2.2 rest with
      | none => none
      | some t => some ((r.1, r.2.1) :: t.1, t.2)

/-! ## Observations on responses (used to state the properties) -/

/-- The credential id a get-assertion response carries: the byte string that follows
the first `"id"` key. -/
def response_credential_id : List CborItem → Option Bytes
  | [] => none
  | [_] => none
  | a :: b :: rest =>
    match a, b with
    | CborItem.text k, CborItem.bytes v =>
      if k = "id" then some v else response_credential_id (b :: rest)
    | _, _ => response_credential_id (b :: rest)

/-- The authenticator data a response carries: the byte string that follows the
`RESP_authData` key at the head of the response map. -/
def response_auth_data : List CborItem → Option Bytes
  | _ :: CborItem.int k :: CborItem.bytes v :: _ => if k = RESP_authData then some v else none
  | _ => none

/-- Value of a big-endian unsigned byte string. -/
def be_value (b : Bytes) : Nat :=
  b.foldl (fun acc x => acc * 256 + x) 0

/-- Value of the content bytes of a DER INTEGER (two's complement, big-endian). -/
def der_int_value (b : Bytes) : Int :=
  if b.headD 0 ≥ 128 then (be_value b : Int) - (256 : Int) ^ b.length else (be_value b : Int)

/-- Minimal-length rule for the content bytes of a DER INTEGER: at least one byte, and
no leading 0x00 unless the next byte has its top bit set. -/
def der_int_minimal (b : Bytes) : Bool :=
  match b with
  | [] => false
  | [_] => true
  | x :: y :: _ => !(x == 0 && y < 128)

/-- One DER INTEGER (tag 0x02, short-form length) at the head of `b`: its content
bytes and the remaining input. -/
def der_read_integer (b : Bytes) : Option (Bytes × Bytes) :=
  match b with
  | t :: l :: rest =>
    if t = 0x02 ∧ l < 128 ∧ l ≤ rest.length ∧ der_int_minimal (rest.take l) then
      some (rest.take l, rest.drop l)
    else none
  | _ => none

/-- Decoder for a DER `SEQUENCE { INTEGER r, INTEGER s }` that fills its input exactly:
the two integer values, or `none` when the input is not well formed. -/
def der_decode_signature (b : Bytes) : Option (Int × Int) :=
  match b with
  | t :: l :: rest =>
    if t = 0x30 ∧ l < 128 ∧ l = rest.length then
      match der_read_integer rest with
      | none => none
      | some (r, rest1) =>
        match der_read_integer rest1 with
        | none => none
        | some (sv, rest2) =>
          if rest2 = [] then some (der_int_value r, der_int_value sv) else none
    else none
  | _ => none

/-- The ways one call can change the retry counter and the lockout flag: leave both,
use up one retry, lock with no retry left, restore the retries, or reset both. -/
def pin_counters_step (s s1 : State) : Prop :=
  (s1._flash_tries = s._flash_tries ∧ s1.DEVICE_LOCKOUT = s.DEVICE_LOCKOUT) ∨
  (0 < s._flash_tries ∧ s1._flash_tries = s._flash_tries - 1
    ∧ s1.DEVICE_LOCKOUT = s.DEVICE_LOCKOUT) ∨
  (s._flash_tries ≤ 0 ∧ s1._flash_tries = s._flash_tries ∧ s1.DEVICE_LOCKOUT = 1) ∨
  (s1._flash_tries = 8 ∧ s1.DEVICE_LOCKOUT = s.DEVICE_LOCKOUT) ∨
  (s1._flash_tries = 8 ∧ s1.DEVICE_LOCKOUT = 0)

/-- The 16 bytes `verify_pin_auth` compares `pinAuth` with: the left half of
HMAC-SHA-256 of the client-data-hash under `PIN_TOKEN`. -/
def pin_auth_mac (env : Env) (s : State) (clientDataHash : Bytes) : Bytes :=
  (env.sha256_hmac (s.PIN_TOKEN.take PIN_TOKEN_SIZE)
    (clientDataHash.take CLIENT_DATA_HASH_SIZE)).take 16

/-- The entries of an allow-list that authenticate for `rp`. -/
def valid_credentials (env : Env) (s : State) (rp : rpId)
    (creds : List CTAP_credentialDescriptor) : List CTAP_credentialDescriptor :=
  creds.filter (fun c => ctap_authenticate_credential env s rp c != 0)

/-- Descending order on the count field. -/
def count_ge (a b : CTAP_credentialDescriptor) : Prop :=
  b.credential.count ≤ a.credential.count

/-- The DER signature `ctap_calculate_signature` hands to the encoder for the raw
signature `sigbuf`: the first `n` bytes of `sigder`, `n` the returned length. -/
def der_signature (lead_r0 lead_s0 : Nat) (sigbuf : Bytes) : Bytes :=
  let r := ctap_calculate_signature_der lead_r0 lead_s0 sigbuf (List.replicate 72 0)
  r.2.take r.1.toNat

/-! ## A test environment

Small stand-ins for the collaborators (test crypto, scripted oracles, table-driven
parsers), used to run the handlers on concrete packets. -/

/-- Test digest: 32 bytes derived from a rolling checksum of the input. -/
def test_sha256 (b : Bytes) : Bytes :=
  let h := b.foldl (fun h x => (h * 31 + x + 1) % 65521) 7
  (List.range 32).map (fun i => (h + i * (h / 256 + 1)) % 256)

/-- Test cipher: add the first key byte to every byte. -/
def test_encrypt (key data : Bytes) : Bytes :=
  data.map (fun x => (x + key.headD 0) % 256)

/-- Test cipher, inverse direction. -/
def test_decrypt (key data : Bytes) : Bytes :=
  data.map (fun x => (x + 256 - key.headD 0 % 256) % 256)

/-- Test serialisation of the credential id: tag, user id, user name, count. -/
def test_credential_id (c : CredentialFields) : Bytes :=
  c.tag ++ c.user.id ++ c.user.name ++ le32 c.count

/-- A get-assertion request with nothing in it. -/
def empty_getAssertion : CTAP_getAssertion :=
  { clientDataHash := [], rp := { id := [] }, creds := [], pinAuth := [], pinAuthPresent := 0 }

/-- A make-credential request with nothing in it. -/
def empty_makeCredential : CTAP_makeCredential :=
  { paramsParsed := 0, clientDataHash := [], rp := { id := [] }, user := { id := [], name := [] },
    publicKeyCredentialType := 0, COSEAlgorithmIdentifier := 0, excludeList := [],
    pinAuth := [], pinAuthPresent := 0 }

/-- A client-PIN request with nothing in it. -/
def empty_clientPin : CTAP_clientPin :=
  { pinProtocol := 0, subCommand := 0, keyAgreementPresent := 0, pubkey := [], pinAuth := [],
    pinAuthPresent := 0, newPinEnc := [], newPinEncSize := 0, pinHashEnc := [],
    pinHashEncPresent := 0, getRetries := 0 }

/-- The test environment with parsers that reject every request. -/
def test_env0 : Env where
  USER_NAME_LIMIT := 8
  NEW_PIN_ENC_MAX_SIZE := 64
  MC_requiredMask := 0x0f
  CTAP_AAGUID := List.replicate 16 0xAA
  CTAP_MAX_MESSAGE_SIZE := 1024
  attestation_cert_der := [0x30, 0x00]
  lead_r_outer := 0
  lead_s_outer := 0
  sha256 := test_sha256
  sha256_hmac := fun key msg => test_sha256 (key ++ msg)
  ecc256_shared_secret := fun pub priv => List.zipWith (fun a b => (a + b) % 256) pub priv
  ecc256_derive_public_key := fun seed => (test_sha256 (1 :: seed), test_sha256 (2 :: seed))
  ecc256_sign := fun _ hash n =>
    List.replicate 32 ((hash.headD 0 + n) % 128 + 1) ++ List.replicate 32 ((n + 1) % 128 + 1)
  ecc256_make_key_pair := fun n => (List.replicate 64 (n + 1), List.replicate 32 (n + 2))
  aes256_decrypt := test_decrypt
  aes256_encrypt := test_encrypt
  master_secret := fun n => [n, 42]
  atomic_count := fun n => n + 1
  user_presence_test := fun _ => 1
  user_verification := fun _ => 0
  generate_rng := fun n k => (List.replicate k (n + 5), 1)
  parse_make_credential := fun _ => (0x12, empty_makeCredential)
  parse_get_assertion := fun _ => (0x12, empty_getAssertion)
  parse_client_pin := fun _ => (0x12, empty_clientPin)
  credential_id := test_credential_id
  cbor_bytes := fun items => [items.length]

/-- The state the test device is in after `ctap_init` on the zeroed statics. -/
def test_state : State :=
  (ctap_init test_env0 (boot_state test_env0)).getD (boot_state test_env0)

/-- Test relying party. -/
def test_rp : rpId := { id := [101, 120] }

/-- Test user entity. -/
def test_user : CTAP_userEntity :=
  { id := [1, 2, 3, 4, 5, 6, 7, 8], name := [97, 98, 0, 0, 0, 0, 0, 0] }

/-- A credential of the test device for `test_rp`, as make-credential issues it at
sign-count `count`. -/
def test_credential (count : Nat) : CTAP_credentialDescriptor :=
  { type := PUB_KEY_CRED_PUB_KEY
    credential :=
      { tag := make_auth_tag test_env0 test_state test_rp test_user count
        user := test_user
        count := count } }

/-- Platform public key used by the test client-PIN requests. -/
def test_platform_pubkey : Bytes := List.replicate 64 3

/-- The shared secret the test platform derives against the key-agreement key of
`test_state`. -/
def test_shared_secret : Bytes :=
  pin_shared_secret test_env0 test_state test_platform_pubkey

/-- The PIN `"1234"`, NUL-padded to 64 bytes and encrypted for `test_state`. -/
def test_newPinEnc : Bytes :=
  test_encrypt test_shared_secret ([49, 50, 51, 52] ++ List.replicate 60 0)

/-- A well-formed setPin request for `test_state`. -/
def test_setPin : CTAP_clientPin :=
  { pinProtocol := 1, subCommand := CP_cmdSetPin, keyAgreementPresent := 1,
    pubkey := test_platform_pubkey,
    pinAuth := (test_sha256 (test_shared_secret.take 32 ++ test_newPinEnc)).take 16,
    pinAuthPresent := 1, newPinEnc := test_newPinEnc, newPinEncSize := 64,
    pinHashEnc := [], pinHashEncPresent := 0, getRetries := 0 }

/-- A getPinToken request whose pinHashEnc does not decrypt to the PIN hash. -/
def test_getPinToken_wrong : CTAP_clientPin :=
  { pinProtocol := 1, subCommand := CP_cmdGetPinToken, keyAgreementPresent := 1,
    pubkey := test_platform_pubkey, pinAuth := [], pinAuthPresent := 0,
    newPinEnc := [], newPinEncSize := 0,
    pinHashEnc := List.replicate 16 0xEE, pinHashEncPresent := 1, getRetries := 0 }

/-- A get-assertion request for `test_rp` with the given allow-list. -/
def test_getAssertion (creds : List CTAP_credentialDescriptor) : CTAP_getAssertion :=
  { clientDataHash := List.replicate 32 9, rp := test_rp, creds := creds, pinAuth := [],
    pinAuthPresent := 0 }

/-- A make-credential request for `test_rp` with the given exclude-list. -/
def test_makeCredential (excl : List (Nat × CTAP_credentialDescriptor)) : CTAP_makeCredential :=
  { paramsParsed := 0x0f, clientDataHash := List.replicate 32 9, rp := test_rp,
    user := test_user, publicKeyCredentialType := PUB_KEY_CRED_PUB_KEY,
    COSEAlgorithmIdentifier := COSE_ALG_ES256, excludeList := excl, pinAuth := [],
    pinAuthPresent := 0 }

/-- The test environment: request byte `1`, `2`, ... selects a prepared request. -/
def test_env : Env :=
  { test_env0 with
    parse_make_credential := fun req =>
      if req = [1] then (0, test_makeCredential [])
      else if req = [2] then (0, test_makeCredential [(0, test_credential 1)])
      else (0x12, empty_makeCredential)
    parse_get_assertion := fun req =>
      if req = [1] then (0, test_getAssertion [test_credential 7, test_credential 42])
      else if req = [2] then
        (0, test_getAssertion [test_credential 7, test_credential 42, test_credential 9])
      else (0x12, empty_getAssertion)
    parse_client_pin := fun req =>
      if req = [1] then (0, test_setPin)
      else if req = [2] then (0, test_getPinToken_wrong)
      else (0x12, empty_clientPin) }

/-- The test device after the setPin request `[6, 1]`: PIN `"1234"` set. -/
def test_state_pin : State :=
  ((ctap_run test_env test_state [[6, 1]]).map (fun r => r.2)).getD test_state

/-- The test device after setPin and seven wrong getPinToken requests. -/
def test_state_pin7 : State :=
  ((ctap_run test_env test_state_pin (List.replicate 7 [6, 2])).map (fun r => r.2)).getD
    test_state

/-- The test device after a get-assertion over three valid credentials. -/
def test_state_ga3 : State :=
  ((ctap_run test_env test_state [[2, 2]]).map (fun r => r.2)).getD test_state

/-- A raw signature whose `r` is `00 80 00 .. 00` and whose `s` is `01 00 .. 00`. -/
def test_sig_zero_then_msb : Bytes :=
  [0, 0x80] ++ List.replicate 30 0 ++ [1] ++ List.replicate 31 0

/-- A raw signature whose `r` is `80 00 .. 00` and whose `s` is `01 00 .. 00`. -/
def test_sig_msb : Bytes :=
  [0x80] ++ List.replicate 31 0 ++ [1] ++ List.replicate 31 0

/-- A descriptor with the given count and nothing else. -/
def count_only_credential (count : Nat) : CTAP_credentialDescriptor :=
  { zero_credential with credential := { zero_credential.credential with count := count } }

/-- The result of GET_INFO on the test device after the three-credential
get-assertion. -/
def test_after_info : Nat × CTAP_RESPONSE × State :=
  (ctap_handle_packet test_env test_state_ga3 [CTAP_GET_INFO]).getD
    (0, { data := [], length := 0 }, test_state)

/-- A descriptor for `test_rp` whose tag the test device did not make. -/
def test_forged_credential : CTAP_credentialDescriptor :=
  { type := PUB_KEY_CRED_PUB_KEY
    credential := { tag := List.replicate 16 0, user := test_user, count := 5 } }

/-- The numberOfCredentials value a get-assertion response carries: the integer that
follows the `RESP_numberOfCredentials` key, written right after the authenticator
data. -/
def response_number_of_credentials : List CborItem → Option Int
  | _ :: _ :: _ :: CborItem.int k :: CborItem.int v :: _ =>
    if k = RESP_numberOfCredentials then some v else none
  | _ => none

/-- The test environment with a get-assertion request whose allow-list holds only the
forged descriptor. -/
def test_env_forged : Env :=
  { test_env with parse_get_assertion := fun _ => (0, test_getAssertion [test_forged_credential]) }

/-- The state change of a PIN mismatch: a fresh key-agreement pair, the PIN, its hash
and `PIN_CODE_SET` untouched, and one retry used up - or, when no retry is left, the
lockout flag set and the counter left where it is. -/
def pin_mismatch_outcome (env : Env) (s s1 : State) : Prop :=
  (s1.KEY_AGREEMENT_PUB, s1.KEY_AGREEMENT_PRIV) = env.ecc256_make_key_pair s.world.keypair_calls
  ∧ s1.world.keypair_calls = s.world.keypair_calls + 1
  ∧ s1.PIN_CODE = s.PIN_CODE ∧ s1.PIN_CODE_HASH = s.PIN_CODE_HASH
  ∧ s1.PIN_CODE_SET = s.PIN_CODE_SET
  ∧ (0 < s._flash_tries →
      s1._flash_tries = s._flash_tries - 1 ∧ s1.DEVICE_LOCKOUT = s.DEVICE_LOCKOUT)
  ∧ (s._flash_tries ≤ 0 → s1._flash_tries = s._flash_tries ∧ s1.DEVICE_LOCKOUT = 1)

/-- The test environment with a client-PIN parser that yields `CP` for every request. -/
def test_env_cp (CP : CTAP_clientPin) : Env :=
  { test_env with parse_client_pin := fun _ => (0, CP) }

/-- The test device after setPin and eight wrong getPinToken requests. -/
def test_state_pin8 : State :=
  ((ctap_run test_env test_state_pin (List.replicate 8 [6, 2])).map (fun r => r.2)).getD
    test_state

/-- The block `pin`, NUL-padded to 64 bytes and encrypted under the secret the test
platform shares with the device in state `s`. -/
def test_pinEnc (s : State) (pin : Bytes) : Bytes :=
  test_encrypt (pin_shared_secret test_env0 s test_platform_pubkey)
    (pin ++ List.replicate (64 - pin.length) 0)

/-- The pinAuth of a changePin request carrying `newPinEnc` and `pinHashEnc`, for the
device in state `s`. -/
def test_changePin_auth (s : State) (newPinEnc pinHashEnc : Bytes) : Bytes :=
  (test_sha256 ((pin_shared_secret test_env0 s test_platform_pubkey).take 32
    ++ newPinEnc ++ pinHashEnc.take 16)).take 16

/-- A changePin request to `"5678"` for the device in state `s`, with the given
pinHashEnc. -/
def test_changePin (s : State) (pinHashEnc : Bytes) : CTAP_clientPin :=
  { pinProtocol := 1, subCommand := CP_cmdChangePin, keyAgreementPresent := 1,
    pubkey := test_platform_pubkey,
    pinAuth := test_changePin_auth s (test_pinEnc s [53, 54, 55, 56]) pinHashEnc,
    pinAuthPresent := 1, newPinEnc := test_pinEnc s [53, 54, 55, 56], newPinEncSize := 64,
    pinHashEnc := pinHashEnc, pinHashEncPresent := 1, getRetries := 0 }

/-- The newPinEnc buffer after `crypto_aes256_decrypt(pinEnc, len)` with `len` rounded
up to a multiple of 16: the decrypted region followed by the rest of the buffer. -/
def decrypted_newPinEnc (env : Env) (s : State) (pinEnc : Bytes) (len : Nat)
    (platform_pubkey : Bytes) : Bytes :=
  env.aes256_decrypt (pin_shared_secret env s platform_pubkey) (pinEnc.take (round_up_16 len))
    ++ pinEnc.drop (round_up_16 len)

/-- The test environment with a 256-byte newPinEnc buffer. -/
def test_env_wide : Env :=
  { test_env with NEW_PIN_ENC_MAX_SIZE := 256 }

/-- The state the wide test device is in after `ctap_init` on the zeroed statics. -/
def test_state_wide : State :=
  (ctap_init test_env_wide (boot_state test_env_wide)).getD (boot_state test_env_wide)

/-- A 256-byte newPinEnc buffer whose first 64 bytes are the encryption of 64 bytes
`'1'` for `test_state_wide` and whose other bytes are zero. -/
def test_newPinEnc_unterminated : Bytes :=
  test_encrypt (pin_shared_secret test_env_wide test_state_wide test_platform_pubkey)
    (List.replicate 64 49) ++ List.replicate 192 0

/-- The pinAuth of a setPin request carrying the first 64 bytes of
`test_newPinEnc_unterminated`. -/
def test_pinAuth_unterminated : Bytes :=
  (test_sha256 ((pin_shared_secret test_env_wide test_state_wide test_platform_pubkey).take 32
    ++ test_newPinEnc_unterminated.take 64)).take 16

/-- The parts of the state that outlive a request: the sign counter (the number of
times its oracle ran), the master secret, the PIN with its hash and flag, the retry
count, the lockout flag, the pin token and the key-agreement pair are the same in `s1`
as in `s`. -/
def persistent_unchanged (s s1 : State) : Prop :=
  s1.world.count_calls = s.world.count_calls
  ∧ s1.world.secret_epoch = s.world.secret_epoch
  ∧ s1.PIN_CODE_SET = s.PIN_CODE_SET ∧ s1.PIN_CODE_HASH = s.PIN_CODE_HASH
  ∧ s1.PIN_CODE = s.PIN_CODE
  ∧ s1._flash_tries = s._flash_tries ∧ s1.DEVICE_LOCKOUT = s.DEVICE_LOCKOUT
  ∧ s1.PIN_TOKEN = s.PIN_TOKEN
  ∧ s1.KEY_AGREEMENT_PUB = s.KEY_AGREEMENT_PUB ∧ s1.KEY_AGREEMENT_PRIV = s.KEY_AGREEMENT_PRIV

/-- The test device after setPin and nine wrong getPinToken requests: locked. -/
def test_state_locked : State :=
  ((ctap_run test_env test_state_pin (List.replicate 9 [6, 2])).map (fun r => r.2)).getD
    test_state

/-- The test environment with a user who is never present. -/
def test_env_absent : Env :=
  { test_env with user_presence_test := fun _ => 0 }

/-- The test environment with a get-assertion request that carries a pinAuth of 16 zero
bytes. -/
def test_env_pinauth : Env :=
  { test_env with
    parse_get_assertion := fun _ =>
      (0, { test_getAssertion [test_credential 7] with
            pinAuth := List.replicate 16 0, pinAuthPresent := 1 }) }

/-- The state `ctap_handle_packet` leaves when it refuses command `cmd` in state `s`. -/
def test_refused (s : State) (cmd : Nat) : State :=
  { s with getAssertionState := { s.getAssertionState with lastcmd := cmd } }

/-- A getPinToken request for the device in state `s` carrying the first 16 bytes of
the SHA-256 of `pin`, encrypted under the shared secret. -/
def test_getPinToken (s : State) (pin : Bytes) : CTAP_clientPin :=
  { pinProtocol := 1, subCommand := CP_cmdGetPinToken, keyAgreementPresent := 1,
    pubkey := test_platform_pubkey, pinAuth := [], pinAuthPresent := 0,
    newPinEnc := [], newPinEncSize := 0,
    pinHashEnc := test_encrypt (pin_shared_secret test_env0 s test_platform_pubkey)
      ((test_sha256 pin).take 16),
    pinHashEncPresent := 1, getRetries := 0 }

/-- The states the device can be in: the state `ctap_init` leaves on the zeroed
statics, and every state a `ctap_handle_packet` call leaves when made in such a state. -/
inductive Reachable (env : Env) : State → Prop
  | init (s : State) (h : ctap_init env (boot_state env) = some s) : Reachable env s
  | step (s : State) (pkt : Bytes) (r : Nat × CTAP_RESPONSE × State) (hs : Reachable env s)
      (h : ctap_handle_packet env s pkt = some r) : Reachable env r.2.2

/-- The current PIN: the contents of `PIN_CODE` up to its NUL terminator. -/
def current_pin (s : State) : Bytes :=
  s.PIN_CODE.takeWhile (fun b => b != 0)

/-- With a PIN set, `PIN_CODE_HASH` is the SHA-256 of the current PIN, which has at
least 4 bytes and is followed by a terminator inside `PIN_CODE`. -/
def pin_hash_canonical (env : Env) (s : State) : Prop :=
  s.PIN_CODE_SET = 1 →
    s.PIN_CODE_HASH = env.sha256 (current_pin s)
    ∧ 4 ≤ (current_pin s).length ∧ (current_pin s).length < s.PIN_CODE.length

/-- The PIN check of changePin and getPinToken passes for the request `CP`: a PIN is set
and the decrypted pinHashEnc equals the first 16 bytes of `PIN_CODE_HASH`. -/
def pin_hash_matches (env : Env) (s : State) (CP : CTAP_clientPin) : Prop :=
  s.PIN_CODE_SET = 1
  ∧ (env.aes256_decrypt (pin_shared_secret env s CP.pubkey) (CP.pinHashEnc.take 16)).take 16
    = s.PIN_CODE_HASH.take 16

/-- A second test relying party, whose id is the first byte of the id `[97, 98]`. -/
def test_rp_short : rpId := { id := [97] }

/-- A test relying party with the two-byte id `[97, 98]`. -/
def test_rp_long : rpId := { id := [97, 98] }

/-- A user of `test_rp_long` with the one-byte id `[99]`. -/
def test_user_long : CTAP_userEntity := { id := [99], name := [97, 98, 0, 0, 0, 0, 0, 0] }

/-- The same user name with the id `[98, 99]`: the last byte of the id of
`test_rp_long` followed by the id of `test_user_long`. -/
def test_user_shifted : CTAP_userEntity := { id := [98, 99], name := [97, 98, 0, 0, 0, 0, 0, 0] }

/-- The test environment with a get-assertion request for `test_rp` that carries the
allow-list `creds`. -/
def test_env_allow (creds : List CTAP_credentialDescriptor) : Env :=
  { test_env with parse_get_assertion := fun _ => (0, test_getAssertion creds) }

/-- The test environment with an injective digest whose first 16 bytes do not depend on
the input: 16 zero bytes followed by the input itself. -/
def test_env_prefix : Env :=
  { test_env with sha256 := fun b => List.replicate 16 0 ++ b }

/-- The test environment with a digest whose first 16 entries determine the input: 15
zero bytes followed by a code number of the input. -/
def test_env_coded : Env :=
  { test_env with sha256 := fun b => List.replicate 15 0 ++ [Encodable.encode b] }

/-! # Properties -/

/-! ## Shared lemmas -/

theorem memcmp_eq_iff (a b : Bytes) (n : Nat) : memcmp_eq a b n = true ↔ a.take n = b.take n := by
  simp [memcmp_eq]

theorem make_credential_finish_frame (env : Env) (s : State) (MC : CTAP_makeCredential) :
    (ctap_make_credential_finish env s MC).2.2 =
      { s with world := (ctap_make_credential_finish env s MC).2.2.world } := by
  unfold ctap_make_credential_finish
  simp only
  split_ifs <;> rfl

theorem make_credential_body_frame (env : Env) (s : State) (MC : CTAP_makeCredential) :
    (ctap_make_credential_body env s MC).2.2 =
      { s with world := (ctap_make_credential_body env s MC).2.2.world } := by
  unfold ctap_make_credential_body
  split
  · rfl
  · exact make_credential_finish_frame env s MC

theorem make_credential_frame (env : Env) (s : State) (req : Bytes) :
    (ctap_make_credential env s req).2.2 =
      { s with world := (ctap_make_credential env s req).2.2.world } := by
  unfold ctap_make_credential
  simp only
  split_ifs <;> first | rfl | exact make_credential_body_frame env s _

theorem get_assertion_frame (env : Env) (s : State) (req : Bytes) :
    (ctap_get_assertion env s req).2.2 =
      { s with world := (ctap_get_assertion env s req).2.2.world,
               getAssertionState := (ctap_get_assertion env s req).2.2.getAssertionState } := by
  unfold ctap_get_assertion ctap_get_assertion_body save_credential_list
  simp only
  split_ifs <;> rfl

theorem get_next_assertion_frame (env : Env) (s : State) :
    (ctap_get_next_assertion env s).2.2 =
      { s with world := (ctap_get_next_assertion env s).2.2.world,
               getAssertionState := (ctap_get_next_assertion env s).2.2.getAssertionState } := by
  unfold ctap_get_next_assertion pop_credential
  simp only
  split_ifs <;> rfl

theorem decrement_step (env : Env) (s : State) :
    pin_counters_step s (ctap_decrement_pin_attempts (make_key_agreement_pair env s)).2 := by
  unfold pin_counters_step ctap_decrement_pin_attempts make_key_agreement_pair
  by_cases h : 0 < s._flash_tries
  · right; left
    simp [h]
  · right; right; left
    simp [h]
    omega

theorem update_pin_counters (env : Env) (s s1 : State) (pin : Bytes) (len : Int)
    (h : ctap_update_pin env s pin len = some s1) :
    s1._flash_tries = s._flash_tries ∧ s1.DEVICE_LOCKOUT = s.DEVICE_LOCKOUT := by
  unfold ctap_update_pin at h
  split_ifs at h
  simp at h
  subst h
  simp

theorem update_pin_if_verified_step (env : Env) (s : State) (pinEnc : Bytes) (len : Nat)
    (pub pinAuth : Bytes) (pinHashEnc : Option Bytes) (r : Nat × State)
    (h : ctap_update_pin_if_verified env s pinEnc len pub pinAuth pinHashEnc = some r) :
    pin_counters_step s r.2 := by
  unfold ctap_update_pin_if_verified at h
  simp only at h
  split_ifs at h
  all_goals first
    | (simp at h; subst h; left; exact ⟨rfl, rfl⟩)
    | (simp at h; subst h; exact decrement_step env s)
    | skip
  · simp only [Option.map_eq_some'] at h
    obtain ⟨s1, h1, h2⟩ := h
    subst h2
    have := update_pin_counters env _ _ _ _ h1
    right; right; right; left
    simpa [ctap_reset_pin_attempts] using this
  · simp only [Option.map_eq_some'] at h
    obtain ⟨s1, h1, h2⟩ := h
    subst h2
    have := update_pin_counters env _ _ _ _ h1
    left
    simpa using this

theorem add_pin_if_verified_step (env : Env) (s : State) (pub pinHashEnc : Bytes) :
    pin_counters_step s (ctap_add_pin_if_verified env s pub pinHashEnc).2.2 := by
  unfold ctap_add_pin_if_verified
  simp only
  split_ifs
  · right; right; right; left
    simp [ctap_reset_pin_attempts]
  · exact decrement_step env s

theorem client_pin_setPin_step (env : Env) (s : State) (CP : CTAP_clientPin) (n : Nat)
    (r : Nat × List CborItem × State)
    (h : ctap_client_pin_setPin env s CP n = some r) : pin_counters_step s r.2.2 := by
  unfold ctap_client_pin_setPin at h
  split_ifs at h
  · simp only [Option.some.injEq] at h; subst h; left; exact ⟨rfl, rfl⟩
  · simp only [Option.some.injEq] at h; subst h; left; exact ⟨rfl, rfl⟩
  · simp only [Option.map_eq_some'] at h
    obtain ⟨a, h1, h2⟩ := h
    subst h2
    have := update_pin_if_verified_step env s _ _ _ _ _ _ h1
    split_ifs <;> exact this

theorem client_pin_changePin_step (env : Env) (s : State) (CP : CTAP_clientPin) (n : Nat)
    (r : Nat × List CborItem × State)
    (h : ctap_client_pin_changePin env s CP n = some r) : pin_counters_step s r.2.2 := by
  unfold ctap_client_pin_changePin at h
  split_ifs at h
  · simp only [Option.some.injEq] at h; subst h; left; exact ⟨rfl, rfl⟩
  · simp only [Option.some.injEq] at h; subst h; left; exact ⟨rfl, rfl⟩
  · simp only [Option.map_eq_some'] at h
    obtain ⟨a, h1, h2⟩ := h
    subst h2
    have := update_pin_if_verified_step env s _ _ _ _ _ _ h1
    split_ifs <;> exact this

theorem client_pin_getPinToken_step (env : Env) (s : State) (CP : CTAP_clientPin) (n : Nat) :
    pin_counters_step s (ctap_client_pin_getPinToken env s CP n).2.2 := by
  unfold ctap_client_pin_getPinToken
  simp only
  split_ifs
  · left; exact ⟨rfl, rfl⟩
  · left; exact ⟨rfl, rfl⟩
  · exact add_pin_if_verified_step env s _ _
  · exact add_pin_if_verified_step env s _ _

/-- The branch `ctap_client_pin` takes: it leaves the state alone, or it is one of the
three PIN subcommands. -/
theorem client_pin_cases (env : Env) (s : State) (req : Bytes) :
    (∃ st items, ctap_client_pin env s req = some (st, items, s))
    ∨ (∃ CP n, ctap_client_pin env s req = ctap_client_pin_setPin env s CP n)
    ∨ (∃ CP n, ctap_client_pin env s req = ctap_client_pin_changePin env s CP n)
    ∨ (∃ CP n, ctap_client_pin env s req = some (ctap_client_pin_getPinToken env s CP n)) := by
  unfold ctap_client_pin
  by_cases h1 : (env.parse_client_pin req).1 ≠ 0
  · left; exact ⟨_, _, by rw [if_pos h1]⟩
  by_cases h2 : (env.parse_client_pin req).2.pinProtocol ≠ 1
      ∨ (env.parse_client_pin req).2.subCommand = 0
  · left; exact ⟨_, _, by rw [if_neg h1, if_pos h2]⟩
  by_cases h3 : (env.parse_client_pin req).2.subCommand = CP_cmdGetRetries
  · left; exact ⟨_, _, by rw [if_neg h1, if_neg h2]; simp only [if_pos h3]; rfl⟩
  by_cases h4 : (env.parse_client_pin req).2.subCommand = CP_cmdGetKeyAgreement
  · left; exact ⟨_, _, by rw [if_neg h1, if_neg h2]; simp only [if_neg h3, if_pos h4]; rfl⟩
  by_cases h5 : (env.parse_client_pin req).2.subCommand = CP_cmdSetPin
  · right; left
    exact ⟨_, _, by rw [if_neg h1, if_neg h2]; simp only [if_neg h3, if_neg h4, if_pos h5]; rfl⟩
  by_cases h6 : (env.parse_client_pin req).2.subCommand = CP_cmdChangePin
  · right; right; left
    exact ⟨_, _, by
      rw [if_neg h1, if_neg h2]; simp only [if_neg h3, if_neg h4, if_neg h5, if_pos h6]; rfl⟩
  by_cases h7 : (env.parse_client_pin req).2.subCommand = CP_cmdGetPinToken
  · right; right; right
    exact ⟨_, _, by
      rw [if_neg h1, if_neg h2]
      simp only [if_neg h3, if_neg h4, if_neg h5, if_neg h6, if_pos h7]; rfl⟩
  · left
    exact ⟨_, _, by
      rw [if_neg h1, if_neg h2]
      simp only [if_neg h3, if_neg h4, if_neg h5, if_neg h6, if_neg h7]; rfl⟩

/-- The branch the second `switch` of `ctap_handle_packet` takes. -/
theorem dispatch_cases (env : Env) (s : State) (cmd : Nat) (pkt : Bytes) :
    (cmd = CTAP_MAKE_CREDENTIAL ∧ ctap_handle_packet_dispatch env s cmd pkt =
        some ((ctap_make_credential env s pkt).1, (ctap_make_credential env s pkt).2.1, cmd,
          (ctap_make_credential env s pkt).2.2))
    ∨ (cmd = CTAP_GET_ASSERTION ∧ ctap_handle_packet_dispatch env s cmd pkt =
        some ((ctap_get_assertion env s pkt).1, (ctap_get_assertion env s pkt).2.1, cmd,
          (ctap_get_assertion env s pkt).2.2))
    ∨ (cmd = CTAP_CLIENT_PIN ∧ ctap_handle_packet_dispatch env s cmd pkt =
        (ctap_client_pin env s pkt).map (fun r => (r.1, r.2.1, cmd, r.2.2)))
    ∨ (cmd = CTAP_RESET ∧ env.user_presence_test s.world.presence_calls ≠ 0 ∧
        ctap_handle_packet_dispatch env s cmd pkt =
          some (0, [], cmd, ctap_reset env
            { s with world := { s.world with presence_calls := s.world.presence_calls + 1 } }))
    ∨ (cmd = CTAP_RESET ∧ env.user_presence_test s.world.presence_calls = 0 ∧
        ctap_handle_packet_dispatch env s cmd pkt =
          some (CTAP2_ERR_NOT_ALLOWED, [], cmd,
            { s with world := { s.world with presence_calls := s.world.presence_calls + 1 } }))
    ∨ (cmd = GET_NEXT_ASSERTION ∧ s.getAssertionState.lastcmd = CTAP_GET_ASSERTION ∧
        ctap_handle_packet_dispatch env s cmd pkt =
          some ((ctap_get_next_assertion env s).1, (ctap_get_next_assertion env s).2.1,
            (if (ctap_get_next_assertion env s).1 = 0 then CTAP_GET_ASSERTION else cmd),
            (ctap_get_next_assertion env s).2.2))
    ∨ (cmd ≠ CTAP_MAKE_CREDENTIAL ∧ cmd ≠ CTAP_GET_ASSERTION ∧ cmd ≠ CTAP_CLIENT_PIN ∧
        cmd ≠ CTAP_RESET ∧
        ∃ st items, ctap_handle_packet_dispatch env s cmd pkt = some (st, items, cmd, s)
          ∧ (st = 0 → cmd = CTAP_CANCEL ∨ cmd = CTAP_GET_INFO)) := by
  unfold ctap_handle_packet_dispatch
  by_cases h1 : cmd = CTAP_MAKE_CREDENTIAL
  · left; exact ⟨h1, by rw [if_pos h1]⟩
  by_cases h2 : cmd = CTAP_GET_ASSERTION
  · right; left; exact ⟨h2, by rw [if_neg h1, if_pos h2]⟩
  by_cases h3 : cmd = CTAP_CANCEL
  · iterate 6 right
    refine ⟨h1, h2, by rw [h3]; decide, by rw [h3]; decide, 0, [], ?_, fun _ => Or.inl h3⟩
    rw [if_neg h1, if_neg h2, if_pos h3]
  by_cases h4 : cmd = CTAP_GET_INFO
  · iterate 6 right
    refine ⟨h1, h2, by rw [h4]; decide, by rw [h4]; decide, (ctap_get_info env s).1,
      (ctap_get_info env s).2, ?_, fun _ => Or.inr h4⟩
    rw [if_neg h1, if_neg h2, if_neg h3, if_pos h4]
  by_cases h5 : cmd = CTAP_CLIENT_PIN
  · right; right; left
    exact ⟨h5, by rw [if_neg h1, if_neg h2, if_neg h3, if_neg h4, if_pos h5]⟩
  by_cases h6 : cmd = CTAP_RESET
  · by_cases hup : env.user_presence_test s.world.presence_calls ≠ 0
    · iterate 3 right
      left
      refine ⟨h6, hup, ?_⟩
      rw [if_neg h1, if_neg h2, if_neg h3, if_neg h4, if_neg h5, if_pos h6]
      simp only [if_pos hup]
    · iterate 4 right
      left
      refine ⟨h6, not_not.mp hup, ?_⟩
      rw [if_neg h1, if_neg h2, if_neg h3, if_neg h4, if_neg h5, if_pos h6]
      simp only [if_neg hup]
  by_cases h7 : cmd = GET_NEXT_ASSERTION
  · by_cases hl : s.getAssertionState.lastcmd = CTAP_GET_ASSERTION
    · iterate 5 right
      left
      refine ⟨h7, hl, ?_⟩
      rw [if_neg h1, if_neg h2, if_neg h3, if_neg h4, if_neg h5, if_neg h6, if_pos h7, if_pos hl]
    · iterate 6 right
      refine ⟨h1, h2, h5, h6, CTAP2_ERR_NOT_ALLOWED, [], ?_, fun h => absurd h (by decide)⟩
      rw [if_neg h1, if_neg h2, if_neg h3, if_neg h4, if_neg h5, if_neg h6, if_pos h7, if_neg hl]
  · iterate 6 right
    refine ⟨h1, h2, h5, h6, CTAP1_ERR_INVALID_COMMAND, [], ?_, fun h => absurd h (by decide)⟩
    rw [if_neg h1, if_neg h2, if_neg h3, if_neg h4, if_neg h5, if_neg h6, if_neg h7]

theorem client_pin_step (env : Env) (s : State) (req : Bytes) (r : Nat × List CborItem × State)
    (h : ctap_client_pin env s req = some r) : pin_counters_step s r.2.2 := by
  rcases client_pin_cases env s req with ⟨st, items, h0⟩ | ⟨CP, n, h0⟩ | ⟨CP, n, h0⟩ | ⟨CP, n, h0⟩
  · rw [h0] at h
    simp only [Option.some.injEq] at h
    subst h
    exact Or.inl ⟨rfl, rfl⟩
  · rw [h0] at h
    exact client_pin_setPin_step env s CP n r h
  · rw [h0] at h
    exact client_pin_changePin_step env s CP n r h
  · rw [h0] at h
    simp only [Option.some.injEq] at h
    subst h
    exact client_pin_getPinToken_step env s CP n

theorem pin_counters_step_of_eq (s s1 : State) (h1 : s1._flash_tries = s._flash_tries)
    (h2 : s1.DEVICE_LOCKOUT = s.DEVICE_LOCKOUT) : pin_counters_step s s1 :=
  Or.inl ⟨h1, h2⟩

theorem dispatch_step (env : Env) (s : State) (cmd : Nat) (pkt : Bytes)
    (r : Nat × List CborItem × Nat × State)
    (h : ctap_handle_packet_dispatch env s cmd pkt = some r) : pin_counters_step s r.2.2.2 := by
  rcases dispatch_cases env s cmd pkt with ⟨_, h0⟩ | ⟨_, h0⟩ | ⟨_, h0⟩ | ⟨_, _, h0⟩ | ⟨_, _, h0⟩
    | ⟨_, _, h0⟩ | ⟨_, _, _, _, st, items, h0, _⟩
  · rw [h0] at h
    simp only [Option.some.injEq] at h
    subst h
    apply pin_counters_step_of_eq <;> (simp only; rw [make_credential_frame])
  · rw [h0] at h
    simp only [Option.some.injEq] at h
    subst h
    apply pin_counters_step_of_eq <;> (simp only; rw [get_assertion_frame])
  · rw [h0] at h
    simp only [Option.map_eq_some'] at h
    obtain ⟨a, h1, h2⟩ := h
    subst h2
    exact client_pin_step env s pkt a h1
  · rw [h0] at h
    simp only [Option.some.injEq] at h
    subst h
    right; right; right; right
    exact ⟨rfl, rfl⟩
  · rw [h0] at h
    simp only [Option.some.injEq] at h
    subst h
    exact Or.inl ⟨rfl, rfl⟩
  · rw [h0] at h
    simp only [Option.some.injEq] at h
    subst h
    apply pin_counters_step_of_eq <;> (simp only; rw [get_next_assertion_frame])
  · rw [h0] at h
    simp only [Option.some.injEq] at h
    subst h
    exact Or.inl ⟨rfl, rfl⟩

theorem handle_packet_step (env : Env) (s : State) (pkt : Bytes)
    (r : Nat × CTAP_RESPONSE × State)
    (h : ctap_handle_packet env s pkt = some r) : pin_counters_step s r.2.2 := by
  unfold ctap_handle_packet at h
  simp only [Option.map_eq_some'] at h
  obtain ⟨a, h1, h2⟩ := h
  subst h2
  split_ifs at h1
  · simp only [Option.some.injEq] at h1; subst h1; exact Or.inl ⟨rfl, rfl⟩
  · exact dispatch_step env s _ _ a h1

theorem strnlen_le (b : Bytes) (n : Nat) : strnlen b n ≤ n := by
  unfold strnlen
  calc ((b.take n).takeWhile (fun x => x != 0)).length
      ≤ (b.take n).length := (List.takeWhile_sublist _).length_le
    _ ≤ n := by simp

theorem update_pin_isSome (env : Env) (s : State) (pin : Bytes) (len : Nat)
    (h1 : len < env.NEW_PIN_ENC_MAX_SIZE) (h2 : 4 ≤ len) :
    ∃ s1, ctap_update_pin env s pin (len : Int) = some s1 := by
  unfold ctap_update_pin
  rw [if_neg]
  · exact ⟨_, rfl⟩
  · omega

theorem update_pin_if_verified_total (env : Env) (s : State) (pinEnc : Bytes) (len : Nat)
    (pub pinAuth : Bytes) (pinHashEnc : Option Bytes) :
    ∃ r, ctap_update_pin_if_verified env s pinEnc len pub pinAuth pinHashEnc = some r := by
  unfold ctap_update_pin_if_verified
  simp only
  split_ifs with h1 h2 h3 h4 h5 h6
  all_goals first
    | exact ⟨_, rfl⟩
    | skip
  all_goals
    have hle := strnlen_le
      (env.aes256_decrypt (pin_shared_secret env s pub) (List.take (round_up_16 len) pinEnc) ++
        List.drop (round_up_16 len) pinEnc) env.NEW_PIN_ENC_MAX_SIZE
    have hup := fun st => update_pin_isSome env st
      (env.aes256_decrypt (pin_shared_secret env s pub) (List.take (round_up_16 len) pinEnc) ++
        List.drop (round_up_16 len) pinEnc) _ (lt_of_le_of_ne hle h3) (not_lt.mp h4)
    first
      | (obtain ⟨s1, hs1⟩ := hup s
         exact ⟨_, by rw [hs1]; rfl⟩)
      | (obtain ⟨s1, hs1⟩ := hup (ctap_reset_pin_attempts s)
         exact ⟨_, by rw [hs1]; rfl⟩)

theorem client_pin_setPin_total (env : Env) (s : State) (CP : CTAP_clientPin) (n : Nat) :
    ∃ r, ctap_client_pin_setPin env s CP n = some r := by
  unfold ctap_client_pin_setPin
  split_ifs
  · exact ⟨_, rfl⟩
  · exact ⟨_, rfl⟩
  · obtain ⟨r, hr⟩ := update_pin_if_verified_total env s CP.newPinEnc CP.newPinEncSize
      CP.pubkey CP.pinAuth none
    exact ⟨_, by rw [hr]; rfl⟩

theorem client_pin_changePin_total (env : Env) (s : State) (CP : CTAP_clientPin) (n : Nat) :
    ∃ r, ctap_client_pin_changePin env s CP n = some r := by
  unfold ctap_client_pin_changePin
  split_ifs
  · exact ⟨_, rfl⟩
  · exact ⟨_, rfl⟩
  · obtain ⟨r, hr⟩ := update_pin_if_verified_total env s CP.newPinEnc CP.newPinEncSize
      CP.pubkey CP.pinAuth (some CP.pinHashEnc)
    exact ⟨_, by rw [hr]; rfl⟩

theorem client_pin_total (env : Env) (s : State) (req : Bytes) :
    ∃ r, ctap_client_pin env s req = some r := by
  rcases client_pin_cases env s req with ⟨st, items, h0⟩ | ⟨CP, n, h0⟩ | ⟨CP, n, h0⟩ | ⟨CP, n, h0⟩
  · exact ⟨_, h0⟩
  · rw [h0]; exact client_pin_setPin_total env s CP n
  · rw [h0]; exact client_pin_changePin_total env s CP n
  · exact ⟨_, h0⟩

theorem dispatch_total (env : Env) (s : State) (cmd : Nat) (pkt : Bytes) :
    ∃ r, ctap_handle_packet_dispatch env s cmd pkt = some r := by
  rcases dispatch_cases env s cmd pkt with ⟨_, h0⟩ | ⟨_, h0⟩ | ⟨_, h0⟩ | ⟨_, _, h0⟩ | ⟨_, _, h0⟩
    | ⟨_, _, h0⟩ | ⟨_, _, _, _, st, items, h0, _⟩
  · exact ⟨_, h0⟩
  · exact ⟨_, h0⟩
  · obtain ⟨r, hr⟩ := client_pin_total env s pkt
    exact ⟨_, by rw [h0, hr]; rfl⟩
  · exact ⟨_, h0⟩
  · exact ⟨_, h0⟩
  · exact ⟨_, h0⟩
  · exact ⟨_, h0⟩

theorem handle_packet_total (env : Env) (s : State) (pkt : Bytes) :
    ∃ r, ctap_handle_packet env s pkt = some r := by
  unfold ctap_handle_packet
  simp only
  split_ifs
  · exact ⟨_, rfl⟩
  · obtain ⟨r, hr⟩ := dispatch_total env s (pkt.headD 0) pkt.tail
    exact ⟨_, by rw [hr]; rfl⟩

theorem run_total (env : Env) (s : State) (pkts : List Bytes) :
    ∃ r, ctap_run env s pkts = some r := by
  induction pkts generalizing s with
  | nil => exact ⟨_, rfl⟩
  | cons p rest ih =>
    obtain ⟨r, hr⟩ := handle_packet_total env s p
    obtain ⟨t, ht⟩ := ih r.2.2
    exact ⟨_, by simp only [ctap_run, hr, ht]; rfl⟩

/-- Budget invariant: with `k` retries left and no lockout, `k` packets cannot lock. -/
theorem run_keeps_unlocked (env : Env) (pkts : List Bytes) :
    ∀ (s : State) (r : List (Nat × CTAP_RESPONSE) × State),
      s.DEVICE_LOCKOUT = 0 → (pkts.length : Int) ≤ s._flash_tries → s._flash_tries ≤ 8 →
      ctap_run env s pkts = some r →
      r.2.DEVICE_LOCKOUT = 0 ∧ s._flash_tries - pkts.length ≤ r.2._flash_tries
        ∧ r.2._flash_tries ≤ 8 := by
  induction pkts with
  | nil =>
    intro s r h0 _ h8 hr
    simp only [ctap_run, Option.some.injEq] at hr
    subst hr
    simp [h0, h8]
  | cons p rest ih =>
    intro s r h0 hk h8 hr
    simp only [ctap_run] at hr
    obtain ⟨a, ha⟩ := handle_packet_total env s p
    rw [ha] at hr
    simp only at hr
    obtain ⟨t, ht⟩ := run_total env a.2.2 rest
    rw [ht] at hr
    simp only [Option.some.injEq] at hr
    subst hr
    have hstep := handle_packet_step env s p a ha
    simp only [List.length_cons, Nat.cast_add, Nat.cast_one] at hk ⊢
    have hrest : (0 : Int) ≤ rest.length := Int.natCast_nonneg _
    unfold pin_counters_step at hstep
    have key : a.2.2.DEVICE_LOCKOUT = 0 ∧ s._flash_tries - 1 ≤ a.2.2._flash_tries
        ∧ a.2.2._flash_tries ≤ 8 := by
      rcases hstep with ⟨h1, h2⟩ | ⟨_, h1, h2⟩ | ⟨h1, _, _⟩ | ⟨h1, h2⟩ | ⟨h1, h2⟩
      · exact ⟨by rw [h2, h0], by omega, by omega⟩
      · exact ⟨by rw [h2, h0], by omega, by omega⟩
      · omega
      · exact ⟨by rw [h2, h0], by omega, by omega⟩
      · exact ⟨h2, by omega, by omega⟩
    have := ih a.2.2 t key.1 (by omega) key.2.2 ht
    exact ⟨this.1, by omega, this.2.2⟩

theorem authenticate_own_tag (env : Env) (s : State) (rp : rpId) (user : CTAP_userEntity)
    (count : Nat) :
    ctap_authenticate_credential env s rp
      { type := PUB_KEY_CRED_PUB_KEY
        credential := { tag := make_auth_tag env s rp user count, user := user, count := count } }
      = 1 := by
  simp [ctap_authenticate_credential, memcmp_eq]

theorem authenticate_issued_credential (env : Env) (s : State) (rp : rpId)
    (user : CTAP_userEntity) (credtype : Nat) (algtype : Int) (t : CTAP_attest)
    (ht : (ctap_make_auth_data env s rp (some user) credtype algtype).1.attest = some t) :
    ctap_authenticate_credential env s rp
      { type := PUB_KEY_CRED_PUB_KEY, credential := t.credential } = 1 := by
  unfold ctap_make_auth_data at ht
  simp only at ht
  split_ifs at ht with hc
  simp only [Option.some.injEq] at ht
  subst ht
  simp only [Option.getD_some]
  exact authenticate_own_tag env s rp user _

theorem auth_tag_input_rp_ne (env : Env) (secret : Bytes) (rp rp1 : rpId)
    (user : CTAP_userEntity) (count : Nat) (h : rp1.id ≠ rp.id) :
    auth_tag_input env secret rp1 user count ≠ auth_tag_input env secret rp user count := by
  unfold auth_tag_input
  intro heq
  simp only [List.append_assoc] at heq
  exact h (List.append_left_inj _ |>.mp heq)

theorem is_pin_set_eq_one (s : State) (h : s.PIN_CODE_SET = 1) : ctap_is_pin_set s = 1 := by
  simp [ctap_is_pin_set, h]

theorem is_pin_set_eq_zero (s : State) (h : s.PIN_CODE_SET ≠ 1) : ctap_is_pin_set s = 0 := by
  simp [ctap_is_pin_set, h]

theorem verify_pin_auth_ok (env : Env) (s : State) (pinAuth cdh : Bytes)
    (h : pinAuth.take 16 = pin_auth_mac env s cdh) : verify_pin_auth env s pinAuth cdh = 0 := by
  simp [verify_pin_auth, memcmp_eq_iff, h, pin_auth_mac]

theorem verify_pin_auth_bad (env : Env) (s : State) (pinAuth cdh : Bytes)
    (h : pinAuth.take 16 ≠ pin_auth_mac env s cdh) :
    verify_pin_auth env s pinAuth cdh = CTAP2_ERR_PIN_AUTH_INVALID := by
  unfold verify_pin_auth
  simp only
  rw [if_neg]
  rw [memcmp_eq_iff]
  exact h

theorem make_credential_pin_ok (env : Env) (s : State) (req : Bytes) (MC : CTAP_makeCredential)
    (hmc : env.parse_make_credential req = (0, MC))
    (hreq : MC.paramsParsed &&& env.MC_requiredMask = env.MC_requiredMask)
    (hpin : s.PIN_CODE_SET = 1 → MC.pinAuthPresent ≠ 0 ∧
      MC.pinAuth.take 16 = pin_auth_mac env s MC.clientDataHash) :
    ctap_make_credential env s req = ctap_make_credential_body env s MC := by
  by_cases hset : s.PIN_CODE_SET = 1
  · obtain ⟨hpres, hmac⟩ := hpin hset
    simp [ctap_make_credential, hmc, hreq, is_pin_set_eq_one s hset, hpres,
      verify_pin_auth_ok env s _ _ hmac]
  · simp [ctap_make_credential, hmc, hreq, is_pin_set_eq_zero s hset]

theorem get_assertion_pin_ok (env : Env) (s : State) (req : Bytes) (GA : CTAP_getAssertion)
    (hga : env.parse_get_assertion req = (0, GA))
    (hpin : s.PIN_CODE_SET = 1 → GA.pinAuthPresent ≠ 0 ∧
      GA.pinAuth.take 16 = pin_auth_mac env s GA.clientDataHash) :
    ctap_get_assertion env s req = ctap_get_assertion_body env s GA := by
  by_cases hset : s.PIN_CODE_SET = 1
  · obtain ⟨hpres, hmac⟩ := hpin hset
    simp [ctap_get_assertion, hga, hset, is_pin_set_eq_one s hset, hpres,
      verify_pin_auth_ok env s _ _ hmac]
  · simp [ctap_get_assertion, hga, hset, is_pin_set_eq_zero s hset]

theorem authenticate_zero_or_one (env : Env) (s : State) (rp : rpId)
    (d : CTAP_credentialDescriptor) :
    ctap_authenticate_credential env s rp d = 0 ∨ ctap_authenticate_credential env s rp d = 1 := by
  unfold ctap_authenticate_credential
  split_ifs <;> simp

theorem make_credential_finish_status (env : Env) (s : State) (MC : CTAP_makeCredential) :
    (ctap_make_credential_finish env s MC).1 = CTAP1_ERR_SUCCESS := by
  simp [ctap_make_credential_finish, ctap_add_attest_statement]

theorem dispatch_lastcmd (env : Env) (s : State) (cmd : Nat) (pkt : Bytes)
    (r : Nat × List CborItem × Nat × State)
    (h : ctap_handle_packet_dispatch env s cmd pkt = some r) :
    r.2.2.1 = cmd ∨ (cmd = GET_NEXT_ASSERTION ∧ r.1 = 0 ∧ r.2.2.1 = CTAP_GET_ASSERTION) := by
  rcases dispatch_cases env s cmd pkt with ⟨_, h0⟩ | ⟨_, h0⟩ | ⟨_, h0⟩ | ⟨_, _, h0⟩ | ⟨_, _, h0⟩
    | ⟨hc, _, h0⟩ | ⟨_, _, _, _, st, items, h0, _⟩
  · rw [h0] at h; simp only [Option.some.injEq] at h; subst h; exact Or.inl rfl
  · rw [h0] at h; simp only [Option.some.injEq] at h; subst h; exact Or.inl rfl
  · rw [h0] at h
    simp only [Option.map_eq_some'] at h
    obtain ⟨a, _, h2⟩ := h
    subst h2
    exact Or.inl rfl
  · rw [h0] at h; simp only [Option.some.injEq] at h; subst h; exact Or.inl rfl
  · rw [h0] at h; simp only [Option.some.injEq] at h; subst h; exact Or.inl rfl
  · rw [h0] at h
    simp only [Option.some.injEq] at h
    subst h
    by_cases hz : (ctap_get_next_assertion env s).1 = 0
    · exact Or.inr ⟨hc, hz, by simp only [if_pos hz]⟩
    · exact Or.inl (by simp only [if_neg hz])
  · rw [h0] at h; simp only [Option.some.injEq] at h; subst h; exact Or.inl rfl

theorem handle_packet_lastcmd (env : Env) (s : State) (pkt : Bytes)
    (r : Nat × CTAP_RESPONSE × State) (h : ctap_handle_packet env s pkt = some r) :
    r.2.2.getAssertionState.lastcmd = pkt.headD 0 ∨
      (pkt.headD 0 = GET_NEXT_ASSERTION ∧ r.1 = 0
        ∧ r.2.2.getAssertionState.lastcmd = CTAP_GET_ASSERTION) := by
  unfold ctap_handle_packet at h
  simp only [Option.map_eq_some'] at h
  obtain ⟨a, h1, h2⟩ := h
  subst h2
  split_ifs at h1
  · simp only [Option.some.injEq] at h1; subst h1; exact Or.inl rfl
  · exact dispatch_lastcmd env s _ _ a h1

theorem dispatch_unwanted_next (env : Env) (s : State) (pkt : Bytes)
    (hlast : s.getAssertionState.lastcmd ≠ CTAP_GET_ASSERTION) :
    ctap_handle_packet_dispatch env s GET_NEXT_ASSERTION pkt =
      some (CTAP2_ERR_NOT_ALLOWED, [], GET_NEXT_ASSERTION, s) := by
  unfold ctap_handle_packet_dispatch
  simp only
  rw [if_neg (by decide), if_neg (by decide), if_neg (by decide), if_neg (by decide),
    if_neg (by decide), if_neg (by decide), if_pos trivial, if_neg hlast]

theorem handle_packet_unwanted_next (env : Env) (s : State) (pkt : Bytes)
    (hcmd : pkt.headD 0 = GET_NEXT_ASSERTION)
    (hlast : s.getAssertionState.lastcmd ≠ CTAP_GET_ASSERTION) :
    ctap_handle_packet env s pkt =
      some (CTAP2_ERR_NOT_ALLOWED, { data := [], length := 0 },
        { s with getAssertionState :=
          { s.getAssertionState with lastcmd := GET_NEXT_ASSERTION } }) := by
  unfold ctap_handle_packet
  simp only [hcmd]
  rw [if_neg (by
    intro h
    rcases h.1 with h1 | h1 | h1 <;> exact absurd h1 (by decide)),
    dispatch_unwanted_next env s _ hlast]
  rfl

theorem update_count_header (env : Env) (w : World) (h : CTAP_authDataHeader) :
    (auth_data_update_count env w h).2.1.rpIdHash = h.rpIdHash
      ∧ (auth_data_update_count env w h).2.1.flags = h.flags := by
  simp [auth_data_update_count]

theorem response_credential_id_end (env : Env) (w : World) (cred : CTAP_credentialDescriptor)
    (hdr : CTAP_authDataHeader) (cdh : Bytes) (pre post : List CborItem)
    (hpre : ∀ x ∈ pre, ∀ k, x ≠ CborItem.text k) :
    response_credential_id (pre ++ (ctap_end_get_assertion env w cred hdr cdh).items ++ post)
      = some (env.credential_id cred.credential) := by
  induction pre with
  | nil =>
    simp [ctap_end_get_assertion, ctap_add_credential_descriptor, response_credential_id]
  | cons a rest ih =>
    have ha : ∀ k, a ≠ CborItem.text k := hpre a (List.mem_cons_self _ _)
    have ih1 := ih (fun x hx => hpre x (List.mem_cons_of_mem _ hx))
    cases hrest : rest ++ (ctap_end_get_assertion env w cred hdr cdh).items ++ post with
    | nil =>
      rw [hrest] at ih1
      simp [response_credential_id] at ih1
    | cons b tl =>
      rw [hrest] at ih1
      simp only [List.cons_append, List.append_assoc] at hrest ⊢
      rw [hrest]
      cases a <;> first
        | exact absurd rfl (ha _)
        | (simp only [response_credential_id]; exact ih1)

/-- One accepted get-next-assertion, in full. -/
theorem handle_packet_next (env : Env) (s : State)
    (hlast : s.getAssertionState.lastcmd = CTAP_GET_ASSERTION)
    (hc : 0 < s.getAssertionState.count) :
    ∃ r, ctap_handle_packet env s [GET_NEXT_ASSERTION] = some r ∧ r.1 = 0
      ∧ r.2.1.length = r.2.1.data.length
      ∧ r.2.2.getAssertionState.lastcmd = CTAP_GET_ASSERTION
      ∧ r.2.2.getAssertionState.count = s.getAssertionState.count - 1
      ∧ r.2.2.getAssertionState.creds = s.getAssertionState.creds
      ∧ r.2.2.getAssertionState.clientDataHash = s.getAssertionState.clientDataHash
      ∧ r.2.2.getAssertionState.authData =
        { (auth_data_update_count env s.world s.getAssertionState.authData).2.1 with
          rpIdHash := (env.sha256
            (authDataHeader_bytes (auth_data_update_count env s.world
              s.getAssertionState.authData).2.1
              ++ s.getAssertionState.clientDataHash.take CLIENT_DATA_HASH_SIZE)).take 32 }
      ∧ response_auth_data r.2.1.data = some (authDataHeader_bytes
          (auth_data_update_count env s.world s.getAssertionState.authData).2.1)
      ∧ response_credential_id r.2.1.data = some (env.credential_id
          (s.getAssertionState.creds.getD (s.getAssertionState.count - 1)
            zero_credential).credential) := by
  have hgna : ctap_get_next_assertion env s =
      (let u := auth_data_update_count env s.world s.getAssertionState.authData
       let cred := s.getAssertionState.creds.getD (s.getAssertionState.count - 1) zero_credential
       let e := ctap_end_get_assertion env u.2.2 cred u.2.1 s.getAssertionState.clientDataHash
       (0, [CborItem.map 4, CborItem.int RESP_authData,
          CborItem.bytes (authDataHeader_bytes u.2.1)] ++ e.items ++ [CborItem.close],
        { s with
          getAssertionState :=
            { s.getAssertionState with
              count := s.getAssertionState.count - 1, authData := e.auth_data_buf }
          world := e.world })) := by
    unfold ctap_get_next_assertion pop_credential
    simp only [gt_iff_lt, hc, if_true]
    rfl
  have hdisp : ctap_handle_packet_dispatch env s GET_NEXT_ASSERTION [] =
      some ((ctap_get_next_assertion env s).1, (ctap_get_next_assertion env s).2.1,
        (if (ctap_get_next_assertion env s).1 = 0 then CTAP_GET_ASSERTION else GET_NEXT_ASSERTION),
        (ctap_get_next_assertion env s).2.2) := by
    unfold ctap_handle_packet_dispatch
    simp only
    rw [if_neg (by decide), if_neg (by decide), if_neg (by decide), if_neg (by decide),
      if_neg (by decide), if_neg (by decide), if_pos trivial, if_pos hlast]
  unfold ctap_handle_packet
  simp only [List.headD_cons, List.tail_cons]
  rw [if_neg (by
    intro h
    rcases h.1 with h1 | h1 | h1 <;> exact absurd h1 (by decide)), hdisp, hgna]
  refine ⟨_, rfl, rfl, ?_, rfl, rfl, rfl, rfl, ?_, ?_, ?_⟩
  · simp [CTAP1_ERR_SUCCESS]
  · simp [ctap_end_get_assertion, ctap_calculate_signature]
  · simp [response_auth_data]
  · simp only [Option.map_some']
    have := response_credential_id_end env
      (auth_data_update_count env s.world s.getAssertionState.authData).2.2
      (s.getAssertionState.creds.getD (s.getAssertionState.count - 1) zero_credential)
      (auth_data_update_count env s.world s.getAssertionState.authData).2.1
      s.getAssertionState.clientDataHash
      [CborItem.map 4, CborItem.int RESP_authData,
        CborItem.bytes (authDataHeader_bytes
          (auth_data_update_count env s.world s.getAssertionState.authData).2.1)]
      [CborItem.close] (by simp)
    simpa using this

theorem take_reverse_succ (l : List CTAP_credentialDescriptor) (n : Nat) (h : n < l.length) :
    (l.take (n + 1)).reverse = l.getD n zero_credential :: (l.take n).reverse := by
  rw [List.take_succ, List.reverse_append]
  simp [List.getD, List.getElem?_eq_getElem h]

/-- A run of get-next-assertions pops the saved credentials from the top down. -/
theorem run_next_assertions (env : Env) (n : Nat) :
    ∀ s : State, s.getAssertionState.lastcmd = CTAP_GET_ASSERTION →
      s.getAssertionState.count = n → n ≤ s.getAssertionState.creds.length →
      ∃ r, ctap_run env s (List.replicate n [GET_NEXT_ASSERTION]) = some r
        ∧ r.1.map (fun x => x.1) = List.replicate n 0
        ∧ r.1.map (fun x => response_credential_id x.2.data)
          = ((s.getAssertionState.creds.take n).reverse).map
              (fun c => some (env.credential_id c.credential)) := by
  induction n with
  | zero =>
    intro s _ _ _
    exact ⟨_, rfl, rfl, by simp⟩
  | succ n ih =>
    intro s hlast hcount hlen
    obtain ⟨a, ha, hst, _, hl, hc, hcreds, _, _, _, hid⟩ :=
      handle_packet_next env s hlast (by omega)
    obtain ⟨t, ht, hts, htid⟩ := ih a.2.2 hl (by omega) (by rw [hcreds]; omega)
    refine ⟨((a.1, a.2.1) :: t.1, t.2), ?_, ?_, ?_⟩
    · simp only [List.replicate_succ, ctap_run, ha, ht]
    · simp only [List.map_cons, hst, hts, List.replicate_succ]
    · simp only [List.map_cons, hid, htid, hcreds, hcount, Nat.add_sub_cancel]
      rw [take_reverse_succ _ _ (by omega)]
      simp

theorem authenticate_congr (env : Env) (s s1 : State) (rp : rpId) (d : CTAP_credentialDescriptor)
    (h : s1.world.secret_epoch = s.world.secret_epoch) :
    ctap_authenticate_credential env s1 rp d = ctap_authenticate_credential env s rp d := by
  simp [ctap_authenticate_credential, make_auth_tag, h]

theorem make_auth_data_secret (env : Env) (s : State) (rp : rpId) (user : Option CTAP_userEntity)
    (ct : Nat) (alg : Int) :
    (ctap_make_auth_data env s rp user ct alg).2.2.secret_epoch = s.world.secret_epoch := by
  simp only [ctap_make_auth_data, auth_data_update_count]
  split_ifs <;> rfl

theorem filter_invalid_congr (env : Env) (s s1 : State) (GA : CTAP_getAssertion)
    (h : s1.world.secret_epoch = s.world.secret_epoch) :
    ctap_filter_invalid_credentials env s1 GA = ctap_filter_invalid_credentials env s GA := by
  have : ∀ d rp, ctap_authenticate_credential env s1 rp d = ctap_authenticate_credential env s rp d :=
    fun d rp => authenticate_congr env s s1 rp d h
  simp [ctap_filter_invalid_credentials, invalidate_credentials, this]

theorem qsort_creds_length (l : List CTAP_credentialDescriptor) :
    (qsort_creds l).length = l.length := by
  simp [qsort_creds, List.length_insertionSort]

theorem invalidate_length (env : Env) (s : State) (rp : rpId)
    (l : List CTAP_credentialDescriptor) : (invalidate_credentials env s rp l).length = l.length := by
  simp [invalidate_credentials]

theorem end_get_assertion_ret (env : Env) (w : World) (cred : CTAP_credentialDescriptor)
    (hdr : CTAP_authDataHeader) (cdh : Bytes) :
    (ctap_end_get_assertion env w cred hdr cdh).ret = 0 := rfl

theorem get_assertion_body_valid (env : Env) (s : State) (GA : CTAP_getAssertion)
    (hv : 0 < (valid_credentials env s GA.rp GA.creds).length) :
    ctap_get_assertion_body env s GA =
      (0,
        [CborItem.map 5] ++ (ctap_make_auth_data env s GA.rp none 0 0).2.1
          ++ [CborItem.int RESP_numberOfCredentials,
              CborItem.int ((valid_credentials env s GA.rp GA.creds).length : Int)]
          ++ (ctap_end_get_assertion env
              (save_credential_list { s with world := (ctap_make_auth_data env s GA.rp none 0 0).2.2 }
                (ctap_make_auth_data env s GA.rp none 0 0).1.head GA.clientDataHash
                (qsort_creds (invalidate_credentials env s GA.rp GA.creds))
                ((valid_credentials env s GA.rp GA.creds).length - 1)).world
              ((qsort_creds (invalidate_credentials env s GA.rp GA.creds)).getD
                ((valid_credentials env s GA.rp GA.creds).length - 1) zero_credential)
              (ctap_make_auth_data env s GA.rp none 0 0).1.head GA.clientDataHash).items
          ++ [CborItem.close],
        { save_credential_list { s with world := (ctap_make_auth_data env s GA.rp none 0 0).2.2 }
            (ctap_make_auth_data env s GA.rp none 0 0).1.head GA.clientDataHash
            (qsort_creds (invalidate_credentials env s GA.rp GA.creds))
            ((valid_credentials env s GA.rp GA.creds).length - 1) with
          world := (ctap_end_get_assertion env
              (save_credential_list { s with world := (ctap_make_auth_data env s GA.rp none 0 0).2.2 }
                (ctap_make_auth_data env s GA.rp none 0 0).1.head GA.clientDataHash
                (qsort_creds (invalidate_credentials env s GA.rp GA.creds))
                ((valid_credentials env s GA.rp GA.creds).length - 1)).world
              ((qsort_creds (invalidate_credentials env s GA.rp GA.creds)).getD
                ((valid_credentials env s GA.rp GA.creds).length - 1) zero_credential)
              (ctap_make_auth_data env s GA.rp none 0 0).1.head GA.clientDataHash).world }) := by
  have hf := filter_invalid_congr env s
    { s with world := (ctap_make_auth_data env s GA.rp none 0 0).2.2 } GA
    (make_auth_data_secret env s GA.rp none 0 0)
  have hcount : (ctap_filter_invalid_credentials env s GA).1
      = ((valid_credentials env s GA.rp GA.creds).length : Int) := rfl
  have hcreds : (ctap_filter_invalid_credentials env s GA).2.creds
      = qsort_creds (invalidate_credentials env s GA.rp GA.creds) := rfl
  have htoNat : (((valid_credentials env s GA.rp GA.creds).length : Int) - 1).toNat
      = (valid_credentials env s GA.rp GA.creds).length - 1 := by omega
  unfold ctap_get_assertion_body
  simp only [hf, hcount, hcreds, htoNat, end_get_assertion_ret, ne_eq, not_true_eq_false,
    if_false]
  rw [if_pos (by exact_mod_cast hv)]

theorem save_credential_list_take (s : State) (hdr : CTAP_authDataHeader) (cdh : Bytes)
    (creds : List CTAP_credentialDescriptor) (n : Nat) (hn : n ≤ creds.length) :
    (save_credential_list s hdr cdh creds n).getAssertionState.creds.take n = creds.take n
      ∧ n ≤ (save_credential_list s hdr cdh creds n).getAssertionState.creds.length
      ∧ (save_credential_list s hdr cdh creds n).getAssertionState.count = n
      ∧ (save_credential_list s hdr cdh creds n).getAssertionState.lastcmd
        = s.getAssertionState.lastcmd := by
  unfold save_credential_list
  split_ifs with h0
  · refine ⟨?_, ?_, rfl, rfl⟩
    · simp only
      rw [List.take_append_of_le_length (by simp [hn])]
      simp
    · simp only [List.length_append, List.length_take]
      omega
  · simp at h0
    subst h0
    simp

/-- One successful get-assertion, in full. -/
theorem handle_packet_get_assertion (env : Env) (s : State) (req : Bytes)
    (GA : CTAP_getAssertion) (hunlocked : s.DEVICE_LOCKOUT ≠ 1)
    (hga : env.parse_get_assertion req = (0, GA))
    (hpin : s.PIN_CODE_SET = 1 → GA.pinAuthPresent ≠ 0 ∧
      GA.pinAuth.take 16 = pin_auth_mac env s GA.clientDataHash)
    (hv : 0 < (valid_credentials env s GA.rp GA.creds).length) :
    ∃ r, ctap_handle_packet env s (CTAP_GET_ASSERTION :: req) = some r ∧ r.1 = 0
      ∧ r.2.2.getAssertionState.lastcmd = CTAP_GET_ASSERTION
      ∧ r.2.2.getAssertionState.count = (valid_credentials env s GA.rp GA.creds).length - 1
      ∧ r.2.2.getAssertionState.creds.take ((valid_credentials env s GA.rp GA.creds).length - 1)
        = (qsort_creds (invalidate_credentials env s GA.rp GA.creds)).take
            ((valid_credentials env s GA.rp GA.creds).length - 1)
      ∧ (valid_credentials env s GA.rp GA.creds).length - 1
        ≤ r.2.2.getAssertionState.creds.length
      ∧ response_credential_id r.2.1.data = some (env.credential_id
          ((qsort_creds (invalidate_credentials env s GA.rp GA.creds)).getD
            ((valid_credentials env s GA.rp GA.creds).length - 1) zero_credential).credential) := by
  have hvlen : (valid_credentials env s GA.rp GA.creds).length ≤ GA.creds.length :=
    List.length_filter_le _ _
  have hS : (qsort_creds (invalidate_credentials env s GA.rp GA.creds)).length = GA.creds.length := by
    rw [qsort_creds_length, invalidate_length]
  have hdisp : ctap_handle_packet_dispatch env s CTAP_GET_ASSERTION req =
      some ((ctap_get_assertion env s req).1, (ctap_get_assertion env s req).2.1,
        CTAP_GET_ASSERTION, (ctap_get_assertion env s req).2.2) := by
    unfold ctap_handle_packet_dispatch
    simp only
    rw [if_neg (by decide), if_pos trivial]
  have hsave := save_credential_list_take
    { s with world := (ctap_make_auth_data env s GA.rp none 0 0).2.2 }
    (ctap_make_auth_data env s GA.rp none 0 0).1.head GA.clientDataHash
    (qsort_creds (invalidate_credentials env s GA.rp GA.creds))
    ((valid_credentials env s GA.rp GA.creds).length - 1) (by omega)
  unfold ctap_handle_packet
  simp only [List.headD_cons, List.tail_cons]
  rw [if_neg (by
    intro h
    exact h.2 (by simp [ctap_device_locked, hunlocked])), hdisp,
    get_assertion_pin_ok env s req GA hga hpin, get_assertion_body_valid env s GA hv]
  refine ⟨_, rfl, rfl, rfl, hsave.2.2.1, hsave.1, hsave.2.1, ?_⟩
  simp only [Option.map_some']
  have := response_credential_id_end env
    (save_credential_list { s with world := (ctap_make_auth_data env s GA.rp none 0 0).2.2 }
      (ctap_make_auth_data env s GA.rp none 0 0).1.head GA.clientDataHash
      (qsort_creds (invalidate_credentials env s GA.rp GA.creds))
      ((valid_credentials env s GA.rp GA.creds).length - 1)).world
    ((qsort_creds (invalidate_credentials env s GA.rp GA.creds)).getD
      ((valid_credentials env s GA.rp GA.creds).length - 1) zero_credential)
    (ctap_make_auth_data env s GA.rp none 0 0).1.head GA.clientDataHash
    ([CborItem.map 5] ++ (ctap_make_auth_data env s GA.rp none 0 0).2.1
      ++ [CborItem.int RESP_numberOfCredentials,
          CborItem.int ((valid_credentials env s GA.rp GA.creds).length : Int)])
    [CborItem.close] (by
      intro x hx k
      simp only [ctap_make_auth_data, List.mem_append, List.mem_cons, List.mem_singleton,
        List.not_mem_nil, or_false] at hx
      rcases hx with (rfl | rfl | rfl) | rfl | rfl <;> simp)
  simpa using this

theorem cred_cmp_le_iff (a b : CTAP_credentialDescriptor)
    (ha : a.credential.count < 2147483648) (hb : b.credential.count < 2147483648) :
    cred_cmp_func a b ≤ 0 ↔ b.credential.count ≤ a.credential.count := by
  unfold cred_cmp_func u32
  simp only
  split_ifs with h <;> omega

theorem orderedInsert_congr {α : Type} (r r1 : α → α → Prop) [DecidableRel r] [DecidableRel r1]
    (a : α) (l : List α) (h : ∀ b ∈ l, (r a b ↔ r1 a b)) :
    l.orderedInsert r a = l.orderedInsert r1 a := by
  induction l with
  | nil => rfl
  | cons b t ih =>
    have hb := h b (List.mem_cons_self _ _)
    have ih1 := ih (fun c hc => h c (List.mem_cons_of_mem _ hc))
    simp only [List.orderedInsert]
    by_cases hr : r a b
    · rw [if_pos hr, if_pos (hb.mp hr)]
    · rw [if_neg hr, if_neg (fun h1 => hr (hb.mpr h1)), ih1]

theorem insertionSort_congr {α : Type} (r r1 : α → α → Prop) [DecidableRel r] [DecidableRel r1]
    (l : List α) (h : ∀ a ∈ l, ∀ b ∈ l, (r a b ↔ r1 a b)) :
    l.insertionSort r = l.insertionSort r1 := by
  induction l with
  | nil => rfl
  | cons a t ih =>
    have ih1 := ih (fun x hx y hy => h x (List.mem_cons_of_mem _ hx) y (List.mem_cons_of_mem _ hy))
    simp only [List.insertionSort]
    rw [ih1]
    apply orderedInsert_congr
    intro b hb
    have hbt : b ∈ t := (List.perm_insertionSort r1 t).subset hb
    exact h a (List.mem_cons_self _ _) b (List.mem_cons_of_mem _ hbt)

theorem qsort_creds_sorted (l : List CTAP_credentialDescriptor)
    (h : ∀ c ∈ l, c.credential.count < 2147483648) :
    (qsort_creds l).Sorted count_ge ∧ (qsort_creds l).Perm l := by
  classical
  have heq : qsort_creds l = l.insertionSort count_ge := by
    unfold qsort_creds
    apply insertionSort_congr
    intro a ha b hb
    exact cred_cmp_le_iff a b (h a ha) (h b hb)
  haveI : IsTotal CTAP_credentialDescriptor count_ge := ⟨fun a b => Nat.le_total _ _⟩
  haveI : IsTrans CTAP_credentialDescriptor count_ge := ⟨fun a b c h1 h2 => Nat.le_trans h2 h1⟩
  rw [heq]
  exact ⟨List.sorted_insertionSort count_ge l, List.perm_insertionSort count_ge l⟩

theorem invalidate_filter_pos (env : Env) (s : State) (rp : rpId)
    (creds : List CTAP_credentialDescriptor)
    (hpos : ∀ c ∈ creds, ctap_authenticate_credential env s rp c ≠ 0 → 0 < c.credential.count) :
    (invalidate_credentials env s rp creds).filter (fun c => decide (0 < c.credential.count))
      = valid_credentials env s rp creds := by
  induction creds with
  | nil => rfl
  | cons a t ih =>
    have ih1 := ih (fun c hc => hpos c (List.mem_cons_of_mem _ hc))
    unfold invalidate_credentials valid_credentials at *
    simp only [List.map_cons, List.filter_cons]
    by_cases ha : ctap_authenticate_credential env s rp a = 0
    · simp [ha, ih1]
    · have := hpos a (List.mem_cons_self _ _) ha
      simp [ha, this, ih1]

theorem invalidate_count_lt (env : Env) (s : State) (rp : rpId)
    (creds : List CTAP_credentialDescriptor)
    (hlt : ∀ c ∈ creds, ctap_authenticate_credential env s rp c ≠ 0 →
      c.credential.count < 2147483648) :
    ∀ c ∈ invalidate_credentials env s rp creds, c.credential.count < 2147483648 := by
  intro c hc
  unfold invalidate_credentials at hc
  obtain ⟨d, hd, rfl⟩ := List.mem_map.mp hc
  by_cases ha : ctap_authenticate_credential env s rp d = 0
  · simp [ha]
  · simpa [ha] using hlt d hd ha

theorem sorted_take_filter_pos (l : List CTAP_credentialDescriptor) (h : l.Sorted count_ge) :
    l.take (l.filter (fun c => decide (0 < c.credential.count))).length
      = l.filter (fun c => decide (0 < c.credential.count)) := by
  induction l with
  | nil => rfl
  | cons a t ih =>
    have ht := ih (List.Sorted.of_cons h)
    by_cases ha : 0 < a.credential.count
    · simp [List.filter_cons, ha, ht]
    · have hall : ∀ b ∈ t, ¬ 0 < b.credential.count := by
        intro b hb
        have : count_ge a b := List.rel_of_sorted_cons h b hb
        unfold count_ge at this
        omega
      have hnil : t.filter (fun c => decide (0 < c.credential.count)) = [] := by
        rw [List.filter_eq_nil_iff]
        intro b hb
        simpa using hall b hb
      simp [List.filter_cons, ha, hnil]

/-- The valid credentials, in the order the sorted allow-list holds them. -/
theorem sorted_valid_prefix (env : Env) (s : State) (rp : rpId)
    (creds : List CTAP_credentialDescriptor)
    (hpos : ∀ c ∈ creds, ctap_authenticate_credential env s rp c ≠ 0 →
      0 < c.credential.count ∧ c.credential.count < 2147483648)
    (hnodup : ((valid_credentials env s rp creds).map (fun c => c.credential.count)).Nodup) :
    ((qsort_creds (invalidate_credentials env s rp creds)).take
        (valid_credentials env s rp creds).length).Perm (valid_credentials env s rp creds)
    ∧ ((qsort_creds (invalidate_credentials env s rp creds)).take
        (valid_credentials env s rp creds).length).Pairwise
          (fun a b => b.credential.count < a.credential.count) := by
  obtain ⟨hsorted, hperm⟩ := qsort_creds_sorted (invalidate_credentials env s rp creds)
    (invalidate_count_lt env s rp creds (fun c hc ha => (hpos c hc ha).2))
  have hfil := invalidate_filter_pos env s rp creds (fun c hc ha => (hpos c hc ha).1)
  have hpf : ((qsort_creds (invalidate_credentials env s rp creds)).filter
      (fun c => decide (0 < c.credential.count))).Perm (valid_credentials env s rp creds) := by
    rw [← hfil]
    exact hperm.filter _
  have htake := sorted_take_filter_pos _ hsorted
  rw [hpf.length_eq] at htake
  rw [htake]
  refine ⟨hpf, ?_⟩
  have hs2 : ((qsort_creds (invalidate_credentials env s rp creds)).filter
      (fun c => decide (0 < c.credential.count))).Pairwise count_ge :=
    List.Pairwise.sublist (List.filter_sublist _) hsorted
  have hnd : ((qsort_creds (invalidate_credentials env s rp creds)).filter
      (fun c => decide (0 < c.credential.count))).Pairwise
        (fun a b => a.credential.count ≠ b.credential.count) := by
    have h1 : (((qsort_creds (invalidate_credentials env s rp creds)).filter
        (fun c => decide (0 < c.credential.count))).map (fun c => c.credential.count)).Nodup :=
      (hpf.map _).nodup_iff.mpr hnodup
    exact (List.pairwise_map.mp h1)
  exact (hs2.and hnd).imp (fun ⟨h1, h2⟩ => by unfold count_ge at h1; omega)

/-! ## C1, C2: PIN retries and lockout -/

/-- A getPinToken request whose pinHashEnc does not decrypt to the stored hash prefix:
`ctap_client_pin` answers PIN_INVALID, makes a new key-agreement pair and calls
`ctap_decrement_pin_attempts`. -/
theorem client_pin_getPinToken_mismatch (env : Env) (s : State) (req : Bytes)
    (CP : CTAP_clientPin) (hparse : env.parse_client_pin req = (0, CP))
    (hproto : CP.pinProtocol = 1) (hsub : CP.subCommand = CP_cmdGetPinToken)
    (hka : CP.keyAgreementPresent ≠ 0) (hph : CP.pinHashEncPresent ≠ 0)
    (hset : s.PIN_CODE_SET = 1)
    (hmis : (env.aes256_decrypt (pin_shared_secret env s CP.pubkey)
      (CP.pinHashEnc.take 16)).take 16 ≠ s.PIN_CODE_HASH.take 16) :
    ctap_client_pin env s req =
      some (CTAP2_ERR_PIN_INVALID,
        [CborItem.map ((if CP.getRetries ≠ 0 then 1 else 0) + 1), CborItem.int RESP_pinToken],
        (ctap_decrement_pin_attempts (make_key_agreement_pair env s)).2) := by
  have hadd : ctap_add_pin_if_verified env s CP.pubkey CP.pinHashEnc =
      (CTAP2_ERR_PIN_INVALID, [],
        (ctap_decrement_pin_attempts (make_key_agreement_pair env s)).2) := by
    unfold ctap_add_pin_if_verified
    simp only
    rw [if_pos (by rw [memcmp_eq_iff]; exact hmis)]
  have htok : ctap_client_pin_getPinToken env s CP (if CP.getRetries ≠ 0 then 1 else 0) =
      (CTAP2_ERR_PIN_INVALID,
        [CborItem.map ((if CP.getRetries ≠ 0 then 1 else 0) + 1), CborItem.int RESP_pinToken],
        (ctap_decrement_pin_attempts (make_key_agreement_pair env s)).2) := by
    unfold ctap_client_pin_getPinToken
    rw [if_neg (by rw [is_pin_set_eq_one s hset]; decide),
      if_neg (by rintro (h | h); exact hka h; exact hph h)]
    simp only [hadd]
    rw [if_pos (by decide)]
    rfl
  unfold ctap_client_pin
  simp only [hparse]
  rw [if_neg (by decide), if_neg (by rw [hproto, hsub]; decide)]
  simp only [hsub]
  rw [if_neg (by decide), if_neg (by decide), if_neg (by decide), if_neg (by decide),
    if_pos trivial, htok]

/-- A CLIENT_PIN packet on an unlocked device is handled by `ctap_client_pin`. -/
theorem handle_packet_client_pin (env : Env) (s : State) (pkt : Bytes)
    (hcmd : pkt.headD 0 = CTAP_CLIENT_PIN) (hlock : s.DEVICE_LOCKOUT ≠ 1)
    (r : Nat × List CborItem × State) (h : ctap_client_pin env s pkt.tail = some r) :
    ctap_handle_packet env s pkt =
      some (r.1, { data := r.2.1, length := if r.1 ≠ CTAP1_ERR_SUCCESS then 0 else r.2.1.length },
        { r.2.2 with getAssertionState :=
          { r.2.2.getAssertionState with lastcmd := CTAP_CLIENT_PIN } }) := by
  have hdisp : ctap_handle_packet_dispatch env s CTAP_CLIENT_PIN pkt.tail =
      some (r.1, r.2.1, CTAP_CLIENT_PIN, r.2.2) := by
    unfold ctap_handle_packet_dispatch
    rw [if_neg (by decide), if_neg (by decide), if_neg (by decide), if_neg (by decide),
      if_pos rfl, h]
    rfl
  unfold ctap_handle_packet
  simp only [hcmd]
  rw [if_neg (by
    intro hh
    exact hh.2 (by simp [ctap_device_locked, hlock])), hdisp]
  rfl

/-- C1 (code_bug), what the code does at the claim's input: from a state with 8 retries
and no lockout (the state `ctap_init` leaves, with or without a PIN), no run of eight
packets - in particular eight consecutive PIN mismatches - ends with
`ctap_device_locked()` true.  `ctap_decrement_pin_attempts` sets `DEVICE_LOCKOUT` only
when it is called with no retry left, that is on the ninth mismatch. -/
theorem C1_eight_mismatches_leave_device_unlocked (env : Env) (s : State) (pkts : List Bytes)
    (htries : s._flash_tries = 8) (hlock : s.DEVICE_LOCKOUT = 0) (hlen : pkts.length = 8) :
    ∃ r, ctap_run env s pkts = some r ∧ ctap_device_locked r.2 = 0 := by
  obtain ⟨r, hr⟩ := run_total env s pkts
  have := run_keeps_unlocked env pkts s r hlock (by rw [hlen, htries]; decide)
    (by rw [htries]) hr
  exact ⟨r, hr, by simp [ctap_device_locked, this.1]⟩

set_option maxRecDepth 100000 in
/-- C1, at a concrete input: on the test device with PIN `"1234"` set, eight wrong
getPinToken packets are each answered PIN_INVALID, the device is not locked, and the
make-credential packet that follows is answered PIN_REQUIRED, not NOT_ALLOWED. -/
theorem C1_eight_mismatches_leave_device_unlocked_witness :
    test_state_pin.PIN_CODE_SET = 1
    ∧ (ctap_run test_env test_state_pin (List.replicate 8 [6, 2] ++ [[1, 1]])).map
        (fun r => r.1.map (fun x => x.1))
      = some (List.replicate 8 CTAP2_ERR_PIN_INVALID ++ [CTAP2_ERR_PIN_REQUIRED])
    ∧ ∃ r, ctap_run test_env test_state_pin (List.replicate 8 [6, 2]) = some r
      ∧ ctap_device_locked r.2 = 0 :=
  ⟨by decide!, by decide!,
    C1_eight_mismatches_leave_device_unlocked test_env test_state_pin (List.replicate 8 [6, 2])
      (by decide!) (by decide!) (by decide)⟩

/-- C2 (code_bug), what the code does at the claim's input: a PIN mismatch in
getPinToken with one retry left is answered PIN_INVALID and leaves `_flash_tries = 0`
with `DEVICE_LOCKOUT = 0`, so "locked out iff no retry left" fails in the state
reached. -/
theorem C2_last_retry_leaves_lockout_clear (env : Env) (s : State) (pkt : Bytes)
    (CP : CTAP_clientPin) (hcmd : pkt.headD 0 = CTAP_CLIENT_PIN)
    (hparse : env.parse_client_pin pkt.tail = (0, CP))
    (hproto : CP.pinProtocol = 1) (hsub : CP.subCommand = CP_cmdGetPinToken)
    (hka : CP.keyAgreementPresent ≠ 0) (hph : CP.pinHashEncPresent ≠ 0)
    (hset : s.PIN_CODE_SET = 1) (hlock : s.DEVICE_LOCKOUT = 0) (htries : s._flash_tries = 1)
    (hmis : (env.aes256_decrypt (pin_shared_secret env s CP.pubkey)
      (CP.pinHashEnc.take 16)).take 16 ≠ s.PIN_CODE_HASH.take 16) :
    ∃ r, ctap_handle_packet env s pkt = some r ∧ r.1 = CTAP2_ERR_PIN_INVALID
      ∧ r.2.2._flash_tries = 0 ∧ r.2.2.DEVICE_LOCKOUT = 0
      ∧ ¬ (r.2.2.DEVICE_LOCKOUT = 1 ↔ r.2.2._flash_tries = 0) := by
  have hcp := client_pin_getPinToken_mismatch env s pkt.tail CP hparse hproto hsub
    hka hph hset hmis
  have hpkt := handle_packet_client_pin env s pkt hcmd (by rw [hlock]; decide) _ hcp
  have hdec : (ctap_decrement_pin_attempts (make_key_agreement_pair env s)).2._flash_tries = 0
      ∧ (ctap_decrement_pin_attempts (make_key_agreement_pair env s)).2.DEVICE_LOCKOUT = 0 := by
    unfold ctap_decrement_pin_attempts make_key_agreement_pair
    simp [htries, hlock]
  refine ⟨_, hpkt, rfl, hdec.1, hdec.2, ?_⟩
  intro hiff
  have h1 := hiff.mpr hdec.1
  rw [hdec.2] at h1
  exact absurd h1 (by decide)

set_option maxRecDepth 100000 in
/-- C2, at a concrete input: the test device after `ctap_init`, setPin and seven
wrong getPinToken packets; the eighth wrong packet leaves 0 retries and no lockout. -/
theorem C2_last_retry_leaves_lockout_clear_witness :
    ctap_init test_env (boot_state test_env) = some test_state
    ∧ (ctap_run test_env test_state ([6, 1] :: List.replicate 7 [6, 2])).map (fun r => r.2)
      = some test_state_pin7
    ∧ ∃ r, ctap_handle_packet test_env test_state_pin7 [6, 2] = some r
      ∧ r.1 = CTAP2_ERR_PIN_INVALID
      ∧ r.2.2._flash_tries = 0 ∧ r.2.2.DEVICE_LOCKOUT = 0
      ∧ ¬ (r.2.2.DEVICE_LOCKOUT = 1 ↔ r.2.2._flash_tries = 0) :=
  ⟨by decide!, by decide!,
    C2_last_retry_leaves_lockout_clear test_env test_state_pin7 [6, 2] test_getPinToken_wrong
      (by decide) (by decide) (by decide) (by decide) (by decide) (by decide) (by decide!)
      (by decide!) (by decide!) (by decide!)⟩

/-! ## C3: order of the assertions -/

set_option maxRecDepth 100000 in
/-- The scenario of C3 on the test device: with two valid credentials of counts 7 and 42
in the allow-list, get-assertion answers with the count-7 credential and the following
get-next-assertion with the count-42 one. -/
theorem C3_counts_7_and_42_answer_7_first :
    ctap_authenticate_credential test_env test_state test_rp (test_credential 7) = 1
    ∧ ctap_authenticate_credential test_env test_state test_rp (test_credential 42) = 1
    ∧ (ctap_run test_env test_state [[2, 1], [8]]).map
        (fun r => r.1.map (fun x => (x.1, response_credential_id x.2.data)))
      = some [(0, some (test_credential_id (test_credential 7).credential)),
          (0, some (test_credential_id (test_credential 42).credential))]
    ∧ test_credential_id (test_credential 7).credential
      ≠ test_credential_id (test_credential 42).credential := by
  decide!

/-- C3 (code_bug), what the code does: the allow-list is sorted most recent first, but
`ctap_get_assertion` answers with `creds[validCredCount - 1]` and `pop_credential`
walks down from there.  When the valid credentials of the allow-list have pairwise
distinct non-zero counts below 2^31, a get-assertion followed by get-next-assertions
answers with the valid credentials in strictly ascending count order: first the valid
credential with the smallest count, then each time the one with the next larger count,
every status being success. -/
theorem C3_assertions_come_in_ascending_count_order (env : Env) (s : State) (req : Bytes)
    (GA : CTAP_getAssertion) (hunlocked : s.DEVICE_LOCKOUT ≠ 1)
    (hga : env.parse_get_assertion req = (0, GA))
    (hpin : s.PIN_CODE_SET = 1 → GA.pinAuthPresent ≠ 0 ∧
      GA.pinAuth.take 16 = pin_auth_mac env s GA.clientDataHash)
    (hne : valid_credentials env s GA.rp GA.creds ≠ [])
    (hpos : ∀ c ∈ GA.creds, ctap_authenticate_credential env s GA.rp c ≠ 0 →
      0 < c.credential.count ∧ c.credential.count < 2147483648)
    (hnodup : ((valid_credentials env s GA.rp GA.creds).map (fun c => c.credential.count)).Nodup) :
    ∃ (asc : List CTAP_credentialDescriptor) (r : List (Nat × CTAP_RESPONSE) × State),
      asc.Perm (valid_credentials env s GA.rp GA.creds)
      ∧ asc.Pairwise (fun a b => a.credential.count < b.credential.count)
      ∧ ctap_run env s ((CTAP_GET_ASSERTION :: req)
          :: List.replicate (asc.length - 1) [GET_NEXT_ASSERTION]) = some r
      ∧ r.1.map (fun x => x.1) = List.replicate asc.length CTAP1_ERR_SUCCESS
      ∧ r.1.map (fun x => response_credential_id x.2.data)
        = asc.map (fun c => some (env.credential_id c.credential)) := by
  have hv : 0 < (valid_credentials env s GA.rp GA.creds).length :=
    List.length_pos.mpr hne
  have hvlen : (valid_credentials env s GA.rp GA.creds).length ≤ GA.creds.length :=
    List.length_filter_le _ _
  have hS : (qsort_creds (invalidate_credentials env s GA.rp GA.creds)).length
      = GA.creds.length := by
    rw [qsort_creds_length, invalidate_length]
  obtain ⟨hperm, hpair⟩ := sorted_valid_prefix env s GA.rp GA.creds hpos hnodup
  obtain ⟨a, ha, hst, hlast, hcount, hcreds, hlen, hid⟩ :=
    handle_packet_get_assertion env s req GA hunlocked hga hpin hv
  obtain ⟨t, ht, hts, htid⟩ := run_next_assertions env _ a.2.2 hlast hcount hlen
  generalize hvdef : (valid_credentials env s GA.rp GA.creds).length = v at *
  generalize hSdef : qsort_creds (invalidate_credentials env s GA.rp GA.creds) = S at *
  have hasc : (S.take v).reverse = S.getD (v - 1) zero_credential :: (S.take (v - 1)).reverse := by
    have := take_reverse_succ S (v - 1) (by omega)
    rwa [Nat.sub_add_cancel hv] at this
  have hlenasc : ((S.take v).reverse).length = v := by
    simp only [List.length_reverse, List.length_take]
    omega
  refine ⟨(S.take v).reverse, ((a.1, a.2.1) :: t.1, t.2), ?_, ?_, ?_, ?_, ?_⟩
  · exact (List.reverse_perm _).trans hperm
  · exact List.pairwise_reverse.mpr hpair
  · rw [hlenasc]
    simp only [ctap_run, ha, ht]
  · rw [hlenasc]
    simp only [List.map_cons, hst, hts]
    have : v = (v - 1) + 1 := by omega
    conv_rhs => rw [this, List.replicate_succ]
    rfl
  · simp only [List.map_cons, hid, htid, hcreds, hasc]

set_option maxRecDepth 100000 in
/-- C3, at a concrete input: the test allow-list with counts 7 and 42. -/
theorem C3_assertions_come_in_ascending_count_order_witness :
    test_state.DEVICE_LOCKOUT ≠ 1
    ∧ valid_credentials test_env test_state test_rp [test_credential 7, test_credential 42]
      = [test_credential 7, test_credential 42]
    ∧ ∃ (asc : List CTAP_credentialDescriptor) (r : List (Nat × CTAP_RESPONSE) × State),
      asc.Perm (valid_credentials test_env test_state
        (test_getAssertion [test_credential 7, test_credential 42]).rp
        (test_getAssertion [test_credential 7, test_credential 42]).creds)
      ∧ asc.Pairwise (fun a b => a.credential.count < b.credential.count)
      ∧ ctap_run test_env test_state ((CTAP_GET_ASSERTION :: [1])
          :: List.replicate (asc.length - 1) [GET_NEXT_ASSERTION]) = some r
      ∧ r.1.map (fun x => x.1) = List.replicate asc.length CTAP1_ERR_SUCCESS
      ∧ r.1.map (fun x => response_credential_id x.2.data)
        = asc.map (fun c => some (test_env.credential_id c.credential)) :=
  ⟨by decide!, by decide!,
    C3_assertions_come_in_ascending_count_order test_env test_state [1]
      (test_getAssertion [test_credential 7, test_credential 42]) (by decide!) (by decide)
      (fun h => absurd h (by decide!)) (by decide!) (by decide!) (by decide!)⟩

/-- The credential `ctap_make_auth_data` builds for a non-zero credential type: the
user it was given, the count drawn from the sign counter, and the tag made of both. -/
theorem make_auth_data_builds_credential (env : Env) (s : State) (rp : rpId)
    (user : CTAP_userEntity) (credtype : Nat) (algtype : Int) (hc : credtype ≠ 0) :
    ∃ t, (ctap_make_auth_data env s rp (some user) credtype algtype).1.attest = some t
      ∧ t.credential.user = user
      ∧ t.credential.count = (auth_data_update_count env s.world
          { rpIdHash := env.sha256 rp.id, flags := 0, signCount := [0, 0, 0, 0] }).1
      ∧ t.credential.tag = make_auth_tag env s rp user t.credential.count := by
  unfold ctap_make_auth_data
  simp only
  rw [if_pos hc]
  exact ⟨_, rfl, rfl, rfl, rfl⟩

theorem test_env_coded_injective :
    Function.Injective (fun b => (test_env_coded.sha256 b).take CREDENTIAL_TAG_SIZE) := by
  intro a b h
  have h1 : (List.replicate 15 0 ++ [Encodable.encode a]).take 16
      = (List.replicate 15 0 ++ [Encodable.encode b]).take 16 := h
  rw [List.take_of_length_le (by simp), List.take_of_length_le (by simp)] at h1
  have h2 := List.append_cancel_left h1
  simp only [List.cons.injEq, and_true] at h2
  exact Encodable.encode_injective h2

/-! ## C4: credential tag -/

set_option maxRecDepth 100000 in
/-- C4, counterexample: the digest `b ↦ 00 .. 00 ‖ b` (16 zero bytes, then the input) is
injective, yet every tag made with it is 16 zero bytes; the descriptor carrying the tag
made for `test_rp` authenticates for the relying party with id bytes `[102]` too. -/
theorem C4_injective_digest_with_equal_tags :
    Function.Injective test_env_prefix.sha256
    ∧ ({ id := [102] } : rpId).id ≠ test_rp.id
    ∧ ctap_authenticate_credential test_env_prefix test_state { id := [102] }
        { type := PUB_KEY_CRED_PUB_KEY
          credential :=
            { tag := make_auth_tag test_env_prefix test_state test_rp test_user 7
              user := test_user, count := 7 } } = 1 :=
  ⟨fun _ _ h => List.append_cancel_left h, by decide, by decide!⟩

/-- C4 (corrected): a public-key descriptor carrying `tag = make_auth_tag(rp, user, count)`,
`user` and `count` makes `ctap_authenticate_credential(rp, desc)` return 1, and
`ctap_make_auth_data` with a non-zero credential type builds a credential of that form
(for the user it is given and the count it draws), which therefore authenticates.  For
another relying party `rp1` the descriptor authenticates exactly when the first 16 bytes
of SHA-256 agree on the two tag inputs; so with SHA-256 truncated to its first 16 bytes
modelled as injective, `ctap_authenticate_credential(rp1, desc)` returns 0 for every
`rp1` whose id bytes differ from those of `rp`. -/
theorem C4_tag_roundtrip (env : Env) (s : State) (rp : rpId) (user : CTAP_userEntity)
    (count : Nat) :
    ctap_authenticate_credential env s rp
        { type := PUB_KEY_CRED_PUB_KEY
          credential := { tag := make_auth_tag env s rp user count, user := user, count := count } }
        = 1
    ∧ (∀ (credtype : Nat) (algtype : Int), credtype ≠ 0 →
        ∃ t, (ctap_make_auth_data env s rp (some user) credtype algtype).1.attest = some t
          ∧ t.credential.user = user
          ∧ t.credential.tag = make_auth_tag env s rp user t.credential.count
          ∧ ctap_authenticate_credential env s rp
              { type := PUB_KEY_CRED_PUB_KEY, credential := t.credential } = 1)
    ∧ (∀ rp1 : rpId,
        (ctap_authenticate_credential env s rp1
          { type := PUB_KEY_CRED_PUB_KEY
            credential :=
              { tag := make_auth_tag env s rp user count, user := user, count := count } }
          = 1 ↔
        (env.sha256 (rp1.id ++ user.id
            ++ user.name.take (strnlen user.name env.USER_NAME_LIMIT) ++ le32 count
            ++ env.master_secret s.world.secret_epoch)).take CREDENTIAL_TAG_SIZE
          = (env.sha256 (rp.id ++ user.id
            ++ user.name.take (strnlen user.name env.USER_NAME_LIMIT) ++ le32 count
            ++ env.master_secret s.world.secret_epoch)).take CREDENTIAL_TAG_SIZE)
        ∧ (ctap_authenticate_credential env s rp1
          { type := PUB_KEY_CRED_PUB_KEY
            credential :=
              { tag := make_auth_tag env s rp user count, user := user, count := count } }
          = 0 ∨ ctap_authenticate_credential env s rp1
          { type := PUB_KEY_CRED_PUB_KEY
            credential :=
              { tag := make_auth_tag env s rp user count, user := user, count := count } }
          = 1))
    ∧ (Function.Injective (fun b => (env.sha256 b).take CREDENTIAL_TAG_SIZE) →
        ∀ rp1 : rpId, rp1.id ≠ rp.id →
        ctap_authenticate_credential env s rp1
          { type := PUB_KEY_CRED_PUB_KEY
            credential :=
              { tag := make_auth_tag env s rp user count, user := user, count := count } }
          = 0) := by
  have hiff : ∀ rp1 : rpId,
      (ctap_authenticate_credential env s rp1
          { type := PUB_KEY_CRED_PUB_KEY
            credential :=
              { tag := make_auth_tag env s rp user count, user := user, count := count } }
          = 1 ↔
        (env.sha256 (auth_tag_input env (env.master_secret s.world.secret_epoch) rp1 user
            count)).take CREDENTIAL_TAG_SIZE
          = (env.sha256 (auth_tag_input env (env.master_secret s.world.secret_epoch) rp user
            count)).take CREDENTIAL_TAG_SIZE) := by
    intro rp1
    unfold ctap_authenticate_credential
    simp only [ne_eq, not_true_eq_false, if_false]
    by_cases hm : memcmp_eq (make_auth_tag env s rp user count)
        (make_auth_tag env s rp1 user count) CREDENTIAL_TAG_SIZE = true
    · rw [if_pos hm]
      rw [memcmp_eq_iff] at hm
      unfold make_auth_tag at hm
      simp only [List.take_take, min_self] at hm
      exact ⟨fun _ => hm.symm, fun _ => rfl⟩
    · rw [if_neg hm]
      rw [memcmp_eq_iff] at hm
      unfold make_auth_tag at hm
      simp only [List.take_take, min_self] at hm
      exact ⟨fun h => absurd h (by decide), fun h => absurd h.symm hm⟩
  refine ⟨authenticate_own_tag env s rp user count, ?_, fun rp1 => ⟨hiff rp1, ?_⟩, ?_⟩
  · intro credtype algtype hc
    obtain ⟨t, ht, hu, _, htag⟩ := make_auth_data_builds_credential env s rp user credtype
      algtype hc
    exact ⟨t, ht, hu, htag,
      authenticate_issued_credential env s rp user credtype algtype t ht⟩
  · exact authenticate_zero_or_one env s rp1 _
  · intro hinj rp1 hne
    have hin := auth_tag_input_rp_ne env (env.master_secret s.world.secret_epoch) rp rp1 user
      count hne
    rcases authenticate_zero_or_one env s rp1
      { type := PUB_KEY_CRED_PUB_KEY
        credential :=
          { tag := make_auth_tag env s rp user count, user := user, count := count } }
      with h0 | h1
    · exact h0
    · exact absurd (hinj ((hiff rp1).mp h1)) hin

set_option maxRecDepth 100000 in
/-- C4, at concrete inputs: the count-7 test credential authenticates for `test_rp` and
not for the relying party with id bytes `[102]`, its truncated digests being different;
make-credential data for `test_user` carries a credential; and with the digest of
`test_env_coded`, injective on its first 16 entries, no other relying party
authenticates the descriptor. -/
theorem C4_tag_roundtrip_witness :
    ctap_authenticate_credential test_env test_state test_rp (test_credential 7) = 1
    ∧ ¬ (ctap_authenticate_credential test_env test_state { id := [102] } (test_credential 7)
        = 1)
    ∧ (∃ t, (ctap_make_auth_data test_env test_state test_rp (some test_user)
          PUB_KEY_CRED_PUB_KEY COSE_ALG_ES256).1.attest = some t
        ∧ t.credential.user = test_user
        ∧ t.credential.tag = make_auth_tag test_env test_state test_rp test_user t.credential.count
        ∧ ctap_authenticate_credential test_env test_state test_rp
            { type := PUB_KEY_CRED_PUB_KEY, credential := t.credential } = 1)
    ∧ ctap_authenticate_credential test_env_coded test_state { id := [102] }
        { type := PUB_KEY_CRED_PUB_KEY
          credential :=
            { tag := make_auth_tag test_env_coded test_state test_rp test_user 7
              user := test_user, count := 7 } } = 0 :=
  ⟨(C4_tag_roundtrip test_env test_state test_rp test_user 7).1,
    fun h => absurd (((C4_tag_roundtrip test_env test_state test_rp test_user 7).2.2.1
      { id := [102] }).1.mp h) (by decide!),
    (C4_tag_roundtrip test_env test_state test_rp test_user 7).2.1 PUB_KEY_CRED_PUB_KEY
      COSE_ALG_ES256 (by decide),
    (C4_tag_roundtrip test_env_coded test_state test_rp test_user 7).2.2.2
      test_env_coded_injective { id := [102] } (by decide)⟩

/-! ## C5: DER encoding of the signature -/

/-- The DER output depends on the outer `lead_r`, `lead_s` only through the two pad
bits they select. -/
theorem der_signature_congr (k1 k2 j1 j2 : Nat) (sig : Bytes)
    (hr : (sig.getD (0 + k1) 0 &&& 0x80 = 0x80) ↔ (sig.getD (0 + j1) 0 &&& 0x80 = 0x80))
    (hs : (sig.getD (32 + k2) 0 &&& 0x80 = 0x80) ↔ (sig.getD (32 + j2) 0 &&& 0x80 = 0x80)) :
    der_signature k1 k2 sig = der_signature j1 j2 sig := by
  have h1 : (if sig.getD (0 + k1) 0 &&& 0x80 = 0x80 then (1 : Int) else 0)
      = (if sig.getD (0 + j1) 0 &&& 0x80 = 0x80 then (1 : Int) else 0) := by
    by_cases h : sig.getD (0 + k1) 0 &&& 0x80 = 0x80
    · rw [if_pos h, if_pos (hr.mp h)]
    · rw [if_neg h, if_neg (fun h2 => h (hr.mpr h2))]
  have h2 : (if sig.getD (32 + k2) 0 &&& 0x80 = 0x80 then (1 : Int) else 0)
      = (if sig.getD (32 + j2) 0 &&& 0x80 = 0x80 then (1 : Int) else 0) := by
    by_cases h : sig.getD (32 + k2) 0 &&& 0x80 = 0x80
    · rw [if_pos h, if_pos (hs.mp h)]
    · rw [if_neg h, if_neg (fun h2 => h (hs.mpr h2))]
  unfold der_signature ctap_calculate_signature_der
  simp only [h1, h2]

theorem getD_no_msb (sig : Bytes) (lo : Nat)
    (h : ∀ k, k < sig.length → lo ≤ k → ¬ (sig.getD k 0 &&& 0x80 = 0x80)) (k : Nat)
    (hk : lo ≤ k) : ¬ (sig.getD k 0 &&& 0x80 = 0x80) := by
  by_cases hlt : k < sig.length
  · exact h k hlt hk
  · rw [List.getD_eq_default _ _ (not_lt.mp hlt)]
    decide

/-- The failing input of C5 traced with the outer `lead_r`, `lead_s` read as 0: for
`r = 00 80 00 .. 00` no pad byte is written, the INTEGER content starts with `0x80`,
and the DER decodes to `r - 2^248`. -/
theorem der_signature_zero_then_msb :
    der_signature 0 0 test_sig_zero_then_msb
      = [0x30, 0x43, 0x02, 0x1f, 0x80] ++ List.replicate 30 0 ++ [0x02, 0x20, 0x01]
        ++ List.replicate 31 0
    ∧ der_decode_signature (der_signature 0 0 test_sig_zero_then_msb)
      = some ((be_value (test_sig_zero_then_msb.take 32) : Int) - 256 ^ 31,
          (be_value (test_sig_zero_then_msb.drop 32) : Int)) := by
  decide!

/-- C5 (code_bug), what the code does: the pad bits are taken on lines 359-360, before
the leading zeros are counted on lines 362-370, so they do not look at the first byte
that remains after stripping.  Whatever values the names `lead_r`, `lead_s` have on
lines 359-360, some 64-byte signature with non-zero `r` and `s` is encoded to bytes that
do not decode to `(r, s)`. -/
theorem C5_der_pad_ignores_stripped_leading_zeros (lead_r0 lead_s0 : Nat) :
    ∃ sigbuf : Bytes, sigbuf.length = 64
      ∧ (∀ b ∈ sigbuf, b < 256)
      ∧ be_value (sigbuf.take 32) ≠ 0 ∧ be_value (sigbuf.drop 32) ≠ 0
      ∧ der_decode_signature (der_signature lead_r0 lead_s0 sigbuf)
        ≠ some ((be_value (sigbuf.take 32) : Int), (be_value (sigbuf.drop 32) : Int)) := by
  have hsA : ∀ k, ¬ (test_sig_zero_then_msb.getD (32 + k) 0 &&& 0x80 = 0x80) :=
    fun k => getD_no_msb test_sig_zero_then_msb 32 (by decide) (32 + k) (by omega)
  have hB : ∀ k, 1 ≤ k → ¬ (test_sig_msb.getD k 0 &&& 0x80 = 0x80) :=
    fun k hk => getD_no_msb test_sig_msb 1 (by decide) k hk
  by_cases h0 : lead_r0 = 0
  · subst h0
    refine ⟨test_sig_zero_then_msb, by decide, by decide, by decide!, by decide!, ?_⟩
    rw [der_signature_congr 0 lead_s0 0 0 test_sig_zero_then_msb Iff.rfl
      (iff_of_false (hsA _) (hsA _))]
    decide!
  · refine ⟨test_sig_msb, by decide, by decide, by decide!, by decide!, ?_⟩
    rw [der_signature_congr lead_r0 lead_s0 1 0 test_sig_msb
      (iff_of_false (hB _ (by omega)) (hB _ (by omega)))
      (iff_of_false (hB _ (by omega)) (hB _ (by omega)))]
    decide!

/-! ## C6: the comparison function -/

set_option maxRecDepth 100000 in
/-- C6 (code_bug), what the code does at the failing input: for counts 0 and 2^31 the
`uint32_t` difference returned as `int` is negative in both directions, so
`cred_cmp_func(a, b) < 0` although `a.count < b.count`; the sort leaves the count-0
entry in front, and `ctap_filter_invalid_credentials` on the allow-list
`[forged, valid with count 2^31]` returns the invalidated entry before the valid one. -/
theorem C6_cred_cmp_func_wraps :
    (count_only_credential 0).credential.count < (count_only_credential 2147483648).credential.count
    ∧ cred_cmp_func (count_only_credential 0) (count_only_credential 2147483648) < 0
    ∧ cred_cmp_func (count_only_credential 2147483648) (count_only_credential 0) < 0
    ∧ qsort_creds [count_only_credential 0, count_only_credential 2147483648]
      = [count_only_credential 0, count_only_credential 2147483648]
    ∧ ctap_authenticate_credential test_env test_state test_rp test_forged_credential = 0
    ∧ ctap_authenticate_credential test_env test_state test_rp (test_credential 2147483648) = 1
    ∧ ((ctap_filter_invalid_credentials test_env test_state
        (test_getAssertion [test_forged_credential, test_credential 2147483648])).2.creds.map
          (fun c => c.credential.count)) = [0, 2147483648] := by
  decide!

/-! ## C7: eligibility of get-next-assertion -/

/-- C7: when the packet handled immediately before was neither GET_ASSERTION nor a
GET_NEXT_ASSERTION that returned success, a GET_NEXT_ASSERTION packet returns
CTAP2_ERR_NOT_ALLOWED with an empty response and pops no saved credential: the state
is left as it was apart from the last-command tag. -/
theorem C7_next_assertion_needs_get_assertion (env : Env) (s : State) (pkt1 pkt2 : Bytes)
    (r1 : Nat × CTAP_RESPONSE × State)
    (h1 : ctap_handle_packet env s pkt1 = some r1)
    (hprev : pkt1.headD 0 ≠ CTAP_GET_ASSERTION)
    (hnext : ¬ (pkt1.headD 0 = GET_NEXT_ASSERTION ∧ r1.1 = CTAP1_ERR_SUCCESS))
    (hcmd : pkt2.headD 0 = GET_NEXT_ASSERTION) :
    ∃ s2, ctap_handle_packet env r1.2.2 pkt2 =
        some (CTAP2_ERR_NOT_ALLOWED, { data := [], length := 0 }, s2)
      ∧ s2.getAssertionState.count = r1.2.2.getAssertionState.count
      ∧ s2.getAssertionState.creds = r1.2.2.getAssertionState.creds
      ∧ s2 = { r1.2.2 with getAssertionState :=
          { r1.2.2.getAssertionState with lastcmd := GET_NEXT_ASSERTION } } := by
  have hlast : r1.2.2.getAssertionState.lastcmd ≠ CTAP_GET_ASSERTION := by
    rcases handle_packet_lastcmd env s pkt1 r1 h1 with h | ⟨ha, hb, _⟩
    · rw [h]; exact hprev
    · exact absurd ⟨ha, hb⟩ hnext
  exact ⟨_, handle_packet_unwanted_next env r1.2.2 pkt2 hcmd hlast, rfl, rfl, rfl⟩

set_option maxRecDepth 100000 in
/-- C7, at a concrete input: GET_ASSERTION over three valid credentials, then GET_INFO,
then GET_NEXT_ASSERTION. -/
theorem C7_next_assertion_needs_get_assertion_witness :
    test_state_ga3.getAssertionState.count = 2
    ∧ ∃ s2, ctap_handle_packet test_env test_after_info.2.2 [GET_NEXT_ASSERTION] =
        some (CTAP2_ERR_NOT_ALLOWED, { data := [], length := 0 }, s2)
      ∧ s2.getAssertionState.count = test_after_info.2.2.getAssertionState.count
      ∧ s2.getAssertionState.creds = test_after_info.2.2.getAssertionState.creds
      ∧ s2 = { test_after_info.2.2 with getAssertionState :=
          { test_after_info.2.2.getAssertionState with lastcmd := GET_NEXT_ASSERTION } } :=
  ⟨by decide!,
    C7_next_assertion_needs_get_assertion test_env test_state_ga3 [CTAP_GET_INFO]
      [GET_NEXT_ASSERTION] test_after_info (by decide!) (by decide) (by decide) (by decide)⟩

/-! ## C8: authenticator data of get-next-assertion -/

/-- C8 (code_bug), what the code does: `ctap_end_get_assertion` passes the saved
header as `hashbuf`, so each get-next-assertion overwrites the saved rpIdHash with the
SHA-256 digest it signs.  With two or more credentials saved, the first
get-next-assertion still emits the rpIdHash and flags of the get-assertion, and the
second emits the flags with, as rpIdHash, the digest of the first one's header and the
client-data-hash. -/
theorem C8_second_next_assertion_emits_digest_as_rpIdHash (env : Env) (s : State)
    (hlast : s.getAssertionState.lastcmd = CTAP_GET_ASSERTION)
    (hcount : 2 ≤ s.getAssertionState.count) :
    ∃ (r1 r2 : Nat × CTAP_RESPONSE × State) (hdr1 hdr2 : CTAP_authDataHeader),
      ctap_handle_packet env s [GET_NEXT_ASSERTION] = some r1
      ∧ ctap_handle_packet env r1.2.2 [GET_NEXT_ASSERTION] = some r2
      ∧ r1.1 = CTAP1_ERR_SUCCESS ∧ r2.1 = CTAP1_ERR_SUCCESS
      ∧ response_auth_data r1.2.1.data = some (authDataHeader_bytes hdr1)
      ∧ response_auth_data r2.2.1.data = some (authDataHeader_bytes hdr2)
      ∧ hdr1.rpIdHash = s.getAssertionState.authData.rpIdHash
      ∧ hdr1.flags = s.getAssertionState.authData.flags
      ∧ hdr2.flags = s.getAssertionState.authData.flags
      ∧ hdr2.rpIdHash = (env.sha256 (authDataHeader_bytes hdr1
          ++ s.getAssertionState.clientDataHash.take CLIENT_DATA_HASH_SIZE)).take 32 := by
  obtain ⟨r1, h1, hst1, _, hl1, hc1, _, _, had1, hresp1, _⟩ :=
    handle_packet_next env s hlast (by omega)
  obtain ⟨r2, h2, hst2, _, _, _, _, _, _, hresp2, _⟩ :=
    handle_packet_next env r1.2.2 hl1 (by omega)
  have hu1 := update_count_header env s.world s.getAssertionState.authData
  have hu2 := update_count_header env r1.2.2.world r1.2.2.getAssertionState.authData
  refine ⟨r1, r2, _, _, h1, h2, hst1, hst2, hresp1, hresp2, hu1.1, hu1.2, ?_, ?_⟩
  · rw [hu2.2, had1]
    exact hu1.2
  · rw [hu2.1, had1]

set_option maxRecDepth 100000 in
/-- C8, at a concrete input: on the test device a get-assertion over three valid
credentials and two get-next-assertions; the first two responses carry the rpIdHash
`SHA-256("ex")`, the third carries other bytes. -/
theorem C8_second_next_assertion_emits_digest_as_rpIdHash_witness :
    (ctap_run test_env test_state [[2, 2]]).map (fun r => (r.1.map (fun x => x.1), r.2))
      = some ([CTAP1_ERR_SUCCESS], test_state_ga3)
    ∧ (ctap_run test_env test_state [[2, 2], [8], [8]]).map
        (fun r => r.1.map (fun x => (response_auth_data x.2.data).map (fun b => b.take 32)))
      = some [some (test_sha256 test_rp.id), some (test_sha256 test_rp.id),
          some [28, 195, 106, 17, 184, 95, 6, 173, 84, 251, 162, 73, 240, 151, 62, 229, 140, 51,
            218, 129, 40, 207, 118, 29, 196, 107, 18, 185, 96, 7, 174, 85]]
    ∧ ∃ (r1 r2 : Nat × CTAP_RESPONSE × State) (hdr1 hdr2 : CTAP_authDataHeader),
      ctap_handle_packet test_env test_state_ga3 [GET_NEXT_ASSERTION] = some r1
      ∧ ctap_handle_packet test_env r1.2.2 [GET_NEXT_ASSERTION] = some r2
      ∧ r1.1 = CTAP1_ERR_SUCCESS ∧ r2.1 = CTAP1_ERR_SUCCESS
      ∧ response_auth_data r1.2.1.data = some (authDataHeader_bytes hdr1)
      ∧ response_auth_data r2.2.1.data = some (authDataHeader_bytes hdr2)
      ∧ hdr1.rpIdHash = test_state_ga3.getAssertionState.authData.rpIdHash
      ∧ hdr1.flags = test_state_ga3.getAssertionState.authData.flags
      ∧ hdr2.flags = test_state_ga3.getAssertionState.authData.flags
      ∧ hdr2.rpIdHash = (test_env.sha256 (authDataHeader_bytes hdr1
          ++ test_state_ga3.getAssertionState.clientDataHash.take CLIENT_DATA_HASH_SIZE)).take 32 :=
  ⟨by decide!, by decide!,
    C8_second_next_assertion_emits_digest_as_rpIdHash test_env test_state_ga3 (by decide!)
      (by decide!)⟩

/-! ## C9: PIN policy of make-credential and get-assertion -/

/-- C9: in `ctap_make_credential` (request parsed, required parameters present) and in
`ctap_get_assertion` (request parsed): with a PIN set and pinAuth absent the result is
CTAP2_ERR_PIN_REQUIRED; with a PIN set and pinAuth present the handler goes on to the
rest of its body exactly when the first 16 bytes of HMAC-SHA256(PIN_TOKEN,
clientDataHash) equal pinAuth, and otherwise returns CTAP2_ERR_PIN_AUTH_INVALID; with no
PIN set it goes on whatever pinAuth holds, and the rest of the body does not read
pinAuth. -/
theorem C9_pin_policy (env : Env) (s : State) (req_mc req_ga : Bytes)
    (MC : CTAP_makeCredential) (GA : CTAP_getAssertion)
    (hmc : env.parse_make_credential req_mc = (0, MC))
    (hreq : MC.paramsParsed &&& env.MC_requiredMask = env.MC_requiredMask)
    (hga : env.parse_get_assertion req_ga = (0, GA)) :
    (s.PIN_CODE_SET = 1 → MC.pinAuthPresent = 0 →
        ctap_make_credential env s req_mc = (CTAP2_ERR_PIN_REQUIRED, [], s))
    ∧ (s.PIN_CODE_SET = 1 → MC.pinAuthPresent ≠ 0 →
        MC.pinAuth.take 16 = pin_auth_mac env s MC.clientDataHash →
        ctap_make_credential env s req_mc = ctap_make_credential_body env s MC)
    ∧ (s.PIN_CODE_SET = 1 → MC.pinAuthPresent ≠ 0 →
        MC.pinAuth.take 16 ≠ pin_auth_mac env s MC.clientDataHash →
        ctap_make_credential env s req_mc = (CTAP2_ERR_PIN_AUTH_INVALID, [], s))
    ∧ (s.PIN_CODE_SET ≠ 1 →
        ctap_make_credential env s req_mc = ctap_make_credential_body env s MC)
    ∧ (s.PIN_CODE_SET = 1 → GA.pinAuthPresent = 0 →
        ctap_get_assertion env s req_ga = (CTAP2_ERR_PIN_REQUIRED, [], s))
    ∧ (s.PIN_CODE_SET = 1 → GA.pinAuthPresent ≠ 0 →
        GA.pinAuth.take 16 = pin_auth_mac env s GA.clientDataHash →
        ctap_get_assertion env s req_ga = ctap_get_assertion_body env s GA)
    ∧ (s.PIN_CODE_SET = 1 → GA.pinAuthPresent ≠ 0 →
        GA.pinAuth.take 16 ≠ pin_auth_mac env s GA.clientDataHash →
        ctap_get_assertion env s req_ga = (CTAP2_ERR_PIN_AUTH_INVALID, [], s))
    ∧ (s.PIN_CODE_SET ≠ 1 →
        ctap_get_assertion env s req_ga = ctap_get_assertion_body env s GA)
    ∧ (∀ (pinAuth : Bytes) (present : Nat),
        ctap_make_credential_body env s { MC with pinAuth := pinAuth, pinAuthPresent := present }
          = ctap_make_credential_body env s MC
        ∧ ctap_get_assertion_body env s { GA with pinAuth := pinAuth, pinAuthPresent := present }
          = ctap_get_assertion_body env s GA) := by
  refine ⟨?_, ?_, ?_, ?_, ?_, ?_, ?_, ?_, ?_⟩
  · intro hset habs
    simp [ctap_make_credential, hmc, hreq, is_pin_set_eq_one s hset, habs]
  · intro hset hpres hmac
    exact make_credential_pin_ok env s req_mc MC hmc hreq (fun _ => ⟨hpres, hmac⟩)
  · intro hset hpres hmac
    simp [ctap_make_credential, hmc, hreq, is_pin_set_eq_one s hset, hpres,
      verify_pin_auth_bad env s _ _ hmac, CTAP2_ERR_PIN_AUTH_INVALID, u8]
  · intro hset
    exact make_credential_pin_ok env s req_mc MC hmc hreq (fun h => absurd h hset)
  · intro hset habs
    simp [ctap_get_assertion, hga, hset, habs]
  · intro hset hpres hmac
    exact get_assertion_pin_ok env s req_ga GA hga (fun _ => ⟨hpres, hmac⟩)
  · intro hset hpres hmac
    simp [ctap_get_assertion, hga, hset, is_pin_set_eq_one s hset, hpres,
      verify_pin_auth_bad env s _ _ hmac, CTAP2_ERR_PIN_AUTH_INVALID, u8]
  · intro hset
    exact get_assertion_pin_ok env s req_ga GA hga (fun h => absurd h hset)
  · intro pinAuth present
    exact ⟨rfl, rfl⟩

set_option maxRecDepth 100000 in
/-- C9, at a concrete input: the test device with a PIN set and requests without
pinAuth. -/
theorem C9_pin_policy_witness :
    test_state_pin.PIN_CODE_SET = 1
    ∧ ctap_make_credential test_env test_state_pin [1] = (CTAP2_ERR_PIN_REQUIRED, [], test_state_pin)
    ∧ ctap_get_assertion test_env test_state_pin [1] = (CTAP2_ERR_PIN_REQUIRED, [], test_state_pin) :=
  ⟨by decide!,
    (C9_pin_policy test_env test_state_pin [1] [1] (test_makeCredential [])
      (test_getAssertion [test_credential 7, test_credential 42]) (by decide) (by decide)
      (by decide)).1 (by decide!) (by decide),
    (C9_pin_policy test_env test_state_pin [1] [1] (test_makeCredential [])
      (test_getAssertion [test_credential 7, test_credential 42]) (by decide) (by decide)
      (by decide)).2.2.2.2.1 (by decide!) (by decide)⟩

/-! ## C10: exclude list -/

theorem make_auth_data_items (env : Env) (s : State) (rp : rpId) (user : Option CTAP_userEntity)
    (ct : Nat) (alg : Int) :
    (ctap_make_auth_data env s rp user ct alg).2.1 =
      [CborItem.int RESP_authData,
        CborItem.bytes (authData_bytes env (ctap_make_auth_data env s rp user ct alg).1)] := rfl

theorem get_assertion_body_invalid (env : Env) (s : State) (GA : CTAP_getAssertion)
    (hv : valid_credentials env s GA.rp GA.creds = []) :
    ctap_get_assertion_body env s GA =
      (CTAP2_ERR_CREDENTIAL_NOT_VALID,
        [CborItem.map 5] ++ (ctap_make_auth_data env s GA.rp none 0 0).2.1,
        { s with world := (ctap_make_auth_data env s GA.rp none 0 0).2.2 }) := by
  have hf := filter_invalid_congr env s
    { s with world := (ctap_make_auth_data env s GA.rp none 0 0).2.2 } GA
    (make_auth_data_secret env s GA.rp none 0 0)
  have hcount : (ctap_filter_invalid_credentials env s GA).1
      = ((valid_credentials env s GA.rp GA.creds).length : Int) := rfl
  unfold ctap_get_assertion_body
  simp only [hf, hcount, hv, List.length_nil]
  rw [if_neg (by decide)]

/-- A get-assertion whose allow-list holds a valid entry succeeds and encodes the
number of valid entries as numberOfCredentials. -/
theorem get_assertion_body_number (env : Env) (s : State) (GA : CTAP_getAssertion)
    (hv : 0 < (valid_credentials env s GA.rp GA.creds).length) :
    (ctap_get_assertion_body env s GA).1 = 0
    ∧ response_number_of_credentials (ctap_get_assertion_body env s GA).2.1
      = some (((valid_credentials env s GA.rp GA.creds).length : Nat) : Int) := by
  have hval := get_assertion_body_valid env s GA hv
  refine ⟨by rw [hval], ?_⟩
  rw [hval, make_auth_data_items]
  simp [response_number_of_credentials]

/-! ## C11: numberOfCredentials -/

/-- A get-next-assertion on an exhausted credential list. -/
theorem handle_packet_next_empty (env : Env) (s : State)
    (hlast : s.getAssertionState.lastcmd = CTAP_GET_ASSERTION)
    (hc : s.getAssertionState.count = 0) :
    ctap_handle_packet env s [GET_NEXT_ASSERTION] =
      some (CTAP2_ERR_NOT_ALLOWED, { data := [], length := 0 },
        { s with getAssertionState :=
          { s.getAssertionState with lastcmd := GET_NEXT_ASSERTION } }) := by
  have hgna : ctap_get_next_assertion env s = (CTAP2_ERR_NOT_ALLOWED, [], s) := by
    unfold ctap_get_next_assertion pop_credential
    simp only [gt_iff_lt, hc, lt_self_iff_false, if_false]
  have hdisp : ctap_handle_packet_dispatch env s GET_NEXT_ASSERTION [] =
      some ((ctap_get_next_assertion env s).1, (ctap_get_next_assertion env s).2.1,
        (if (ctap_get_next_assertion env s).1 = 0 then CTAP_GET_ASSERTION else GET_NEXT_ASSERTION),
        (ctap_get_next_assertion env s).2.2) := by
    unfold ctap_handle_packet_dispatch
    simp only
    rw [if_neg (by decide), if_neg (by decide), if_neg (by decide), if_neg (by decide),
      if_neg (by decide), if_neg (by decide), if_pos trivial, if_pos hlast]
  unfold ctap_handle_packet
  simp only [List.headD_cons, List.tail_cons]
  rw [if_neg (by
    intro h
    rcases h.1 with h1 | h1 | h1 <;> exact absurd h1 (by decide)), hdisp, hgna]
  rfl

/-- The state a run of accepted get-next-assertions ends in. -/
theorem run_next_assertions_end (env : Env) (n : Nat) :
    ∀ s : State, s.getAssertionState.lastcmd = CTAP_GET_ASSERTION →
      s.getAssertionState.count = n →
      ∀ r, ctap_run env s (List.replicate n [GET_NEXT_ASSERTION]) = some r →
        r.2.getAssertionState.lastcmd = CTAP_GET_ASSERTION
        ∧ r.2.getAssertionState.count = 0 := by
  induction n with
  | zero =>
    intro s hlast hcount r hr
    simp only [List.replicate_zero, ctap_run, Option.some.injEq] at hr
    subst hr
    exact ⟨hlast, hcount⟩
  | succ n ih =>
    intro s hlast hcount r hr
    obtain ⟨a, ha, _, _, hl, hc, _⟩ := handle_packet_next env s hlast (by omega)
    simp only [List.replicate_succ, ctap_run, ha] at hr
    cases ht : ctap_run env a.2.2 (List.replicate n [GET_NEXT_ASSERTION]) with
    | none => rw [ht] at hr; exact absurd hr (by simp)
    | some t =>
      rw [ht] at hr
      simp only [Option.some.injEq] at hr
      subst hr
      exact ih a.2.2 hl (by omega) t ht

/-- The numberOfCredentials value in the response to a successful get-assertion
packet. -/
theorem handle_packet_get_assertion_number (env : Env) (s : State) (req : Bytes)
    (GA : CTAP_getAssertion) (hunlocked : s.DEVICE_LOCKOUT ≠ 1)
    (hga : env.parse_get_assertion req = (0, GA))
    (hpin : s.PIN_CODE_SET = 1 → GA.pinAuthPresent ≠ 0 ∧
      GA.pinAuth.take 16 = pin_auth_mac env s GA.clientDataHash)
    (hv : 0 < (valid_credentials env s GA.rp GA.creds).length) :
    (ctap_handle_packet env s (CTAP_GET_ASSERTION :: req)).bind
        (fun r => response_number_of_credentials r.2.1.data)
      = some (((valid_credentials env s GA.rp GA.creds).length : Nat) : Int) := by
  have hdisp : ctap_handle_packet_dispatch env s CTAP_GET_ASSERTION req =
      some ((ctap_get_assertion env s req).1, (ctap_get_assertion env s req).2.1,
        CTAP_GET_ASSERTION, (ctap_get_assertion env s req).2.2) := by
    unfold ctap_handle_packet_dispatch
    simp only
    rw [if_neg (by decide), if_pos trivial]
  unfold ctap_handle_packet
  simp only [List.headD_cons, List.tail_cons]
  rw [if_neg (by
    intro h
    exact h.2 (by simp [ctap_device_locked, hunlocked])), hdisp,
    get_assertion_pin_ok env s req GA hga hpin]
  simp only [Option.map_some', Option.some_bind]
  exact (get_assertion_body_number env s GA hv).2

/-! ## C12: the continuation list is used up -/

/-- C12: let a get-assertion request parse and pass the PIN check on an unlocked device,
and let the n valid credentials of its allow-list have pairwise distinct non-zero counts
below 2^31 (n at least 1).  Then the get-assertion packet succeeds and reports
numberOfCredentials = n, the n-1 get-next-assertion packets that follow all succeed, the
credential ids of the n responses are those of a rearrangement of the valid allow-list
credentials (each one exactly once), and one more get-next-assertion returns
CTAP2_ERR_NOT_ALLOWED with an empty response. -/
theorem C12_continuation_is_used_up (env : Env) (s : State) (req : Bytes)
    (GA : CTAP_getAssertion) (hunlocked : s.DEVICE_LOCKOUT ≠ 1)
    (hga : env.parse_get_assertion req = (0, GA))
    (hpin : s.PIN_CODE_SET = 1 → GA.pinAuthPresent ≠ 0 ∧
      GA.pinAuth.take 16 = pin_auth_mac env s GA.clientDataHash)
    (hne : valid_credentials env s GA.rp GA.creds ≠ [])
    (hpos : ∀ c ∈ GA.creds, ctap_authenticate_credential env s GA.rp c ≠ 0 →
      0 < c.credential.count ∧ c.credential.count < 2147483648)
    (hnodup : ((valid_credentials env s GA.rp GA.creds).map (fun c => c.credential.count)).Nodup) :
    ∃ (order : List CTAP_credentialDescriptor) (r : List (Nat × CTAP_RESPONSE) × State),
      order.Perm (valid_credentials env s GA.rp GA.creds)
      ∧ ctap_run env s ((CTAP_GET_ASSERTION :: req)
          :: List.replicate ((valid_credentials env s GA.rp GA.creds).length - 1)
            [GET_NEXT_ASSERTION]) = some r
      ∧ r.1.map (fun x => x.1)
        = List.replicate (valid_credentials env s GA.rp GA.creds).length CTAP1_ERR_SUCCESS
      ∧ r.1.head?.bind (fun x => response_number_of_credentials x.2.data)
        = some (((valid_credentials env s GA.rp GA.creds).length : Nat) : Int)
      ∧ r.1.map (fun x => response_credential_id x.2.data)
        = order.map (fun c => some (env.credential_id c.credential))
      ∧ (ctap_handle_packet env r.2 [GET_NEXT_ASSERTION]).map (fun x => (x.1, x.2.1))
        = some (CTAP2_ERR_NOT_ALLOWED, { data := [], length := 0 }) := by
  have hv : 0 < (valid_credentials env s GA.rp GA.creds).length :=
    List.length_pos.mpr hne
  have hvlen : (valid_credentials env s GA.rp GA.creds).length ≤ GA.creds.length :=
    List.length_filter_le _ _
  have hS : (qsort_creds (invalidate_credentials env s GA.rp GA.creds)).length
      = GA.creds.length := by
    rw [qsort_creds_length, invalidate_length]
  obtain ⟨hperm, _⟩ := sorted_valid_prefix env s GA.rp GA.creds hpos hnodup
  have hnum := handle_packet_get_assertion_number env s req GA hunlocked hga hpin hv
  obtain ⟨a, ha, hst, hlast, hcount, hcreds, hlen, hid⟩ :=
    handle_packet_get_assertion env s req GA hunlocked hga hpin hv
  obtain ⟨t, ht, hts, htid⟩ := run_next_assertions env _ a.2.2 hlast hcount hlen
  obtain ⟨hendl, hendc⟩ := run_next_assertions_end env _ a.2.2 hlast hcount t ht
  rw [ha, Option.some_bind] at hnum
  generalize hvdef : (valid_credentials env s GA.rp GA.creds).length = v at *
  generalize hSdef : qsort_creds (invalidate_credentials env s GA.rp GA.creds) = S at *
  have hasc : (S.take v).reverse = S.getD (v - 1) zero_credential :: (S.take (v - 1)).reverse := by
    have := take_reverse_succ S (v - 1) (by omega)
    rwa [Nat.sub_add_cancel hv] at this
  refine ⟨(S.take v).reverse, ((a.1, a.2.1) :: t.1, t.2), ?_, ?_, ?_, ?_, ?_, ?_⟩
  · exact (List.reverse_perm _).trans hperm
  · simp only [ctap_run, ha, ht]
  · simp only [List.map_cons, hst, hts]
    have : v = (v - 1) + 1 := by omega
    conv_rhs => rw [this, List.replicate_succ]
    rfl
  · simpa using hnum
  · simp only [List.map_cons, hid, htid, hcreds, hasc]
  · rw [handle_packet_next_empty env t.2 hendl hendc]
    rfl

set_option maxRecDepth 100000 in
/-- C12, at a concrete input: the test allow-list with counts 7 and 42. -/
theorem C12_continuation_is_used_up_witness :
    test_state.DEVICE_LOCKOUT ≠ 1
    ∧ valid_credentials test_env test_state test_rp [test_credential 7, test_credential 42]
      = [test_credential 7, test_credential 42]
    ∧ ∃ (order : List CTAP_credentialDescriptor) (r : List (Nat × CTAP_RESPONSE) × State),
      order.Perm (valid_credentials test_env test_state
        (test_getAssertion [test_credential 7, test_credential 42]).rp
        (test_getAssertion [test_credential 7, test_credential 42]).creds)
      ∧ ctap_run test_env test_state ((CTAP_GET_ASSERTION :: [1])
          :: List.replicate ((valid_credentials test_env test_state
              (test_getAssertion [test_credential 7, test_credential 42]).rp
              (test_getAssertion [test_credential 7, test_credential 42]).creds).length - 1)
            [GET_NEXT_ASSERTION]) = some r
      ∧ r.1.map (fun x => x.1)
        = List.replicate (valid_credentials test_env test_state
              (test_getAssertion [test_credential 7, test_credential 42]).rp
              (test_getAssertion [test_credential 7, test_credential 42]).creds).length
            CTAP1_ERR_SUCCESS
      ∧ r.1.head?.bind (fun x => response_number_of_credentials x.2.data)
        = some (((valid_credentials test_env test_state
              (test_getAssertion [test_credential 7, test_credential 42]).rp
              (test_getAssertion [test_credential 7, test_credential 42]).creds).length : Nat)
            : Int)
      ∧ r.1.map (fun x => response_credential_id x.2.data)
        = order.map (fun c => some (test_env.credential_id c.credential))
      ∧ (ctap_handle_packet test_env r.2 [GET_NEXT_ASSERTION]).map (fun x => (x.1, x.2.1))
        = some (CTAP2_ERR_NOT_ALLOWED, { data := [], length := 0 }) :=
  ⟨by decide!, by decide!,
    C12_continuation_is_used_up test_env test_state [1]
      (test_getAssertion [test_credential 7, test_credential 42]) (by decide!) (by decide)
      (fun h => absurd h (by decide!)) (by decide!) (by decide!) (by decide!)⟩

/-- What `ctap_decrement_pin_attempts` after a new key pair leaves behind. -/
theorem decrement_outcome (env : Env) (s : State) :
    pin_mismatch_outcome env s (ctap_decrement_pin_attempts (make_key_agreement_pair env s)).2 := by
  unfold pin_mismatch_outcome ctap_decrement_pin_attempts make_key_agreement_pair
  by_cases h : 0 < s._flash_tries
  · simp [h]
  · simp [h]

theorem add_pin_if_verified_mismatch (env : Env) (s : State) (platform_pubkey pinHashEnc : Bytes)
    (hmis : (env.aes256_decrypt (pin_shared_secret env s platform_pubkey)
      (pinHashEnc.take 16)).take 16 ≠ s.PIN_CODE_HASH.take 16) :
    ctap_add_pin_if_verified env s platform_pubkey pinHashEnc =
      (CTAP2_ERR_PIN_INVALID, [],
        (ctap_decrement_pin_attempts (make_key_agreement_pair env s)).2) := by
  unfold ctap_add_pin_if_verified
  simp only
  rw [if_pos (by rw [memcmp_eq_iff]; exact hmis)]

/-- The checks `ctap_update_pin_if_verified` makes before it looks at the PIN state:
with a block of at least 64 bytes, a matching pinAuth and a decrypted block whose
string length is below the bound and at least 4, the function goes on to the PIN
comparison (PIN set) or to `ctap_update_pin` (no PIN set). -/
theorem update_pin_if_verified_checked (env : Env) (s : State) (pinEnc : Bytes) (len : Nat)
    (platform_pubkey pinAuth : Bytes) (pinHashEnc : Option Bytes)
    (hlen : 64 ≤ len)
    (hmac : (env.sha256_hmac ((pin_shared_secret env s platform_pubkey).take 32)
      (pinEnc.take len ++ (match pinHashEnc with
        | some h => h.take 16
        | none => []))).take 16 = pinAuth.take 16)
    (hnul : strnlen (env.aes256_decrypt (pin_shared_secret env s platform_pubkey)
        (pinEnc.take (round_up_16 len)) ++ pinEnc.drop (round_up_16 len))
      env.NEW_PIN_ENC_MAX_SIZE ≠ env.NEW_PIN_ENC_MAX_SIZE)
    (hmin : 4 ≤ strnlen (env.aes256_decrypt (pin_shared_secret env s platform_pubkey)
        (pinEnc.take (round_up_16 len)) ++ pinEnc.drop (round_up_16 len))
      env.NEW_PIN_ENC_MAX_SIZE) :
    ctap_update_pin_if_verified env s pinEnc len platform_pubkey pinAuth pinHashEnc =
      (if ctap_is_pin_set s ≠ 0 then
        if ¬ memcmp_eq (env.aes256_decrypt (pin_shared_secret env s platform_pubkey)
            ((pinHashEnc.getD []).take 16)) s.PIN_CODE_HASH 16 then
          some (CTAP2_ERR_PIN_INVALID,
            (ctap_decrement_pin_attempts (make_key_agreement_pair env s)).2)
        else
          (ctap_update_pin env (ctap_reset_pin_attempts s)
            (env.aes256_decrypt (pin_shared_secret env s platform_pubkey)
              (pinEnc.take (round_up_16 len)) ++ pinEnc.drop (round_up_16 len))
            (strnlen (env.aes256_decrypt (pin_shared_secret env s platform_pubkey)
              (pinEnc.take (round_up_16 len)) ++ pinEnc.drop (round_up_16 len))
              env.NEW_PIN_ENC_MAX_SIZE)).map (fun s1 => (0, s1))
      else
        (ctap_update_pin env s
          (env.aes256_decrypt (pin_shared_secret env s platform_pubkey)
            (pinEnc.take (round_up_16 len)) ++ pinEnc.drop (round_up_16 len))
          (strnlen (env.aes256_decrypt (pin_shared_secret env s platform_pubkey)
            (pinEnc.take (round_up_16 len)) ++ pinEnc.drop (round_up_16 len))
            env.NEW_PIN_ENC_MAX_SIZE)).map (fun s1 => (0, s1))) := by
  unfold ctap_update_pin_if_verified
  simp only
  rw [if_neg (by omega), if_neg (by
    intro h
    apply h
    rw [memcmp_eq_iff]
    exact hmac), if_neg hnul, if_neg (by omega)]

/-! ## C13: what a PIN mismatch does -/

/-- C13 (code_bug), what the code does: when the decrypted pinHashEnc differs from the
first 16 bytes of `PIN_CODE_HASH`, getPinToken (`ctap_add_pin_if_verified`) and changePin
(`ctap_update_pin_if_verified` with a PIN set, a valid pinAuth and an acceptable new
PIN) return CTAP2_ERR_PIN_INVALID, make a new key-agreement pair and leave `PIN_CODE`,
`PIN_CODE_HASH` and `PIN_CODE_SET` alone; the retry count goes down by one only while it
is positive.  With no retry left - the state eight mismatches lead to, in which the
device is not yet locked - the count stays where it is and `DEVICE_LOCKOUT` is set
instead. -/
theorem C13_mismatch_uses_a_retry_while_one_is_left (env : Env) (s : State)
    (platform_pubkey pinHashEnc : Bytes)
    (hmis : (env.aes256_decrypt (pin_shared_secret env s platform_pubkey)
      (pinHashEnc.take 16)).take 16 ≠ s.PIN_CODE_HASH.take 16) :
    (∃ s1, ctap_add_pin_if_verified env s platform_pubkey pinHashEnc
        = (CTAP2_ERR_PIN_INVALID, [], s1) ∧ pin_mismatch_outcome env s s1)
    ∧ (∀ (pinEnc pinAuth : Bytes) (len : Nat), s.PIN_CODE_SET = 1 → 64 ≤ len →
        (env.sha256_hmac ((pin_shared_secret env s platform_pubkey).take 32)
          (pinEnc.take len ++ pinHashEnc.take 16)).take 16 = pinAuth.take 16 →
        strnlen (env.aes256_decrypt (pin_shared_secret env s platform_pubkey)
            (pinEnc.take (round_up_16 len)) ++ pinEnc.drop (round_up_16 len))
          env.NEW_PIN_ENC_MAX_SIZE ≠ env.NEW_PIN_ENC_MAX_SIZE →
        4 ≤ strnlen (env.aes256_decrypt (pin_shared_secret env s platform_pubkey)
            (pinEnc.take (round_up_16 len)) ++ pinEnc.drop (round_up_16 len))
          env.NEW_PIN_ENC_MAX_SIZE →
        ∃ s1, ctap_update_pin_if_verified env s pinEnc len platform_pubkey pinAuth
            (some pinHashEnc) = some (CTAP2_ERR_PIN_INVALID, s1)
          ∧ pin_mismatch_outcome env s s1) := by
  refine ⟨⟨_, add_pin_if_verified_mismatch env s platform_pubkey pinHashEnc hmis,
    decrement_outcome env s⟩, ?_⟩
  intro pinEnc pinAuth len hset hlen hmac hnul hmin
  refine ⟨_, ?_, decrement_outcome env s⟩
  rw [update_pin_if_verified_checked env s pinEnc len platform_pubkey pinAuth (some pinHashEnc)
    hlen hmac hnul hmin, if_pos (by rw [is_pin_set_eq_one s hset]; decide),
    if_pos (by rw [memcmp_eq_iff]; exact hmis)]

set_option maxRecDepth 100000 in
/-- C13, at the failing input: the test device after `ctap_init`, setPin and eight wrong
getPinToken packets has 0 retries and is not locked; a ninth mismatch, in getPinToken
and in changePin alike, is answered PIN_INVALID and leaves the retry count at 0. -/
theorem C13_mismatch_uses_a_retry_while_one_is_left_witness :
    (ctap_run test_env test_state ([6, 1] :: List.replicate 8 [6, 2])).map (fun r => r.2)
      = some test_state_pin8
    ∧ test_state_pin8._flash_tries = 0 ∧ test_state_pin8.DEVICE_LOCKOUT = 0
    ∧ test_state_pin8.PIN_CODE_SET = 1
    ∧ (ctap_add_pin_if_verified test_env test_state_pin8 test_platform_pubkey
        (List.replicate 16 0xEE)).2.2._flash_tries = 0
    ∧ (∃ s1, ctap_add_pin_if_verified test_env test_state_pin8 test_platform_pubkey
          (List.replicate 16 0xEE) = (CTAP2_ERR_PIN_INVALID, [], s1)
        ∧ pin_mismatch_outcome test_env test_state_pin8 s1)
    ∧ (∃ s1, ctap_update_pin_if_verified test_env test_state_pin8
          (test_pinEnc test_state_pin8 [53, 54, 55, 56]) 64 test_platform_pubkey
          (test_changePin_auth test_state_pin8 (test_pinEnc test_state_pin8 [53, 54, 55, 56])
            (List.replicate 16 0xEE))
          (some (List.replicate 16 0xEE)) = some (CTAP2_ERR_PIN_INVALID, s1)
        ∧ pin_mismatch_outcome test_env test_state_pin8 s1) :=
  ⟨by decide!, by decide!, by decide!, by decide!, by decide!,
    (C13_mismatch_uses_a_retry_while_one_is_left test_env test_state_pin8 test_platform_pubkey
      (List.replicate 16 0xEE) (by decide!)).1,
    (C13_mismatch_uses_a_retry_while_one_is_left test_env test_state_pin8 test_platform_pubkey
      (List.replicate 16 0xEE) (by decide!)).2
      (test_pinEnc test_state_pin8 [53, 54, 55, 56])
      (test_changePin_auth test_state_pin8 (test_pinEnc test_state_pin8 [53, 54, 55, 56])
        (List.replicate 16 0xEE))
      64 (by decide!) (by decide) (by decide!) (by decide!) (by decide!)⟩

/-- The subcommand `ctap_client_pin` runs for a parsed request with pinProtocol 1. -/
theorem client_pin_subcommand (env : Env) (s : State) (req : Bytes) (CP : CTAP_clientPin)
    (hparse : env.parse_client_pin req = (0, CP)) (hproto : CP.pinProtocol = 1) :
    (CP.subCommand = CP_cmdSetPin → ctap_client_pin env s req =
        ctap_client_pin_setPin env s CP (if CP.getRetries ≠ 0 then 1 else 0))
    ∧ (CP.subCommand = CP_cmdChangePin → ctap_client_pin env s req =
        ctap_client_pin_changePin env s CP (if CP.getRetries ≠ 0 then 1 else 0))
    ∧ (CP.subCommand = CP_cmdGetPinToken → ctap_client_pin env s req =
        some (ctap_client_pin_getPinToken env s CP (if CP.getRetries ≠ 0 then 1 else 0))) := by
  refine ⟨fun hsub => ?_, fun hsub => ?_, fun hsub => ?_⟩
  all_goals
    unfold ctap_client_pin
    simp only [hparse]
    rw [if_neg (by decide), if_neg (by rw [hproto, hsub]; decide)]
    simp only [hsub]
  · rw [if_neg (by decide), if_neg (by decide), if_pos trivial]
  · rw [if_neg (by decide), if_neg (by decide), if_neg (by decide), if_pos trivial]
  · rw [if_neg (by decide), if_neg (by decide), if_neg (by decide), if_neg (by decide),
      if_pos trivial]

/-! ## C14: subcommands refused on the PIN state -/

/-- C14: for a client-PIN request that parses with pinProtocol 1, setPin on a device
with a PIN set returns CTAP2_ERR_NOT_ALLOWED, and changePin and getPinToken on a device
without a PIN return CTAP2_ERR_PIN_NOT_SET; both codes differ from success, nothing is
written to the response and the state - `PIN_CODE`, `PIN_CODE_HASH`, `PIN_CODE_SET` and
the retry count with it - is the one before the call. -/
theorem C14_subcommand_refused_on_pin_state (env : Env) (s : State) (req : Bytes)
    (CP : CTAP_clientPin) (hparse : env.parse_client_pin req = (0, CP))
    (hproto : CP.pinProtocol = 1) :
    (CP.subCommand = CP_cmdSetPin → s.PIN_CODE_SET = 1 →
        ctap_client_pin env s req = some (CTAP2_ERR_NOT_ALLOWED, [], s))
    ∧ (CP.subCommand = CP_cmdChangePin ∨ CP.subCommand = CP_cmdGetPinToken →
        s.PIN_CODE_SET ≠ 1 →
        ctap_client_pin env s req = some (CTAP2_ERR_PIN_NOT_SET, [], s))
    ∧ CTAP2_ERR_NOT_ALLOWED ≠ CTAP1_ERR_SUCCESS ∧ CTAP2_ERR_PIN_NOT_SET ≠ CTAP1_ERR_SUCCESS := by
  obtain ⟨h1, h2, h3⟩ := client_pin_subcommand env s req CP hparse hproto
  refine ⟨fun hsub hset => ?_, fun hsub hset => ?_, by decide, by decide⟩
  · rw [h1 hsub]
    unfold ctap_client_pin_setPin
    rw [if_pos (by rw [is_pin_set_eq_one s hset]; decide)]
  · rcases hsub with hsub | hsub
    · rw [h2 hsub]
      unfold ctap_client_pin_changePin
      rw [if_pos (is_pin_set_eq_zero s hset)]
    · rw [h3 hsub]
      unfold ctap_client_pin_getPinToken
      rw [if_pos (is_pin_set_eq_zero s hset)]

set_option maxRecDepth 100000 in
/-- C14, at concrete inputs: setPin on the test device with PIN `"1234"` set, and
getPinToken and changePin on the test device without a PIN. -/
theorem C14_subcommand_refused_on_pin_state_witness :
    ctap_client_pin test_env test_state_pin [1] = some (CTAP2_ERR_NOT_ALLOWED, [], test_state_pin)
    ∧ ctap_client_pin test_env test_state [2] = some (CTAP2_ERR_PIN_NOT_SET, [], test_state)
    ∧ ctap_client_pin (test_env_cp (test_changePin test_state (List.replicate 16 0xEE)))
        test_state [1] = some (CTAP2_ERR_PIN_NOT_SET, [], test_state) :=
  ⟨(C14_subcommand_refused_on_pin_state test_env test_state_pin [1] test_setPin (by decide)
      (by decide)).1 (by decide) (by decide!),
    (C14_subcommand_refused_on_pin_state test_env test_state [2] test_getPinToken_wrong
      (by decide) (by decide)).2.1 (Or.inr (by decide)) (by decide!),
    (C14_subcommand_refused_on_pin_state
      (test_env_cp (test_changePin test_state (List.replicate 16 0xEE))) test_state [1]
      (test_changePin test_state (List.replicate 16 0xEE)) (by decide) (by decide)).2.1
      (Or.inl (by decide)) (by decide!)⟩

theorem strnlen_le_length (b : Bytes) (n : Nat) : strnlen b n ≤ b.length := by
  unfold strnlen
  calc ((b.take n).takeWhile (fun x => x != 0)).length
      ≤ (b.take n).length := (List.takeWhile_sublist _).length_le
    _ ≤ b.length := by simp [List.length_take]

theorem update_pin_fields (env : Env) (s s1 : State) (pin : Bytes) (len : Int)
    (h : ctap_update_pin env s pin len = some s1) :
    s1.PIN_CODE_SET = 1
    ∧ s1.PIN_CODE = pin.take len.toNat ++ List.replicate (env.NEW_PIN_ENC_MAX_SIZE - len.toNat) 0
    ∧ s1.PIN_CODE_HASH = env.sha256
        ((pin.take len.toNat ++ List.replicate (env.NEW_PIN_ENC_MAX_SIZE - len.toNat) 0).take
          len.toNat)
    ∧ 4 ≤ len ∧ len < env.NEW_PIN_ENC_MAX_SIZE := by
  unfold ctap_update_pin at h
  split_ifs at h with h0
  simp only [Option.some.injEq] at h
  subst h
  refine ⟨rfl, rfl, rfl, ?_, ?_⟩ <;> omega

theorem decrement_pin_fields (env : Env) (s : State) :
    (ctap_decrement_pin_attempts (make_key_agreement_pair env s)).2.PIN_CODE = s.PIN_CODE
    ∧ (ctap_decrement_pin_attempts (make_key_agreement_pair env s)).2.PIN_CODE_HASH
      = s.PIN_CODE_HASH
    ∧ (ctap_decrement_pin_attempts (make_key_agreement_pair env s)).2.PIN_CODE_SET
      = s.PIN_CODE_SET := by
  unfold ctap_decrement_pin_attempts make_key_agreement_pair
  split_ifs <;> exact ⟨rfl, rfl, rfl⟩

/-- The outcomes of `ctap_update_pin_if_verified`: a non-zero status with the PIN fields
as they were, or status 0 with the PIN installed by `ctap_update_pin` from the decrypted
buffer at its string length. -/
theorem update_pin_if_verified_cases (env : Env) (s : State) (pinEnc : Bytes) (len : Nat)
    (platform_pubkey pinAuth : Bytes) (pinHashEnc : Option Bytes) (r : Nat × State)
    (h : ctap_update_pin_if_verified env s pinEnc len platform_pubkey pinAuth pinHashEnc
      = some r) :
    (r.1 ≠ 0 ∧ r.2.PIN_CODE = s.PIN_CODE ∧ r.2.PIN_CODE_HASH = s.PIN_CODE_HASH
      ∧ r.2.PIN_CODE_SET = s.PIN_CODE_SET)
    ∨ (r.1 = 0
      ∧ strnlen (decrypted_newPinEnc env s pinEnc len platform_pubkey) env.NEW_PIN_ENC_MAX_SIZE
        ≠ env.NEW_PIN_ENC_MAX_SIZE
      ∧ ∃ s0, ctap_update_pin env s0 (decrypted_newPinEnc env s pinEnc len platform_pubkey)
          (strnlen (decrypted_newPinEnc env s pinEnc len platform_pubkey)
            env.NEW_PIN_ENC_MAX_SIZE) = some r.2) := by
  unfold ctap_update_pin_if_verified at h
  simp only at h
  split_ifs at h with h1 h2 h3 h4 h5 h6
  all_goals first
    | (simp only [Option.some.injEq] at h; subst h; left
       exact ⟨by dsimp only; decide, rfl, rfl, rfl⟩)
    | (simp only [Option.some.injEq] at h; subst h; left
       exact ⟨by dsimp only; decide, decrement_pin_fields env s⟩)
    | skip
  all_goals
    simp only [Option.map_eq_some'] at h
    obtain ⟨s1, hs1, h2⟩ := h
    subst h2
    right
    exact ⟨rfl, h3, _, hs1⟩

/-! ## C15: the NUL terminator of the new PIN -/

set_option maxRecDepth 100000 in
/-- C15, counterexample: with a 256-byte newPinEnc buffer, a setPin whose 64-byte block
decrypts to 64 bytes `'1'` - no NUL inside the decrypted region - is accepted with
status 0 and installs those 64 bytes as the PIN; the terminator `strnlen` finds is the
first zero byte of the buffer after the decrypted region. -/
theorem C15_terminator_found_past_the_decrypted_region :
    round_up_16 64 = 64
    ∧ (decrypted_newPinEnc test_env_wide test_state_wide test_newPinEnc_unterminated 64
        test_platform_pubkey).take 64 = List.replicate 64 49
    ∧ (ctap_update_pin_if_verified test_env_wide test_state_wide test_newPinEnc_unterminated 64
        test_platform_pubkey test_pinAuth_unterminated none).map
          (fun r => (r.1, r.2.PIN_CODE_SET, r.2.PIN_CODE))
      = some (0, 1, List.replicate 64 49 ++ List.replicate 192 0) := by
  decide!

/-- C15 (corrected): `ctap_update_pin_if_verified` returns status 0 only if the buffer,
after its first `len` bytes (rounded up to a multiple of 16) were decrypted, has a string
length below NEW_PIN_ENC_MAX_SIZE and of at least 4 - the terminator is looked for among
the first NEW_PIN_ENC_MAX_SIZE bytes of the buffer, inside the decrypted region or past
it - and then the bytes before the terminator are the PIN whose SHA-256 becomes
`PIN_CODE_HASH`.  Every other status leaves `PIN_CODE`, `PIN_CODE_HASH` and
`PIN_CODE_SET` unchanged.  For a block of at least 64 bytes with a valid pinAuth, a
string length equal to NEW_PIN_ENC_MAX_SIZE (no terminator) gives CTAP1_ERR_OTHER and a
string length below 4 gives CTAP2_ERR_PIN_POLICY_VIOLATION, the state unchanged. -/
theorem C15_new_pin_terminator (env : Env) (s : State) (pinEnc : Bytes) (len : Nat)
    (platform_pubkey pinAuth : Bytes) (pinHashEnc : Option Bytes) :
    (∀ r, ctap_update_pin_if_verified env s pinEnc len platform_pubkey pinAuth pinHashEnc
        = some r → r.1 = 0 →
      strnlen (decrypted_newPinEnc env s pinEnc len platform_pubkey) env.NEW_PIN_ENC_MAX_SIZE
        < env.NEW_PIN_ENC_MAX_SIZE
      ∧ 4 ≤ strnlen (decrypted_newPinEnc env s pinEnc len platform_pubkey)
        env.NEW_PIN_ENC_MAX_SIZE
      ∧ r.2.PIN_CODE_SET = 1
      ∧ r.2.PIN_CODE_HASH = env.sha256
          ((decrypted_newPinEnc env s pinEnc len platform_pubkey).take
            (strnlen (decrypted_newPinEnc env s pinEnc len platform_pubkey)
              env.NEW_PIN_ENC_MAX_SIZE)))
    ∧ (∀ r, ctap_update_pin_if_verified env s pinEnc len platform_pubkey pinAuth pinHashEnc
        = some r → r.1 ≠ 0 →
      r.2.PIN_CODE = s.PIN_CODE ∧ r.2.PIN_CODE_HASH = s.PIN_CODE_HASH
        ∧ r.2.PIN_CODE_SET = s.PIN_CODE_SET)
    ∧ (64 ≤ len →
        (env.sha256_hmac ((pin_shared_secret env s platform_pubkey).take 32)
          (pinEnc.take len ++ (match pinHashEnc with
            | some h => h.take 16
            | none => []))).take 16 = pinAuth.take 16 →
        (strnlen (decrypted_newPinEnc env s pinEnc len platform_pubkey)
            env.NEW_PIN_ENC_MAX_SIZE = env.NEW_PIN_ENC_MAX_SIZE →
          ctap_update_pin_if_verified env s pinEnc len platform_pubkey pinAuth pinHashEnc
            = some (CTAP1_ERR_OTHER, s))
        ∧ (strnlen (decrypted_newPinEnc env s pinEnc len platform_pubkey)
            env.NEW_PIN_ENC_MAX_SIZE ≠ env.NEW_PIN_ENC_MAX_SIZE →
          strnlen (decrypted_newPinEnc env s pinEnc len platform_pubkey)
            env.NEW_PIN_ENC_MAX_SIZE < 4 →
          ctap_update_pin_if_verified env s pinEnc len platform_pubkey pinAuth pinHashEnc
            = some (CTAP2_ERR_PIN_POLICY_VIOLATION, s))) := by
  have hle := strnlen_le (decrypted_newPinEnc env s pinEnc len platform_pubkey)
    env.NEW_PIN_ENC_MAX_SIZE
  refine ⟨fun r h h0 => ?_, fun r h h0 => ?_,
    fun hlen hmac => ⟨fun hnul => ?_, fun hnul hmin => ?_⟩⟩
  · rcases update_pin_if_verified_cases env s pinEnc len platform_pubkey pinAuth pinHashEnc r h
      with ⟨hne, _⟩ | ⟨_, hnul, s0, hs0⟩
    · exact absurd h0 hne
    · obtain ⟨hset, hcode, hhash, h4, hmax⟩ := update_pin_fields env s0 r.2 _ _ hs0
      refine ⟨lt_of_le_of_ne hle hnul, by omega, hset, ?_⟩
      rw [hhash]
      simp only [Int.toNat_ofNat]
      rw [List.take_append_of_le_length (by
        rw [List.length_take]
        exact le_min (le_refl _) (strnlen_le_length _ _)), List.take_take, min_self]
  · rcases update_pin_if_verified_cases env s pinEnc len platform_pubkey pinAuth pinHashEnc r h
      with ⟨_, hf⟩ | ⟨hz, _⟩
    · exact hf
    · exact absurd hz h0
  · unfold decrypted_newPinEnc at hnul
    unfold ctap_update_pin_if_verified
    simp only
    rw [if_neg (by omega), if_neg (by
      intro hh
      apply hh
      rw [memcmp_eq_iff]
      exact hmac), if_pos hnul]
  · unfold decrypted_newPinEnc at hnul hmin
    unfold ctap_update_pin_if_verified
    simp only
    rw [if_neg (by omega), if_neg (by
      intro hh
      apply hh
      rw [memcmp_eq_iff]
      exact hmac), if_neg hnul, if_pos hmin]

set_option maxRecDepth 100000 in
/-- C15, at concrete inputs on the test device (64-byte buffer): the setPin block of
`"1234"` is installed; a block of 64 bytes `'1'` has no terminator and gives
CTAP1_ERR_OTHER; the block of `"123"` gives CTAP2_ERR_PIN_POLICY_VIOLATION. -/
theorem C15_new_pin_terminator_witness :
    (strnlen (decrypted_newPinEnc test_env test_state test_newPinEnc 64 test_platform_pubkey)
        test_env.NEW_PIN_ENC_MAX_SIZE < test_env.NEW_PIN_ENC_MAX_SIZE
      ∧ 4 ≤ strnlen (decrypted_newPinEnc test_env test_state test_newPinEnc 64
          test_platform_pubkey) test_env.NEW_PIN_ENC_MAX_SIZE
      ∧ test_state_pin.PIN_CODE_SET = 1
      ∧ test_state_pin.PIN_CODE_HASH = test_env.sha256
          ((decrypted_newPinEnc test_env test_state test_newPinEnc 64 test_platform_pubkey).take
            (strnlen (decrypted_newPinEnc test_env test_state test_newPinEnc 64
              test_platform_pubkey) test_env.NEW_PIN_ENC_MAX_SIZE)))
    ∧ ctap_update_pin_if_verified test_env test_state
        (test_pinEnc test_state (List.replicate 64 49)) 64 test_platform_pubkey
        (test_changePin_auth test_state (test_pinEnc test_state (List.replicate 64 49)) [])
        none = some (CTAP1_ERR_OTHER, test_state)
    ∧ ctap_update_pin_if_verified test_env test_state
        (test_pinEnc test_state [49, 50, 51]) 64 test_platform_pubkey
        (test_changePin_auth test_state (test_pinEnc test_state [49, 50, 51]) [])
        none = some (CTAP2_ERR_PIN_POLICY_VIOLATION, test_state) :=
  ⟨(C15_new_pin_terminator test_env test_state test_newPinEnc 64 test_platform_pubkey
      test_setPin.pinAuth none).1
      (0, { test_state_pin with getAssertionState := test_state.getAssertionState })
      (by decide!) rfl,
    ((C15_new_pin_terminator test_env test_state
      (test_pinEnc test_state (List.replicate 64 49)) 64 test_platform_pubkey
      (test_changePin_auth test_state (test_pinEnc test_state (List.replicate 64 49)) [])
      none).2.2 (by decide) (by decide!)).1 (by decide!),
    ((C15_new_pin_terminator test_env test_state
      (test_pinEnc test_state [49, 50, 51]) 64 test_platform_pubkey
      (test_changePin_auth test_state (test_pinEnc test_state [49, 50, 51]) [])
      none).2.2 (by decide) (by decide!)).2 (by decide!) (by decide!)⟩

theorem persistent_unchanged_of_eq (s s1 : State) (lastcmd : Nat) (w : World)
    (h : s1 = s) (hc : w.count_calls = s.world.count_calls)
    (he : w.secret_epoch = s.world.secret_epoch) :
    persistent_unchanged s
      { s1 with
        getAssertionState := { s1.getAssertionState with lastcmd := lastcmd }
        world := w } := by
  subst h
  exact ⟨hc, he, rfl, rfl, rfl, rfl, rfl, rfl, rfl, rfl⟩

theorem make_credential_body_refused (env : Env) (s : State) (MC : CTAP_makeCredential)
    (h : (ctap_make_credential_body env s MC).1 ≠ 0) :
    (ctap_make_credential_body env s MC).2.2 = s := by
  unfold ctap_make_credential_body at h ⊢
  split at h
  · rfl
  · exact absurd (make_credential_finish_status env s _) h

/-- A make-credential that does not succeed leaves the state as it was. -/
theorem make_credential_refused (env : Env) (s : State) (req : Bytes)
    (h : (ctap_make_credential env s req).1 ≠ 0) : (ctap_make_credential env s req).2.2 = s := by
  unfold ctap_make_credential at h ⊢
  simp only at h ⊢
  split_ifs at h ⊢
  all_goals first
    | rfl
    | exact make_credential_body_refused env s _ h

theorem get_assertion_body_status (env : Env) (s : State) (GA : CTAP_getAssertion) :
    (ctap_get_assertion_body env s GA).1 = 0
    ∨ (ctap_get_assertion_body env s GA).1 = CTAP2_ERR_CREDENTIAL_NOT_VALID := by
  by_cases hv : valid_credentials env s GA.rp GA.creds = []
  · right
    rw [get_assertion_body_invalid env s GA hv]
  · left
    exact (get_assertion_body_number env s GA (List.length_pos.mpr hv)).1

/-- A get-assertion answered with a status other than success and
CREDENTIAL_NOT_VALID leaves the state as it was. -/
theorem get_assertion_refused (env : Env) (s : State) (req : Bytes)
    (h0 : (ctap_get_assertion env s req).1 ≠ 0)
    (h1 : (ctap_get_assertion env s req).1 ≠ CTAP2_ERR_CREDENTIAL_NOT_VALID) :
    (ctap_get_assertion env s req).2.2 = s := by
  unfold ctap_get_assertion at h0 h1 ⊢
  simp only at h0 h1 ⊢
  split_ifs at h0 h1 ⊢
  all_goals first
    | rfl
    | (rcases get_assertion_body_status env s (env.parse_get_assertion req).2 with h | h
       · exact absurd h h0
       · exact absurd h h1)

/-- A get-next-assertion that does not succeed leaves the state as it was. -/
theorem get_next_assertion_refused (env : Env) (s : State)
    (h : (ctap_get_next_assertion env s).1 ≠ 0) : (ctap_get_next_assertion env s).2.2 = s := by
  unfold ctap_get_next_assertion pop_credential at h ⊢
  by_cases hc : s.getAssertionState.count > 0
  · simp only [hc, if_true, end_get_assertion_ret, ne_eq, not_true_eq_false, if_false] at h
  · simp only [hc, if_false]

/-! ## C16: refusals leave the persistent state alone -/

/-- C16: when `ctap_handle_packet` answers a make-credential or get-assertion packet
with PIN_REQUIRED, PIN_AUTH_INVALID or CREDENTIAL_EXCLUDED, handles a make-credential,
get-assertion or client-PIN packet on a locked device, or answers a reset or a
get-next-assertion packet with NOT_ALLOWED, the persistent state is as before the call:
the sign-counter oracle was not invoked, and `PIN_CODE_SET`, `PIN_CODE_HASH`, the retry
count - and with them the PIN, the lockout flag, the master secret, the pin token and
the key-agreement pair - are unchanged.  On a locked device the three commands are
answered NOT_ALLOWED. -/
theorem C16_refusals_leave_persistent_state (env : Env) (s : State) (pkt : Bytes)
    (r : Nat × CTAP_RESPONSE × State) (h : ctap_handle_packet env s pkt = some r)
    (hcase :
      ((pkt.headD 0 = CTAP_MAKE_CREDENTIAL ∨ pkt.headD 0 = CTAP_GET_ASSERTION)
        ∧ (r.1 = CTAP2_ERR_PIN_REQUIRED ∨ r.1 = CTAP2_ERR_PIN_AUTH_INVALID
          ∨ r.1 = CTAP2_ERR_CREDENTIAL_EXCLUDED))
      ∨ ((pkt.headD 0 = CTAP_MAKE_CREDENTIAL ∨ pkt.headD 0 = CTAP_GET_ASSERTION
          ∨ pkt.headD 0 = CTAP_CLIENT_PIN) ∧ ctap_device_locked s ≠ 0)
      ∨ (pkt.headD 0 = CTAP_RESET ∧ r.1 = CTAP2_ERR_NOT_ALLOWED)
      ∨ (pkt.headD 0 = GET_NEXT_ASSERTION ∧ r.1 = CTAP2_ERR_NOT_ALLOWED)) :
    persistent_unchanged s r.2.2
    ∧ ((pkt.headD 0 = CTAP_MAKE_CREDENTIAL ∨ pkt.headD 0 = CTAP_GET_ASSERTION
          ∨ pkt.headD 0 = CTAP_CLIENT_PIN) ∧ ctap_device_locked s ≠ 0 →
        r.1 = CTAP2_ERR_NOT_ALLOWED) := by
  unfold ctap_handle_packet at h
  simp only [Option.map_eq_some'] at h
  obtain ⟨a, h1, h2⟩ := h
  subst h2
  by_cases hlock : (pkt.headD 0 = CTAP_MAKE_CREDENTIAL ∨ pkt.headD 0 = CTAP_GET_ASSERTION
      ∨ pkt.headD 0 = CTAP_CLIENT_PIN) ∧ ctap_device_locked s ≠ 0
  · rw [if_pos hlock] at h1
    simp only [Option.some.injEq] at h1
    subst h1
    exact ⟨persistent_unchanged_of_eq s s _ _ rfl rfl rfl, fun _ => rfl⟩
  rw [if_neg hlock] at h1
  refine ⟨?_, fun hl => absurd hl hlock⟩
  simp only at hcase ⊢
  rcases dispatch_cases env s (pkt.headD 0) pkt.tail with ⟨hc, h0⟩ | ⟨hc, h0⟩ | ⟨hc, h0⟩
    | ⟨hc, _, h0⟩ | ⟨hc, _, h0⟩ | ⟨hc, _, h0⟩ | ⟨hc1, hc2, hc3, hc4, st, items, h0, _⟩
  · rw [h0] at h1
    simp only [Option.some.injEq] at h1
    subst h1
    simp only at hcase ⊢
    have hst : (ctap_make_credential env s pkt.tail).1 ≠ 0 := by
      rw [hc] at hcase
      rcases hcase with ⟨_, hs | hs | hs⟩ | hl | ⟨hx, _⟩ | ⟨hx, _⟩
      · rw [hs]; decide
      · rw [hs]; decide
      · rw [hs]; decide
      · exact absurd (hc ▸ hl) hlock
      · exact absurd hx (by decide)
      · exact absurd hx (by decide)
    exact persistent_unchanged_of_eq s _ _ _ (make_credential_refused env s _ hst)
      (by rw [make_credential_refused env s _ hst])
      (by rw [make_credential_refused env s _ hst])
  · rw [h0] at h1
    simp only [Option.some.injEq] at h1
    subst h1
    simp only at hcase ⊢
    have hst : (ctap_get_assertion env s pkt.tail).1 ≠ 0
        ∧ (ctap_get_assertion env s pkt.tail).1 ≠ CTAP2_ERR_CREDENTIAL_NOT_VALID := by
      rw [hc] at hcase
      rcases hcase with ⟨_, hs | hs | hs⟩ | hl | ⟨hx, _⟩ | ⟨hx, _⟩
      · rw [hs]; decide
      · rw [hs]; decide
      · rw [hs]; decide
      · exact absurd (hc ▸ hl) hlock
      · exact absurd hx (by decide)
      · exact absurd hx (by decide)
    exact persistent_unchanged_of_eq s _ _ _ (get_assertion_refused env s _ hst.1 hst.2)
      (by rw [get_assertion_refused env s _ hst.1 hst.2])
      (by rw [get_assertion_refused env s _ hst.1 hst.2])
  · rw [hc] at hcase
    rcases hcase with ⟨hx | hx, _⟩ | hl | ⟨hx, _⟩ | ⟨hx, _⟩
    · exact absurd hx (by decide)
    · exact absurd hx (by decide)
    · exact absurd (hc ▸ hl) hlock
    · exact absurd hx (by decide)
    · exact absurd hx (by decide)
  · rw [h0] at h1
    simp only [Option.some.injEq] at h1
    subst h1
    rw [hc] at hcase
    simp only at hcase
    rcases hcase with ⟨hx | hx, _⟩ | hl | ⟨_, hs⟩ | ⟨hx, _⟩
    · exact absurd hx (by decide)
    · exact absurd hx (by decide)
    · exact absurd (hc ▸ hl) hlock
    · exact absurd hs (by decide)
    · exact absurd hx (by decide)
  · rw [h0] at h1
    simp only [Option.some.injEq] at h1
    subst h1
    exact ⟨rfl, rfl, rfl, rfl, rfl, rfl, rfl, rfl, rfl, rfl⟩
  · rw [h0] at h1
    simp only [Option.some.injEq] at h1
    subst h1
    simp only at hcase ⊢
    have hst : (ctap_get_next_assertion env s).1 ≠ 0 := by
      rw [hc] at hcase
      rcases hcase with ⟨hx | hx, _⟩ | hl | ⟨hx, _⟩ | ⟨_, hs⟩
      · exact absurd hx (by decide)
      · exact absurd hx (by decide)
      · exact absurd (hc ▸ hl) hlock
      · exact absurd hx (by decide)
      · rw [hs]; decide
    exact persistent_unchanged_of_eq s _ _ _ (get_next_assertion_refused env s hst)
      (by rw [get_next_assertion_refused env s hst])
      (by rw [get_next_assertion_refused env s hst])
  · rw [h0] at h1
    simp only [Option.some.injEq] at h1
    subst h1
    exact ⟨rfl, rfl, rfl, rfl, rfl, rfl, rfl, rfl, rfl, rfl⟩

set_option maxRecDepth 100000 in
/-- C16, at concrete inputs: make-credential without pinAuth on the test device with a
PIN (PIN_REQUIRED), get-assertion with a wrong pinAuth (PIN_AUTH_INVALID),
make-credential with a valid credential in the exclude-list (CREDENTIAL_EXCLUDED), a
client-PIN packet on the locked device, a reset without user presence and a
get-next-assertion with nothing to continue. -/
theorem C16_refusals_leave_persistent_state_witness :
    (ctap_handle_packet test_env test_state_pin [1, 1]
        = some (CTAP2_ERR_PIN_REQUIRED, { data := [], length := 0 }, test_refused test_state_pin 1)
      ∧ persistent_unchanged test_state_pin (test_refused test_state_pin 1))
    ∧ (ctap_handle_packet test_env_pinauth test_state_pin [2, 1]
        = some (CTAP2_ERR_PIN_AUTH_INVALID, { data := [], length := 0 },
          test_refused test_state_pin 2)
      ∧ persistent_unchanged test_state_pin (test_refused test_state_pin 2))
    ∧ (ctap_handle_packet test_env test_state [1, 2]
        = some (CTAP2_ERR_CREDENTIAL_EXCLUDED, { data := [], length := 0 },
          test_refused test_state 1)
      ∧ persistent_unchanged test_state (test_refused test_state 1))
    ∧ (test_state_locked.DEVICE_LOCKOUT = 1
      ∧ ctap_handle_packet test_env test_state_locked [6, 2]
        = some (CTAP2_ERR_NOT_ALLOWED, { data := [], length := 0 },
          test_refused test_state_locked 6)
      ∧ persistent_unchanged test_state_locked (test_refused test_state_locked 6))
    ∧ ((ctap_handle_packet test_env_absent test_state [CTAP_RESET]).map (fun r => r.1)
        = some CTAP2_ERR_NOT_ALLOWED
      ∧ persistent_unchanged test_state
          ((ctap_handle_packet test_env_absent test_state [CTAP_RESET]).getD
            (0, { data := [], length := 0 }, test_state_locked)).2.2)
    ∧ (ctap_handle_packet test_env test_state [GET_NEXT_ASSERTION]
        = some (CTAP2_ERR_NOT_ALLOWED, { data := [], length := 0 },
          test_refused test_state GET_NEXT_ASSERTION)
      ∧ persistent_unchanged test_state (test_refused test_state GET_NEXT_ASSERTION)) :=
  ⟨⟨by decide!,
      (C16_refusals_leave_persistent_state test_env test_state_pin [1, 1]
        (CTAP2_ERR_PIN_REQUIRED, { data := [], length := 0 }, test_refused test_state_pin 1)
        (by decide!) (Or.inl ⟨Or.inl rfl, Or.inl rfl⟩)).1⟩,
    ⟨by decide!,
      (C16_refusals_leave_persistent_state test_env_pinauth test_state_pin [2, 1]
        (CTAP2_ERR_PIN_AUTH_INVALID, { data := [], length := 0 }, test_refused test_state_pin 2)
        (by decide!) (Or.inl ⟨Or.inr rfl, Or.inr (Or.inl rfl)⟩)).1⟩,
    ⟨by decide!,
      (C16_refusals_leave_persistent_state test_env test_state [1, 2]
        (CTAP2_ERR_CREDENTIAL_EXCLUDED, { data := [], length := 0 }, test_refused test_state 1)
        (by decide!) (Or.inl ⟨Or.inl rfl, Or.inr (Or.inr rfl)⟩)).1⟩,
    ⟨by decide!, by decide!,
      (C16_refusals_leave_persistent_state test_env test_state_locked [6, 2]
        (CTAP2_ERR_NOT_ALLOWED, { data := [], length := 0 }, test_refused test_state_locked 6)
        (by decide!) (Or.inr (Or.inl ⟨Or.inr (Or.inr rfl), by decide!⟩))).1⟩,
    ⟨by decide!,
      (C16_refusals_leave_persistent_state test_env_absent test_state [CTAP_RESET]
        ((ctap_handle_packet test_env_absent test_state [CTAP_RESET]).getD
          (0, { data := [], length := 0 }, test_state_locked))
        (by decide!) (Or.inr (Or.inr (Or.inl ⟨rfl, by decide!⟩)))).1⟩,
    ⟨by decide!,
      (C16_refusals_leave_persistent_state test_env test_state [GET_NEXT_ASSERTION]
        (CTAP2_ERR_NOT_ALLOWED, { data := [], length := 0 },
          test_refused test_state GET_NEXT_ASSERTION)
        (by decide!) (Or.inr (Or.inr (Or.inr ⟨rfl, rfl⟩)))).1⟩⟩

/-- A RESET packet is handled by the reset case of the dispatcher, locked or not. -/
theorem handle_packet_reset (env : Env) (s : State) (pkt : Bytes)
    (hcmd : pkt.headD 0 = CTAP_RESET) :
    ctap_handle_packet env s pkt =
      if env.user_presence_test s.world.presence_calls ≠ 0 then
        some (0, { data := [], length := 0 },
          { ctap_reset env
              { s with world := { s.world with presence_calls := s.world.presence_calls + 1 } } with
            getAssertionState := { s.getAssertionState with lastcmd := CTAP_RESET } })
      else
        some (CTAP2_ERR_NOT_ALLOWED, { data := [], length := 0 },
          { s with
            world := { s.world with presence_calls := s.world.presence_calls + 1 }
            getAssertionState := { s.getAssertionState with lastcmd := CTAP_RESET } }) := by
  have hdisp : ctap_handle_packet_dispatch env s CTAP_RESET pkt.tail =
      if env.user_presence_test s.world.presence_calls ≠ 0 then
        some (0, [], CTAP_RESET, ctap_reset env
          { s with world := { s.world with presence_calls := s.world.presence_calls + 1 } })
      else
        some (CTAP2_ERR_NOT_ALLOWED, [], CTAP_RESET,
          { s with world := { s.world with presence_calls := s.world.presence_calls + 1 } }) := by
    unfold ctap_handle_packet_dispatch
    rw [if_neg (by decide), if_neg (by decide), if_neg (by decide), if_neg (by decide),
      if_neg (by decide), if_pos rfl]
  unfold ctap_handle_packet
  simp only [hcmd]
  rw [if_neg (by
    intro h
    rcases h.1 with h1 | h1 | h1 <;> exact absurd h1 (by decide)), hdisp]
  split_ifs <;> rfl

/-! ## C17: RESET -/

/-- C17: a RESET packet is always answered.  When `ctap_user_presence_test` succeeds
the status is success and the state is the one `ctap_reset` leaves: `PIN_CODE_SET = 0`,
`PIN_CODE` and `PIN_CODE_HASH` all zero, 8 retries, `DEVICE_LOCKOUT = 0`, a key-agreement
pair freshly drawn from the key-pair oracle and a new master secret.  When it fails the
status is CTAP2_ERR_NOT_ALLOWED and none of these has changed. -/
theorem C17_reset_needs_user_presence (env : Env) (s : State) (pkt : Bytes)
    (hcmd : pkt.headD 0 = CTAP_RESET) :
    ∃ r, ctap_handle_packet env s pkt = some r
      ∧ (env.user_presence_test s.world.presence_calls ≠ 0 →
          r.1 = CTAP1_ERR_SUCCESS
          ∧ r.2.2 = { ctap_reset env
              { s with world := { s.world with presence_calls := s.world.presence_calls + 1 } } with
              getAssertionState := { s.getAssertionState with lastcmd := CTAP_RESET } }
          ∧ r.2.2.PIN_CODE_SET = 0
          ∧ r.2.2.PIN_CODE = List.replicate env.NEW_PIN_ENC_MAX_SIZE 0
          ∧ r.2.2.PIN_CODE_HASH = List.replicate 32 0
          ∧ r.2.2._flash_tries = 8 ∧ r.2.2.DEVICE_LOCKOUT = 0
          ∧ (r.2.2.KEY_AGREEMENT_PUB, r.2.2.KEY_AGREEMENT_PRIV)
            = env.ecc256_make_key_pair s.world.keypair_calls
          ∧ r.2.2.world.keypair_calls = s.world.keypair_calls + 1
          ∧ r.2.2.world.secret_epoch = s.world.secret_epoch + 1)
      ∧ (env.user_presence_test s.world.presence_calls = 0 →
          r.1 = CTAP2_ERR_NOT_ALLOWED
          ∧ r.2.2.PIN_CODE_SET = s.PIN_CODE_SET ∧ r.2.2.PIN_CODE = s.PIN_CODE
          ∧ r.2.2.PIN_CODE_HASH = s.PIN_CODE_HASH
          ∧ r.2.2._flash_tries = s._flash_tries ∧ r.2.2.DEVICE_LOCKOUT = s.DEVICE_LOCKOUT
          ∧ r.2.2.KEY_AGREEMENT_PUB = s.KEY_AGREEMENT_PUB
          ∧ r.2.2.KEY_AGREEMENT_PRIV = s.KEY_AGREEMENT_PRIV
          ∧ r.2.2.world.keypair_calls = s.world.keypair_calls
          ∧ r.2.2.world.secret_epoch = s.world.secret_epoch) := by
  rw [handle_packet_reset env s pkt hcmd]
  by_cases hup : env.user_presence_test s.world.presence_calls ≠ 0
  · rw [if_pos hup]
    exact ⟨_, rfl, fun _ => ⟨rfl, rfl, rfl, rfl, rfl, rfl, rfl, rfl, rfl, rfl⟩,
      fun h0 => absurd h0 hup⟩
  · rw [if_neg hup]
    exact ⟨_, rfl, fun h0 => absurd h0 hup,
      fun _ => ⟨rfl, rfl, rfl, rfl, rfl, rfl, rfl, rfl, rfl, rfl⟩⟩

set_option maxRecDepth 100000 in
/-- C17, at concrete inputs: a RESET packet on the locked test device with the user
present clears the PIN and the lockout; with the user absent it is refused and the PIN
stays set. -/
theorem C17_reset_needs_user_presence_witness :
    test_state_locked.PIN_CODE_SET = 1 ∧ test_state_locked.DEVICE_LOCKOUT = 1
    ∧ (ctap_handle_packet test_env test_state_locked [CTAP_RESET]).map
        (fun r => (r.1, r.2.2.PIN_CODE_SET, r.2.2.DEVICE_LOCKOUT, r.2.2._flash_tries))
      = some (CTAP1_ERR_SUCCESS, 0, 0, 8)
    ∧ (ctap_handle_packet test_env_absent test_state_locked [CTAP_RESET]).map
        (fun r => (r.1, r.2.2.PIN_CODE_SET, r.2.2.DEVICE_LOCKOUT, r.2.2._flash_tries))
      = some (CTAP2_ERR_NOT_ALLOWED, 1, 1, 0) := by
  have hup : test_env.user_presence_test test_state_locked.world.presence_calls ≠ 0 := by
    decide!
  have hup0 : test_env_absent.user_presence_test test_state_locked.world.presence_calls = 0 := by
    decide!
  have hset : test_state_locked.PIN_CODE_SET = 1 := by decide!
  have hlock : test_state_locked.DEVICE_LOCKOUT = 1 := by decide!
  have htries : test_state_locked._flash_tries = 0 := by decide!
  obtain ⟨r, hr, hp, _⟩ := C17_reset_needs_user_presence test_env test_state_locked
    [CTAP_RESET] rfl
  obtain ⟨r0, hr0, _, hn⟩ := C17_reset_needs_user_presence test_env_absent test_state_locked
    [CTAP_RESET] rfl
  obtain ⟨h1, _, h2, _, _, h3, h4, _⟩ := hp hup
  obtain ⟨k1, k2, _, _, k3, k4, _⟩ := hn hup0
  refine ⟨hset, hlock, ?_, ?_⟩
  · rw [hr]
    simp only [Option.map_some', h1, h2, h3, h4]
  · rw [hr0]
    simp only [Option.map_some', k1, k2, k3, k4, hset, hlock, htries]

/-! ## C18: the pin token on init and on reset -/

/-- C18 (code_bug), what the code does: `ctap_init` replaces `PIN_TOKEN` with 16 bytes
drawn from the RNG oracle, but `ctap_reset` does not: it leaves `PIN_TOKEN` as it is
and does not call the RNG, so a RESET packet keeps the pin token of before. -/
theorem C18_reset_keeps_the_pin_token (env : Env) (s : State) :
    (ctap_reset env s).PIN_TOKEN = s.PIN_TOKEN
    ∧ (ctap_reset env s).world.rng_calls = s.world.rng_calls
    ∧ (∀ pkt r, pkt.headD 0 = CTAP_RESET → ctap_handle_packet env s pkt = some r →
        r.2.2.PIN_TOKEN = s.PIN_TOKEN ∧ r.2.2.world.rng_calls = s.world.rng_calls)
    ∧ (∀ s1, ctap_init env s = some s1 →
        s1.PIN_TOKEN = (env.generate_rng s.world.rng_calls PIN_TOKEN_SIZE).1
        ∧ s1.world.rng_calls = s.world.rng_calls + 1) := by
  refine ⟨rfl, rfl, fun pkt r hcmd h => ?_, fun s1 h => ?_⟩
  · rw [handle_packet_reset env s pkt hcmd] at h
    split_ifs at h
    · simp only [Option.some.injEq] at h
      subst h
      exact ⟨rfl, rfl⟩
    · simp only [Option.some.injEq] at h
      subst h
      exact ⟨rfl, rfl⟩
  · unfold ctap_init at h
    simp only at h
    split_ifs at h
    simp only [Option.some.injEq] at h
    subst h
    exact ⟨rfl, rfl⟩

set_option maxRecDepth 100000 in
/-- C18, at the failing input: the test device draws the pin token `05 .. 05` in
`ctap_init`; after a RESET packet with the user present the pin token is still
`05 .. 05`, although the RNG oracle would now give `06 .. 06`. -/
theorem C18_reset_keeps_the_pin_token_witness :
    ctap_init test_env (boot_state test_env) = some test_state
    ∧ test_state.PIN_TOKEN = List.replicate 16 5
    ∧ (ctap_handle_packet test_env test_state [CTAP_RESET]).map
        (fun r => (r.1, r.2.2.PIN_TOKEN)) = some (CTAP1_ERR_SUCCESS, List.replicate 16 5)
    ∧ (test_env.generate_rng test_state.world.rng_calls PIN_TOKEN_SIZE).1 = List.replicate 16 6
    ∧ (ctap_reset test_env test_state).PIN_TOKEN = test_state.PIN_TOKEN :=
  ⟨by decide!, by decide!, by decide!, by decide!,
    (C18_reset_keeps_the_pin_token test_env test_state).1⟩

/-- The test cipher decrypts what it encrypted, on byte values. -/
theorem test_cipher_roundtrip (key data : Bytes) (h : ∀ b ∈ data, b < 256) :
    test_decrypt key (test_encrypt key data) = data := by
  unfold test_decrypt test_encrypt
  rw [List.map_map]
  conv_rhs => rw [← List.map_id data]
  apply List.map_congr_left
  intro b hb
  have := h b hb
  simp only [Function.comp, id]
  omega

theorem test_cipher_length (key data : Bytes) :
    (test_encrypt key data).length = data.length := by
  simp [test_encrypt]

/-- A getPinToken whose pinHashEnc matches the stored hash: `ctap_add_pin_if_verified`
restores the retries and emits the encrypted pin token. -/
theorem add_pin_if_verified_match (env : Env) (s : State) (platform_pubkey pinHashEnc : Bytes)
    (hmatch : (env.aes256_decrypt (pin_shared_secret env s platform_pubkey)
      (pinHashEnc.take 16)).take 16 = s.PIN_CODE_HASH.take 16)
    (htok : s.PIN_TOKEN.length = PIN_TOKEN_SIZE) :
    ctap_add_pin_if_verified env s platform_pubkey pinHashEnc =
      (CTAP1_ERR_SUCCESS,
        [CborItem.bytes (env.aes256_encrypt (pin_shared_secret env s platform_pubkey)
          s.PIN_TOKEN)],
        { s with _flash_tries := 8 }) := by
  have htake : s.PIN_TOKEN.take PIN_TOKEN_SIZE = s.PIN_TOKEN := by
    rw [← htok]
    exact List.take_length _
  unfold ctap_add_pin_if_verified
  simp only
  rw [if_neg (by
    intro h
    apply h
    rw [memcmp_eq_iff]
    exact hmatch), htake]
  rfl

/-! ## C19: getPinToken with the right PIN -/

/-- C19: when the pinHashEnc of a getPinToken, decrypted under the SHA-256 of the
32-byte ECDH shared secret of the platform public key and `KEY_AGREEMENT_PRIV`, gives
the first 16 bytes of `PIN_CODE_HASH`, `ctap_add_pin_if_verified` returns success, sets
the retry count to 8 and emits one byte string: the AES-256-CBC encryption (fresh IV)
of the 16 bytes of `PIN_TOKEN` under that same key, the SHA-256 of the ECDH shared
secret.  For a length-preserving cipher that byte string has 16 bytes, and where
decryption undoes encryption on byte strings, decrypting it under the SHA-256 of the
ECDH shared secret gives back `PIN_TOKEN`.  The getPinToken subcommand of
`ctap_client_pin` returns this byte string under the pinToken key. -/
theorem C19_pin_token_is_returned_encrypted (env : Env) (s : State)
    (platform_pubkey pinHashEnc : Bytes)
    (hmatch : (env.aes256_decrypt
        (env.sha256 ((env.ecc256_shared_secret platform_pubkey s.KEY_AGREEMENT_PRIV).take 32))
        (pinHashEnc.take 16)).take 16 = s.PIN_CODE_HASH.take 16)
    (htok : s.PIN_TOKEN.length = PIN_TOKEN_SIZE) :
    ctap_add_pin_if_verified env s platform_pubkey pinHashEnc =
      (CTAP1_ERR_SUCCESS,
        [CborItem.bytes (env.aes256_encrypt
          (env.sha256 ((env.ecc256_shared_secret platform_pubkey s.KEY_AGREEMENT_PRIV).take 32))
          s.PIN_TOKEN)],
        { s with _flash_tries := 8 })
    ∧ (ctap_add_pin_if_verified env s platform_pubkey pinHashEnc).2.2._flash_tries = 8
    ∧ ((∀ key data, (env.aes256_encrypt key data).length = data.length) →
        (env.aes256_encrypt
          (env.sha256 ((env.ecc256_shared_secret platform_pubkey s.KEY_AGREEMENT_PRIV).take 32))
          s.PIN_TOKEN).length = 16)
    ∧ ((∀ key data, (∀ b ∈ data, b < 256) →
          env.aes256_decrypt key (env.aes256_encrypt key data) = data) →
        (∀ b ∈ s.PIN_TOKEN, b < 256) →
        ∀ tok, (ctap_add_pin_if_verified env s platform_pubkey pinHashEnc).2.1
            = [CborItem.bytes tok] →
          env.aes256_decrypt
            (env.sha256
              ((env.ecc256_shared_secret platform_pubkey s.KEY_AGREEMENT_PRIV).take 32))
            tok = s.PIN_TOKEN)
    ∧ (∀ (req : Bytes) (CP : CTAP_clientPin), env.parse_client_pin req = (0, CP) →
        CP.pinProtocol = 1 → CP.subCommand = CP_cmdGetPinToken →
        CP.keyAgreementPresent ≠ 0 → CP.pinHashEncPresent ≠ 0 → s.PIN_CODE_SET = 1 →
        CP.pubkey = platform_pubkey → CP.pinHashEnc = pinHashEnc →
        ctap_client_pin env s req = some (CTAP1_ERR_SUCCESS,
          [CborItem.map ((if CP.getRetries ≠ 0 then 1 else 0) + 1), CborItem.int RESP_pinToken,
            CborItem.bytes (env.aes256_encrypt
              (env.sha256
                ((env.ecc256_shared_secret platform_pubkey s.KEY_AGREEMENT_PRIV).take 32))
              s.PIN_TOKEN)]
            ++ ctap_client_pin_tail { s with _flash_tries := 8 } CP.getRetries
              ((if CP.getRetries ≠ 0 then 1 else 0) + 1),
          { s with _flash_tries := 8 })) := by
  have hkey : pin_shared_secret env s platform_pubkey
      = env.sha256 ((env.ecc256_shared_secret platform_pubkey s.KEY_AGREEMENT_PRIV).take 32) :=
    rfl
  have hadd := add_pin_if_verified_match env s platform_pubkey pinHashEnc
    (by rw [hkey]; exact hmatch) htok
  rw [hkey] at hadd
  refine ⟨hadd, by rw [hadd], fun hlen => ?_, fun hrt hb tok htokeq => ?_, ?_⟩
  · rw [hlen, htok]
    rfl
  · rw [hadd] at htokeq
    simp only [List.cons.injEq, CborItem.bytes.injEq, and_true] at htokeq
    rw [← htokeq]
    exact hrt _ _ hb
  · intro req CP hparse hproto hsub hka hph hset hpub hphe
    rw [(client_pin_subcommand env s req CP hparse hproto).2.2 hsub]
    unfold ctap_client_pin_getPinToken
    rw [if_neg (by rw [is_pin_set_eq_one s hset]; decide),
      if_neg (by rintro (h | h); exact hka h; exact hph h)]
    simp only [hpub, hphe, hadd]
    rw [if_neg (by decide)]
    rfl

set_option maxRecDepth 100000 in
/-- C19, at a concrete input: on the test device with PIN `"1234"` and one retry used
up, a getPinToken carrying the hash of `"1234"` is answered with 16 bytes that decrypt,
under the SHA-256 of the ECDH shared secret, to the pin token, and the retry count is 8
again. -/
theorem C19_pin_token_is_returned_encrypted_witness :
    (ctap_run test_env test_state_pin [[6, 2]]).map (fun r => r.2._flash_tries) = some 7
    ∧ (ctap_add_pin_if_verified test_env test_state_pin test_platform_pubkey
        (test_getPinToken test_state_pin [49, 50, 51, 52]).pinHashEnc).2.2._flash_tries = 8
    ∧ (test_env.aes256_encrypt
        (test_env.sha256 ((test_env.ecc256_shared_secret test_platform_pubkey
          test_state_pin.KEY_AGREEMENT_PRIV).take 32))
        test_state_pin.PIN_TOKEN).length = 16
    ∧ (ctap_add_pin_if_verified test_env test_state_pin test_platform_pubkey
        (test_getPinToken test_state_pin [49, 50, 51, 52]).pinHashEnc).2.1
      = [CborItem.bytes (List.replicate 16 10)]
    ∧ test_env.aes256_decrypt
        (test_env.sha256 ((test_env.ecc256_shared_secret test_platform_pubkey
          test_state_pin.KEY_AGREEMENT_PRIV).take 32))
        (List.replicate 16 10)
      = test_state_pin.PIN_TOKEN
    ∧ ctap_client_pin (test_env_cp (test_getPinToken test_state_pin [49, 50, 51, 52]))
        test_state_pin [1]
      = some (CTAP1_ERR_SUCCESS,
          [CborItem.map
              ((if (test_getPinToken test_state_pin [49, 50, 51, 52]).getRetries ≠ 0 then 1
                else 0) + 1),
            CborItem.int RESP_pinToken,
            CborItem.bytes ((test_env_cp (test_getPinToken test_state_pin
                [49, 50, 51, 52])).aes256_encrypt
              ((test_env_cp (test_getPinToken test_state_pin [49, 50, 51, 52])).sha256
                (((test_env_cp (test_getPinToken test_state_pin
                  [49, 50, 51, 52])).ecc256_shared_secret test_platform_pubkey
                  test_state_pin.KEY_AGREEMENT_PRIV).take 32))
              test_state_pin.PIN_TOKEN)]
            ++ ctap_client_pin_tail { test_state_pin with _flash_tries := 8 }
              (test_getPinToken test_state_pin [49, 50, 51, 52]).getRetries
              ((if (test_getPinToken test_state_pin [49, 50, 51, 52]).getRetries ≠ 0 then 1
                else 0) + 1),
          { test_state_pin with _flash_tries := 8 }) :=
  ⟨by decide!,
    (C19_pin_token_is_returned_encrypted test_env test_state_pin test_platform_pubkey
      (test_getPinToken test_state_pin [49, 50, 51, 52]).pinHashEnc (by decide!)
      (by decide!)).2.1,
    (C19_pin_token_is_returned_encrypted test_env test_state_pin test_platform_pubkey
      (test_getPinToken test_state_pin [49, 50, 51, 52]).pinHashEnc (by decide!)
      (by decide!)).2.2.1 test_cipher_length,
    by decide!,
    (C19_pin_token_is_returned_encrypted test_env test_state_pin test_platform_pubkey
      (test_getPinToken test_state_pin [49, 50, 51, 52]).pinHashEnc (by decide!)
      (by decide!)).2.2.2.1 (fun key data h => test_cipher_roundtrip key data h) (by decide!)
      (List.replicate 16 10) (by decide!),
    (C19_pin_token_is_returned_encrypted
      (test_env_cp (test_getPinToken test_state_pin [49, 50, 51, 52])) test_state_pin
      test_platform_pubkey (test_getPinToken test_state_pin [49, 50, 51, 52]).pinHashEnc
      (by decide!) (by decide!)).2.2.2.2 [1] (test_getPinToken test_state_pin [49, 50, 51, 52])
      (by decide) (by decide) (by decide) (by decide) (by decide) (by decide!) (by decide)
      (by decide)⟩

theorem pin_hash_canonical_congr (env : Env) (s s1 : State)
    (h1 : s1.PIN_CODE_SET = s.PIN_CODE_SET) (h2 : s1.PIN_CODE = s.PIN_CODE)
    (h3 : s1.PIN_CODE_HASH = s.PIN_CODE_HASH) (h : pin_hash_canonical env s) :
    pin_hash_canonical env s1 := by
  unfold pin_hash_canonical current_pin at h ⊢
  rw [h1, h2, h3]
  exact h

theorem takeWhile_append_zeros (t : Bytes) (k : Nat) (h : ∀ b ∈ t, (b != 0) = true) :
    (t ++ List.replicate k 0).takeWhile (fun b => b != 0) = t := by
  rw [List.takeWhile_append_of_pos h]
  cases k with
  | zero => simp
  | succ k => simp [List.replicate_succ]

/-- The first `strnlen b n` bytes of `b` are the bytes before the first NUL. -/
theorem take_strnlen (b : Bytes) (n : Nat) :
    b.take (strnlen b n) = (b.take n).takeWhile (fun x => x != 0) := by
  have hp : (b.take n).takeWhile (fun x => x != 0) <+: b.take n := List.takeWhile_prefix _
  have h1 := List.prefix_iff_eq_take.mp hp
  have hle := strnlen_le b n
  unfold strnlen at hle ⊢
  conv_rhs => rw [h1]
  rw [List.take_take]
  congr 1
  omega

/-- `ctap_update_pin` called with the string length of its argument leaves a PIN whose
hash is canonical. -/
theorem update_pin_canonical (env : Env) (s0 s1 : State) (pin : Bytes)
    (h : ctap_update_pin env s0 pin (strnlen pin env.NEW_PIN_ENC_MAX_SIZE) = some s1) :
    pin_hash_canonical env s1 := by
  obtain ⟨_, hcode, hhash, h4, hmax⟩ := update_pin_fields env s0 s1 pin _ h
  simp only [Int.toNat_ofNat] at hcode hhash
  have hlen : (pin.take (strnlen pin env.NEW_PIN_ENC_MAX_SIZE)).length
      = strnlen pin env.NEW_PIN_ENC_MAX_SIZE := by
    rw [List.length_take]
    exact min_eq_left (strnlen_le_length _ _)
  have hall : ∀ b ∈ pin.take (strnlen pin env.NEW_PIN_ENC_MAX_SIZE), (b != 0) = true := by
    rw [take_strnlen]
    intro b hb
    exact @List.mem_takeWhile_imp Nat (fun x => x != 0) _ b hb
  have hcur : current_pin s1 = pin.take (strnlen pin env.NEW_PIN_ENC_MAX_SIZE) := by
    unfold current_pin
    rw [hcode]
    exact takeWhile_append_zeros _ _ hall
  intro _
  refine ⟨?_, ?_, ?_⟩
  · rw [hhash, hcur, List.take_append_of_le_length (by rw [hlen]), List.take_take, min_self]
  · rw [hcur, hlen]
    omega
  · rw [hcur, hcode, List.length_append, List.length_replicate, hlen]
    omega

theorem update_pin_if_verified_canonical (env : Env) (s : State) (pinEnc : Bytes) (len : Nat)
    (platform_pubkey pinAuth : Bytes) (pinHashEnc : Option Bytes) (r : Nat × State)
    (h : ctap_update_pin_if_verified env s pinEnc len platform_pubkey pinAuth pinHashEnc
      = some r) (hs : pin_hash_canonical env s) : pin_hash_canonical env r.2 := by
  rcases update_pin_if_verified_cases env s pinEnc len platform_pubkey pinAuth pinHashEnc r h
    with ⟨_, h1, h2, h3⟩ | ⟨_, _, s0, hs0⟩
  · exact pin_hash_canonical_congr env s r.2 h3 h1 h2 hs
  · exact update_pin_canonical env s0 r.2 _ hs0

theorem add_pin_if_verified_canonical (env : Env) (s : State) (platform_pubkey pinHashEnc : Bytes)
    (hs : pin_hash_canonical env s) :
    pin_hash_canonical env (ctap_add_pin_if_verified env s platform_pubkey pinHashEnc).2.2 := by
  unfold ctap_add_pin_if_verified
  simp only
  split_ifs
  · exact pin_hash_canonical_congr env s _ rfl rfl rfl hs
  · obtain ⟨h1, h2, h3⟩ := decrement_pin_fields env s
    exact pin_hash_canonical_congr env s _ h3 h1 h2 hs

theorem client_pin_canonical (env : Env) (s : State) (req : Bytes)
    (r : Nat × List CborItem × State) (h : ctap_client_pin env s req = some r)
    (hs : pin_hash_canonical env s) : pin_hash_canonical env r.2.2 := by
  rcases client_pin_cases env s req with ⟨st, items, h0⟩ | ⟨CP, n, h0⟩ | ⟨CP, n, h0⟩
    | ⟨CP, n, h0⟩
  · rw [h0] at h
    simp only [Option.some.injEq] at h
    subst h
    exact hs
  · rw [h0] at h
    unfold ctap_client_pin_setPin at h
    split_ifs at h
    · simp only [Option.some.injEq] at h; subst h; exact hs
    · simp only [Option.some.injEq] at h; subst h; exact hs
    · simp only [Option.map_eq_some'] at h
      obtain ⟨a, h1, h2⟩ := h
      subst h2
      have := update_pin_if_verified_canonical env s _ _ _ _ _ _ h1 hs
      split_ifs <;> exact this
  · rw [h0] at h
    unfold ctap_client_pin_changePin at h
    split_ifs at h
    · simp only [Option.some.injEq] at h; subst h; exact hs
    · simp only [Option.some.injEq] at h; subst h; exact hs
    · simp only [Option.map_eq_some'] at h
      obtain ⟨a, h1, h2⟩ := h
      subst h2
      have := update_pin_if_verified_canonical env s _ _ _ _ _ _ h1 hs
      split_ifs <;> exact this
  · rw [h0] at h
    simp only [Option.some.injEq] at h
    subst h
    unfold ctap_client_pin_getPinToken
    simp only
    split_ifs
    · exact hs
    · exact hs
    · exact add_pin_if_verified_canonical env s _ _ hs
    · exact add_pin_if_verified_canonical env s _ _ hs

theorem dispatch_canonical (env : Env) (s : State) (cmd : Nat) (pkt : Bytes)
    (r : Nat × List CborItem × Nat × State)
    (h : ctap_handle_packet_dispatch env s cmd pkt = some r)
    (hs : pin_hash_canonical env s) : pin_hash_canonical env r.2.2.2 := by
  rcases dispatch_cases env s cmd pkt with ⟨_, h0⟩ | ⟨_, h0⟩ | ⟨_, h0⟩ | ⟨_, _, h0⟩ | ⟨_, _, h0⟩
    | ⟨_, _, h0⟩ | ⟨_, _, _, _, st, items, h0, _⟩
  · rw [h0] at h
    simp only [Option.some.injEq] at h
    subst h
    apply pin_hash_canonical_congr env s _ _ _ _ hs <;> (simp only; rw [make_credential_frame])
  · rw [h0] at h
    simp only [Option.some.injEq] at h
    subst h
    apply pin_hash_canonical_congr env s _ _ _ _ hs <;> (simp only; rw [get_assertion_frame])
  · rw [h0] at h
    simp only [Option.map_eq_some'] at h
    obtain ⟨a, h1, h2⟩ := h
    subst h2
    exact client_pin_canonical env s pkt a h1 hs
  · rw [h0] at h
    simp only [Option.some.injEq] at h
    subst h
    intro hset
    exact absurd hset (by simp [ctap_reset, make_key_agreement_pair])
  · rw [h0] at h
    simp only [Option.some.injEq] at h
    subst h
    exact pin_hash_canonical_congr env s _ rfl rfl rfl hs
  · rw [h0] at h
    simp only [Option.some.injEq] at h
    subst h
    apply pin_hash_canonical_congr env s _ _ _ _ hs <;>
      (simp only; rw [get_next_assertion_frame])
  · rw [h0] at h
    simp only [Option.some.injEq] at h
    subst h
    exact hs

theorem handle_packet_canonical (env : Env) (s : State) (pkt : Bytes)
    (r : Nat × CTAP_RESPONSE × State) (h : ctap_handle_packet env s pkt = some r)
    (hs : pin_hash_canonical env s) : pin_hash_canonical env r.2.2 := by
  unfold ctap_handle_packet at h
  simp only [Option.map_eq_some'] at h
  obtain ⟨a, h1, h2⟩ := h
  subst h2
  split_ifs at h1
  · simp only [Option.some.injEq] at h1
    subst h1
    exact pin_hash_canonical_congr env s _ rfl rfl rfl hs
  · exact pin_hash_canonical_congr env a.2.2.2 _ rfl rfl rfl
      (dispatch_canonical env s _ _ a h1 hs)

theorem init_canonical (env : Env) (s : State) (h : ctap_init env (boot_state env) = some s) :
    pin_hash_canonical env s := by
  unfold ctap_init at h
  simp only at h
  split_ifs at h
  simp only [Option.some.injEq] at h
  subst h
  intro hset
  exact absurd hset (by
    simp [make_key_agreement_pair, ctap_reset_pin_attempts, boot_state])

theorem reachable_canonical (env : Env) (s : State) (hr : Reachable env s) :
    pin_hash_canonical env s := by
  induction hr with
  | init s h => exact init_canonical env s h
  | step s pkt r _ h ih => exact handle_packet_canonical env s pkt r h ih

/-! ## C20: the stored hash is the hash of the stored PIN -/

/-- C20: in every state reachable from `ctap_init` through `ctap_handle_packet` calls,
if `PIN_CODE_SET = 1` then `PIN_CODE_HASH` is the SHA-256 of the current PIN - the bytes
of `PIN_CODE` before its first NUL, at least 4 of them, the NUL lying inside `PIN_CODE` -
and the wrong-PIN check of getPinToken answers CTAP2_ERR_PIN_INVALID exactly when the
decrypted pinHashEnc differs from the first 16 bytes of that hash. -/
theorem C20_pin_hash_is_hash_of_current_pin (env : Env) (s : State) (hr : Reachable env s)
    (hset : s.PIN_CODE_SET = 1) :
    s.PIN_CODE_HASH = env.sha256 (s.PIN_CODE.takeWhile (fun b => b != 0))
    ∧ 4 ≤ (s.PIN_CODE.takeWhile (fun b => b != 0)).length
    ∧ (s.PIN_CODE.takeWhile (fun b => b != 0)).length < s.PIN_CODE.length
    ∧ (∀ platform_pubkey pinHashEnc : Bytes,
        (ctap_add_pin_if_verified env s platform_pubkey pinHashEnc).1 = CTAP2_ERR_PIN_INVALID ↔
          (env.aes256_decrypt (pin_shared_secret env s platform_pubkey)
            (pinHashEnc.take 16)).take 16
          ≠ (env.sha256 (s.PIN_CODE.takeWhile (fun b => b != 0))).take 16)
    ∧ (∀ (pinEnc pinAuth platform_pubkey pinHashEnc : Bytes) (len : Nat), 64 ≤ len →
        (env.sha256_hmac ((pin_shared_secret env s platform_pubkey).take 32)
          (pinEnc.take len ++ pinHashEnc.take 16)).take 16 = pinAuth.take 16 →
        strnlen (decrypted_newPinEnc env s pinEnc len platform_pubkey)
          env.NEW_PIN_ENC_MAX_SIZE ≠ env.NEW_PIN_ENC_MAX_SIZE →
        4 ≤ strnlen (decrypted_newPinEnc env s pinEnc len platform_pubkey)
          env.NEW_PIN_ENC_MAX_SIZE →
        ((ctap_update_pin_if_verified env s pinEnc len platform_pubkey pinAuth
            (some pinHashEnc)).map (fun r => r.1) = some CTAP2_ERR_PIN_INVALID ↔
          (env.aes256_decrypt (pin_shared_secret env s platform_pubkey)
            (pinHashEnc.take 16)).take 16
          ≠ (env.sha256 (s.PIN_CODE.takeWhile (fun b => b != 0))).take 16)) := by
  obtain ⟨h1, h2, h3⟩ := reachable_canonical env s hr hset
  unfold current_pin at h1 h2 h3
  refine ⟨h1, h2, h3, fun platform_pubkey pinHashEnc => ?_,
    fun pinEnc pinAuth platform_pubkey pinHashEnc len hlen hmac hnul hmin => ?_⟩
  swap
  · unfold decrypted_newPinEnc at hnul hmin
    rw [update_pin_if_verified_checked env s pinEnc len platform_pubkey pinAuth
      (some pinHashEnc) hlen hmac hnul hmin,
      if_pos (by rw [is_pin_set_eq_one s hset]; decide), ← h1]
    simp only [Option.getD_some]
    by_cases hm : memcmp_eq (env.aes256_decrypt (pin_shared_secret env s platform_pubkey)
        (pinHashEnc.take 16)) s.PIN_CODE_HASH 16 = true
    · rw [if_neg (by simp [hm])]
      rw [memcmp_eq_iff] at hm
      constructor
      · intro h
        simp only [Option.map_map, Option.map_eq_some'] at h
        obtain ⟨a, _, ha⟩ := h
        dsimp only [Function.comp] at ha
        exact absurd ha (by decide)
      · intro h
        exact absurd hm h
    · rw [if_pos hm]
      rw [memcmp_eq_iff] at hm
      exact ⟨fun _ => hm, fun _ => rfl⟩
  rw [← h1]
  unfold ctap_add_pin_if_verified
  simp only
  by_cases hm : memcmp_eq (env.aes256_decrypt (pin_shared_secret env s platform_pubkey)
      (pinHashEnc.take 16)) s.PIN_CODE_HASH 16 = true
  · rw [if_neg (by simp [hm])]
    rw [memcmp_eq_iff] at hm
    constructor
    · intro h
      dsimp only at h
      exact absurd h (by decide)
    · intro h
      exact absurd hm h
  · rw [if_pos hm]
    rw [memcmp_eq_iff] at hm
    exact ⟨fun _ => hm, fun _ => rfl⟩

set_option maxRecDepth 100000 in
/-- The test device with PIN `"1234"` is reachable: `ctap_init`, then the setPin
packet. -/
theorem test_state_pin_reachable : Reachable test_env test_state_pin :=
  Reachable.step test_state [6, 1] (0, { data := [], length := 0 }, test_state_pin)
    (Reachable.init test_state (by decide!)) (by decide!)

set_option maxRecDepth 100000 in
/-- C20, at a concrete input: the test device after `ctap_init` and setPin of `"1234"`;
the current PIN is `"1234"` and `PIN_CODE_HASH` is its hash. -/
theorem C20_pin_hash_is_hash_of_current_pin_witness :
    Reachable test_env test_state_pin ∧ test_state_pin.PIN_CODE_SET = 1
    ∧ test_state_pin.PIN_CODE.takeWhile (fun b => b != 0) = [49, 50, 51, 52]
    ∧ test_state_pin.PIN_CODE_HASH
      = test_env.sha256 (test_state_pin.PIN_CODE.takeWhile (fun b => b != 0))
    ∧ ((ctap_add_pin_if_verified test_env test_state_pin test_platform_pubkey
          (List.replicate 16 0xEE)).1 = CTAP2_ERR_PIN_INVALID ↔
        (test_env.aes256_decrypt
          (pin_shared_secret test_env test_state_pin test_platform_pubkey)
          ((List.replicate 16 0xEE).take 16)).take 16
        ≠ (test_env.sha256 (test_state_pin.PIN_CODE.takeWhile (fun b => b != 0))).take 16) :=
  ⟨test_state_pin_reachable, by decide!, by decide!,
    (C20_pin_hash_is_hash_of_current_pin test_env test_state_pin test_state_pin_reachable
      (by decide!)).1,
    (C20_pin_hash_is_hash_of_current_pin test_env test_state_pin test_state_pin_reachable
      (by decide!)).2.2.2.1 test_platform_pubkey (List.replicate 16 0xEE)⟩

/-- A CANCEL packet, in full. -/
theorem handle_packet_cancel (env : Env) (s : State) (pkt : Bytes)
    (hcmd : pkt.headD 0 = CTAP_CANCEL) :
    ctap_handle_packet env s pkt =
      some (CTAP1_ERR_SUCCESS, { data := [], length := 0 },
        { s with getAssertionState := { s.getAssertionState with lastcmd := CTAP_CANCEL } }) := by
  have hdisp : ctap_handle_packet_dispatch env s CTAP_CANCEL pkt.tail =
      some (0, [], CTAP_CANCEL, s) := by
    unfold ctap_handle_packet_dispatch
    rw [if_neg (by decide), if_neg (by decide), if_pos rfl]
  unfold ctap_handle_packet
  simp only [hcmd]
  rw [if_neg (by
    intro h
    rcases h.1 with h1 | h1 | h1 <;> exact absurd h1 (by decide)), hdisp]
  rfl

/-! ## C22: CANCEL -/

set_option maxRecDepth 100000 in
/-- C22, counterexample: after the get-assertion over three valid credentials the
last-command tag is CTAP_GET_ASSERTION and a get-next-assertion succeeds; a CANCEL packet
changes the tag to CTAP_CANCEL, and the get-next-assertion after it is refused. -/
theorem C22_cancel_overwrites_the_last_command_tag :
    test_state_ga3.getAssertionState.lastcmd = CTAP_GET_ASSERTION
    ∧ (ctap_handle_packet test_env test_state_ga3 [CTAP_CANCEL]).map
        (fun r => (r.1, r.2.2.getAssertionState.lastcmd))
      = some (CTAP1_ERR_SUCCESS, CTAP_CANCEL)
    ∧ CTAP_CANCEL ≠ CTAP_GET_ASSERTION
    ∧ (ctap_run test_env test_state_ga3 [[GET_NEXT_ASSERTION]]).map
        (fun r => r.1.map (fun x => x.1)) = some [CTAP1_ERR_SUCCESS]
    ∧ (ctap_run test_env test_state_ga3 [[CTAP_CANCEL], [GET_NEXT_ASSERTION]]).map
        (fun r => r.1.map (fun x => x.1)) = some [CTAP1_ERR_SUCCESS, CTAP2_ERR_NOT_ALLOWED] := by
  decide!

/-- C22 (corrected): a CANCEL packet returns success with an empty payload and leaves
the saved auth-data header, the client-data-hash, the remaining credentials and the
remaining count - and every other part of the state - unchanged, but the last-command
tag becomes CTAP_CANCEL, as it becomes the command byte after every packet; a
get-next-assertion packet right after it is therefore answered CTAP2_ERR_NOT_ALLOWED. -/
theorem C22_cancel_keeps_the_saved_credentials (env : Env) (s : State) (pkt : Bytes)
    (hcmd : pkt.headD 0 = CTAP_CANCEL) :
    ∃ r, ctap_handle_packet env s pkt = some r
      ∧ r.1 = CTAP1_ERR_SUCCESS ∧ r.2.1 = { data := [], length := 0 }
      ∧ r.2.2.getAssertionState.authData = s.getAssertionState.authData
      ∧ r.2.2.getAssertionState.clientDataHash = s.getAssertionState.clientDataHash
      ∧ r.2.2.getAssertionState.creds = s.getAssertionState.creds
      ∧ r.2.2.getAssertionState.count = s.getAssertionState.count
      ∧ r.2.2.getAssertionState.lastcmd = CTAP_CANCEL
      ∧ r.2.2 = { s with getAssertionState := { s.getAssertionState with lastcmd := CTAP_CANCEL } }
      ∧ (ctap_handle_packet env r.2.2 [GET_NEXT_ASSERTION]).map (fun x => (x.1, x.2.1))
        = some (CTAP2_ERR_NOT_ALLOWED, { data := [], length := 0 }) := by
  refine ⟨_, handle_packet_cancel env s pkt hcmd, rfl, rfl, rfl, rfl, rfl, rfl, rfl, rfl, ?_⟩
  rw [handle_packet_unwanted_next env _ [GET_NEXT_ASSERTION] rfl (by
    show CTAP_CANCEL ≠ CTAP_GET_ASSERTION
    decide)]
  rfl

set_option maxRecDepth 100000 in
/-- C22, at a concrete input: CANCEL on the test device after the three-credential
get-assertion. -/
theorem C22_cancel_keeps_the_saved_credentials_witness :
    test_state_ga3.getAssertionState.count = 2
    ∧ ∃ r, ctap_handle_packet test_env test_state_ga3 [CTAP_CANCEL] = some r
      ∧ r.1 = CTAP1_ERR_SUCCESS ∧ r.2.1 = { data := [], length := 0 }
      ∧ r.2.2.getAssertionState.authData = test_state_ga3.getAssertionState.authData
      ∧ r.2.2.getAssertionState.clientDataHash = test_state_ga3.getAssertionState.clientDataHash
      ∧ r.2.2.getAssertionState.creds = test_state_ga3.getAssertionState.creds
      ∧ r.2.2.getAssertionState.count = test_state_ga3.getAssertionState.count
      ∧ r.2.2.getAssertionState.lastcmd = CTAP_CANCEL
      ∧ r.2.2 = { test_state_ga3 with
          getAssertionState := { test_state_ga3.getAssertionState with lastcmd := CTAP_CANCEL } }
      ∧ (ctap_handle_packet test_env r.2.2 [GET_NEXT_ASSERTION]).map (fun x => (x.1, x.2.1))
        = some (CTAP2_ERR_NOT_ALLOWED, { data := [], length := 0 }) :=
  ⟨by decide!, C22_cancel_keeps_the_saved_credentials test_env test_state_ga3 [CTAP_CANCEL] rfl⟩

theorem be_value_be32 (n : Nat) (h : n < 4294967296) : be_value (be32 n) = n := by
  simp only [be_value, be32, List.foldl_cons, List.foldl_nil]
  omega

theorem u32_lt (n : Nat) : u32 n < 4294967296 := Nat.mod_lt _ (by decide)

/-! ## C23: the sign counter -/

/-- C23: `auth_data_update_count` calls the sign-counter oracle once and returns its
value when that is non-zero; otherwise it calls the oracle exactly once more and returns
the second value.  The four signCount bytes it stores are the big-endian encoding of the
returned value (their big-endian value is the returned value), and the other header
fields are left as they were. -/
theorem C23_sign_count_is_stored_big_endian (env : Env) (w : World) (h : CTAP_authDataHeader) :
    (auth_data_update_count env w h).1
      = (if u32 (env.atomic_count w.count_calls) ≠ 0 then u32 (env.atomic_count w.count_calls)
        else u32 (env.atomic_count (w.count_calls + 1)))
    ∧ (auth_data_update_count env w h).2.2.count_calls
      = (if u32 (env.atomic_count w.count_calls) ≠ 0 then w.count_calls + 1
        else w.count_calls + 2)
    ∧ (auth_data_update_count env w h).2.1.signCount
      = [(auth_data_update_count env w h).1 / 16777216 % 256,
          (auth_data_update_count env w h).1 / 65536 % 256,
          (auth_data_update_count env w h).1 / 256 % 256,
          (auth_data_update_count env w h).1 % 256]
    ∧ be_value (auth_data_update_count env w h).2.1.signCount
      = (auth_data_update_count env w h).1
    ∧ (auth_data_update_count env w h).2.1.rpIdHash = h.rpIdHash
    ∧ (auth_data_update_count env w h).2.1.flags = h.flags := by
  have hlt : (auth_data_update_count env w h).1 < 4294967296 := by
    unfold auth_data_update_count
    simp only
    split_ifs <;> exact u32_lt _
  have hsc : (auth_data_update_count env w h).2.1.signCount
      = be32 (auth_data_update_count env w h).1 := rfl
  refine ⟨?_, ?_, hsc, ?_, rfl, rfl⟩
  · by_cases hz : u32 (env.atomic_count w.count_calls) = 0
    · simp [auth_data_update_count, hz]
    · simp [auth_data_update_count, hz]
  · by_cases hz : u32 (env.atomic_count w.count_calls) = 0
    · simp [auth_data_update_count, hz]
    · simp [auth_data_update_count, hz]
  · rw [hsc]
    exact be_value_be32 _ hlt

/-- The branch `ctap_client_pin` takes, for the request its parser yields. -/
theorem client_pin_cases_parsed (env : Env) (s : State) (req : Bytes) :
    (∃ st items, ctap_client_pin env s req = some (st, items, s))
    ∨ ctap_client_pin env s req = ctap_client_pin_setPin env s (env.parse_client_pin req).2
        (if (env.parse_client_pin req).2.getRetries ≠ 0 then 1 else 0)
    ∨ ctap_client_pin env s req = ctap_client_pin_changePin env s (env.parse_client_pin req).2
        (if (env.parse_client_pin req).2.getRetries ≠ 0 then 1 else 0)
    ∨ ctap_client_pin env s req = some (ctap_client_pin_getPinToken env s
        (env.parse_client_pin req).2
        (if (env.parse_client_pin req).2.getRetries ≠ 0 then 1 else 0)) := by
  unfold ctap_client_pin
  by_cases h1 : (env.parse_client_pin req).1 ≠ 0
  · left; exact ⟨_, _, by rw [if_pos h1]⟩
  by_cases h2 : (env.parse_client_pin req).2.pinProtocol ≠ 1
      ∨ (env.parse_client_pin req).2.subCommand = 0
  · left; exact ⟨_, _, by rw [if_neg h1, if_pos h2]⟩
  by_cases h3 : (env.parse_client_pin req).2.subCommand = CP_cmdGetRetries
  · left; exact ⟨_, _, by rw [if_neg h1, if_neg h2]; simp only [if_pos h3]; rfl⟩
  by_cases h4 : (env.parse_client_pin req).2.subCommand = CP_cmdGetKeyAgreement
  · left; exact ⟨_, _, by rw [if_neg h1, if_neg h2]; simp only [if_neg h3, if_pos h4]; rfl⟩
  by_cases h5 : (env.parse_client_pin req).2.subCommand = CP_cmdSetPin
  · right; left
    rw [if_neg h1, if_neg h2]; simp only [if_neg h3, if_neg h4, if_pos h5]
  by_cases h6 : (env.parse_client_pin req).2.subCommand = CP_cmdChangePin
  · right; right; left
    rw [if_neg h1, if_neg h2]; simp only [if_neg h3, if_neg h4, if_neg h5, if_pos h6]
  by_cases h7 : (env.parse_client_pin req).2.subCommand = CP_cmdGetPinToken
  · right; right; right
    rw [if_neg h1, if_neg h2]
    simp only [if_neg h3, if_neg h4, if_neg h5, if_neg h6, if_pos h7]
  · left
    exact ⟨_, _, by
      rw [if_neg h1, if_neg h2]
      simp only [if_neg h3, if_neg h4, if_neg h5, if_neg h6, if_neg h7]; rfl⟩

theorem decrement_tries (env : Env) (s : State) :
    (ctap_decrement_pin_attempts (make_key_agreement_pair env s)).2._flash_tries = s._flash_tries
    ∨ (0 < s._flash_tries
      ∧ (ctap_decrement_pin_attempts (make_key_agreement_pair env s)).2._flash_tries
        = s._flash_tries - 1) := by
  unfold ctap_decrement_pin_attempts make_key_agreement_pair
  by_cases h : 0 < s._flash_tries
  · right
    simp [h]
  · left
    simp [h]

/-- How `ctap_update_pin_if_verified` changes the retry count: not at all, down by one,
or back to 8 - the last only with a PIN set and a matching pinHashEnc. -/
theorem update_pin_if_verified_tries (env : Env) (s : State) (pinEnc : Bytes) (len : Nat)
    (platform_pubkey pinAuth : Bytes) (pinHashEnc : Option Bytes) (r : Nat × State)
    (h : ctap_update_pin_if_verified env s pinEnc len platform_pubkey pinAuth pinHashEnc
      = some r) :
    r.2._flash_tries = s._flash_tries
    ∨ (0 < s._flash_tries ∧ r.2._flash_tries = s._flash_tries - 1)
    ∨ (r.2._flash_tries = 8 ∧ s.PIN_CODE_SET = 1
      ∧ (env.aes256_decrypt (pin_shared_secret env s platform_pubkey)
          ((pinHashEnc.getD []).take 16)).take 16 = s.PIN_CODE_HASH.take 16) := by
  unfold ctap_update_pin_if_verified at h
  simp only at h
  split_ifs at h with h1 h2 h3 h4 h5 h6
  all_goals first
    | (simp only [Option.some.injEq] at h; subst h; left; rfl)
    | (simp only [Option.some.injEq] at h; subst h
       rcases decrement_tries env s with hd | hd
       · left; exact hd
       · right; left; exact hd)
    | skip
  · simp only [Option.map_eq_some'] at h
    obtain ⟨s1, hs1, h2⟩ := h
    subst h2
    have := update_pin_counters env _ _ _ _ hs1
    right; right
    refine ⟨by simpa [ctap_reset_pin_attempts] using this.1, ?_, ?_⟩
    · by_contra hset
      exact h5 (is_pin_set_eq_zero s hset)
    · rw [← memcmp_eq_iff]
      simpa using h6
  · simp only [Option.map_eq_some'] at h
    obtain ⟨s1, hs1, h2⟩ := h
    subst h2
    left
    exact (update_pin_counters env _ _ _ _ hs1).1

theorem add_pin_if_verified_tries (env : Env) (s : State) (platform_pubkey pinHashEnc : Bytes) :
    (ctap_add_pin_if_verified env s platform_pubkey pinHashEnc).2.2._flash_tries = s._flash_tries
    ∨ (0 < s._flash_tries
      ∧ (ctap_add_pin_if_verified env s platform_pubkey pinHashEnc).2.2._flash_tries
        = s._flash_tries - 1)
    ∨ ((ctap_add_pin_if_verified env s platform_pubkey pinHashEnc).2.2._flash_tries = 8
      ∧ (env.aes256_decrypt (pin_shared_secret env s platform_pubkey)
          (pinHashEnc.take 16)).take 16 = s.PIN_CODE_HASH.take 16) := by
  unfold ctap_add_pin_if_verified
  simp only
  split_ifs with hm
  · right; right
    refine ⟨rfl, ?_⟩
    rw [← memcmp_eq_iff]
    simpa using hm
  · rcases decrement_tries env s with hd | hd
    · left; exact hd
    · right; left; exact hd

theorem client_pin_setPin_tries (env : Env) (s : State) (CP : CTAP_clientPin) (n : Nat)
    (r : Nat × List CborItem × State) (h : ctap_client_pin_setPin env s CP n = some r) :
    r.2.2._flash_tries = s._flash_tries
    ∨ (0 < s._flash_tries ∧ r.2.2._flash_tries = s._flash_tries - 1) := by
  unfold ctap_client_pin_setPin at h
  split_ifs at h with hset
  · simp only [Option.some.injEq] at h; subst h; left; rfl
  · simp only [Option.some.injEq] at h; subst h; left; rfl
  · simp only [Option.map_eq_some'] at h
    obtain ⟨a, h1, h2⟩ := h
    subst h2
    have hns : s.PIN_CODE_SET ≠ 1 := by
      intro h1s
      exact hset (by rw [is_pin_set_eq_one s h1s]; decide)
    rcases update_pin_if_verified_tries env s _ _ _ _ _ _ h1 with ht | ht | ⟨_, hs, _⟩
    · left; split_ifs <;> exact ht
    · right; refine ⟨ht.1, ?_⟩; split_ifs <;> exact ht.2
    · exact absurd hs hns

theorem client_pin_changePin_tries (env : Env) (s : State) (CP : CTAP_clientPin) (n : Nat)
    (r : Nat × List CborItem × State) (h : ctap_client_pin_changePin env s CP n = some r) :
    r.2.2._flash_tries = s._flash_tries
    ∨ (0 < s._flash_tries ∧ r.2.2._flash_tries = s._flash_tries - 1)
    ∨ (r.2.2._flash_tries = 8 ∧ pin_hash_matches env s CP) := by
  unfold ctap_client_pin_changePin at h
  split_ifs at h
  · simp only [Option.some.injEq] at h; subst h; left; rfl
  · simp only [Option.some.injEq] at h; subst h; left; rfl
  · simp only [Option.map_eq_some'] at h
    obtain ⟨a, h1, h2⟩ := h
    subst h2
    rcases update_pin_if_verified_tries env s _ _ _ _ _ _ h1 with ht | ht | ⟨ht, hs, hm⟩
    · left; split_ifs <;> exact ht
    · right; left; refine ⟨ht.1, ?_⟩; split_ifs <;> exact ht.2
    · right; right
      refine ⟨?_, hs, hm⟩
      split_ifs <;> exact ht

theorem client_pin_getPinToken_tries (env : Env) (s : State) (CP : CTAP_clientPin) (n : Nat) :
    (ctap_client_pin_getPinToken env s CP n).2.2._flash_tries = s._flash_tries
    ∨ (0 < s._flash_tries
      ∧ (ctap_client_pin_getPinToken env s CP n).2.2._flash_tries = s._flash_tries - 1)
    ∨ ((ctap_client_pin_getPinToken env s CP n).2.2._flash_tries = 8
      ∧ pin_hash_matches env s CP) := by
  unfold ctap_client_pin_getPinToken
  simp only
  by_cases hset : ctap_is_pin_set s = 0
  · rw [if_pos hset]; left; rfl
  rw [if_neg hset]
  have hs : s.PIN_CODE_SET = 1 := by
    by_contra hns
    exact hset (is_pin_set_eq_zero s hns)
  split_ifs
  · left; rfl
  all_goals
    rcases add_pin_if_verified_tries env s CP.pubkey CP.pinHashEnc with ht | ht | ⟨ht, hm⟩
    · left; exact ht
    · right; left; exact ht
    · right; right; exact ⟨ht, hs, hm⟩

/-- How `ctap_client_pin` changes the retry count. -/
theorem client_pin_tries (env : Env) (s : State) (req : Bytes)
    (r : Nat × List CborItem × State) (h : ctap_client_pin env s req = some r) :
    r.2.2._flash_tries = s._flash_tries
    ∨ (0 < s._flash_tries ∧ r.2.2._flash_tries = s._flash_tries - 1)
    ∨ (r.2.2._flash_tries = 8 ∧ pin_hash_matches env s (env.parse_client_pin req).2) := by
  rcases client_pin_cases_parsed env s req with ⟨st, items, h0⟩ | h0 | h0 | h0
  · rw [h0] at h
    simp only [Option.some.injEq] at h
    subst h
    left; rfl
  · rw [h0] at h
    rcases client_pin_setPin_tries env s _ _ r h with ht | ht
    · left; exact ht
    · right; left; exact ht
  · rw [h0] at h
    exact client_pin_changePin_tries env s _ _ r h
  · rw [h0] at h
    simp only [Option.some.injEq] at h
    subst h
    exact client_pin_getPinToken_tries env s _ _

/-- How one packet changes the retry count. -/
theorem handle_packet_tries (env : Env) (s : State) (pkt : Bytes)
    (r : Nat × CTAP_RESPONSE × State) (h : ctap_handle_packet env s pkt = some r) :
    r.2.2._flash_tries = s._flash_tries
    ∨ (0 < s._flash_tries ∧ r.2.2._flash_tries = s._flash_tries - 1)
    ∨ (r.2.2._flash_tries = 8
      ∧ (pkt.headD 0 = CTAP_RESET
        ∨ (pkt.headD 0 = CTAP_CLIENT_PIN
          ∧ pin_hash_matches env s (env.parse_client_pin pkt.tail).2))) := by
  unfold ctap_handle_packet at h
  simp only [Option.map_eq_some'] at h
  obtain ⟨a, h1, h2⟩ := h
  subst h2
  split_ifs at h1
  · simp only [Option.some.injEq] at h1; subst h1; left; rfl
  simp only
  rcases dispatch_cases env s (pkt.headD 0) pkt.tail with ⟨_, h0⟩ | ⟨_, h0⟩ | ⟨hc, h0⟩
    | ⟨hc, _, h0⟩ | ⟨_, _, h0⟩ | ⟨_, _, h0⟩ | ⟨_, _, _, _, st, items, h0, _⟩
  · rw [h0] at h1
    simp only [Option.some.injEq] at h1
    subst h1
    left
    simp only
    rw [make_credential_frame]
  · rw [h0] at h1
    simp only [Option.some.injEq] at h1
    subst h1
    left
    simp only
    rw [get_assertion_frame]
  · rw [h0] at h1
    simp only [Option.map_eq_some'] at h1
    obtain ⟨b, hb1, hb2⟩ := h1
    subst hb2
    rcases client_pin_tries env s pkt.tail b hb1 with ht | ht | ⟨ht, hm⟩
    · left; exact ht
    · right; left; exact ht
    · right; right; exact ⟨ht, Or.inr ⟨hc, hm⟩⟩
  · rw [h0] at h1
    simp only [Option.some.injEq] at h1
    subst h1
    right; right
    exact ⟨rfl, Or.inl hc⟩
  · rw [h0] at h1
    simp only [Option.some.injEq] at h1
    subst h1
    left; rfl
  · rw [h0] at h1
    simp only [Option.some.injEq] at h1
    subst h1
    left
    simp only
    rw [get_next_assertion_frame]
  · rw [h0] at h1
    simp only [Option.some.injEq] at h1
    subst h1
    left; rfl

theorem init_tries (env : Env) (s0 s1 : State) (h : ctap_init env s0 = some s1) :
    s1._flash_tries = 8 := by
  unfold ctap_init at h
  simp only at h
  split_ifs at h
  simp only [Option.some.injEq] at h
  subst h
  rfl

theorem reachable_tries (env : Env) (s : State) (hr : Reachable env s) :
    0 ≤ s._flash_tries ∧ s._flash_tries ≤ 8 := by
  induction hr with
  | init s h =>
    rw [init_tries env _ s h]
    exact ⟨by decide, by decide⟩
  | step s pkt r _ h ih =>
    rcases handle_packet_tries env s pkt r h with ht | ⟨hp, ht⟩ | ⟨ht, _⟩
    · rw [ht]; exact ih
    · rw [ht]; omega
    · rw [ht]; exact ⟨by decide, by decide⟩

/-! ## C21: range of the retry count -/

/-- C21: in every state reachable from `ctap_init` through `ctap_handle_packet` calls
the retry count is between 0 and 8.  A packet handled in such a state leaves the count
as it is, takes one off a positive count, or sets it to 8; the last happens only for a
RESET packet or for a client-PIN packet whose pinHashEnc decrypts to the first 16 bytes
of the hash of the PIN that is set (a correct PIN); and `ctap_init` sets it to 8. -/
theorem C21_retry_count_stays_in_range (env : Env) (s : State) (hr : Reachable env s) :
    0 ≤ s._flash_tries ∧ s._flash_tries ≤ 8
    ∧ (∀ pkt r, ctap_handle_packet env s pkt = some r →
        0 ≤ r.2.2._flash_tries
        ∧ (r.2.2._flash_tries = s._flash_tries
          ∨ (0 < s._flash_tries ∧ r.2.2._flash_tries = s._flash_tries - 1)
          ∨ (r.2.2._flash_tries = 8
            ∧ (pkt.headD 0 = CTAP_RESET
              ∨ (pkt.headD 0 = CTAP_CLIENT_PIN
                ∧ pin_hash_matches env s (env.parse_client_pin pkt.tail).2)))))
    ∧ (∀ s0 s1, ctap_init env s0 = some s1 → s1._flash_tries = 8) := by
  obtain ⟨h0, h8⟩ := reachable_tries env s hr
  refine ⟨h0, h8, fun pkt r h => ⟨?_, handle_packet_tries env s pkt r h⟩,
    fun s0 s1 h => init_tries env s0 s1 h⟩
  exact (reachable_tries env r.2.2 (Reachable.step s pkt r hr h)).1

/-- A run of packets from a reachable state ends in a reachable state. -/
theorem reachable_run (env : Env) (pkts : List Bytes) :
    ∀ (s s1 : State), Reachable env s → (ctap_run env s pkts).map (fun r => r.2) = some s1 →
      Reachable env s1 := by
  induction pkts with
  | nil =>
    intro s s1 hr h
    simp only [ctap_run, Option.map_some', Option.some.injEq] at h
    subst h
    exact hr
  | cons pkt rest ih =>
    intro s s1 hr h
    cases hp : ctap_handle_packet env s pkt with
    | none => simp [ctap_run, hp] at h
    | some a =>
      have ha := Reachable.step s pkt a hr hp
      cases ht : ctap_run env a.2.2 rest with
      | none => simp [ctap_run, hp, ht] at h
      | some t =>
        simp only [ctap_run, hp, ht, Option.map_some', Option.some.injEq] at h
        exact ih a.2.2 s1 ha (by rw [ht, Option.map_some', h])

set_option maxRecDepth 100000 in
/-- The test device after setPin and eight wrong getPinToken packets is reachable. -/
theorem test_state_pin8_reachable : Reachable test_env test_state_pin8 :=
  reachable_run test_env (List.replicate 8 [6, 2]) test_state_pin test_state_pin8
    test_state_pin_reachable (by decide!)

set_option maxRecDepth 100000 in
/-- C21, at a concrete input: the test device after setPin and eight wrong getPinToken
packets has 0 retries; a ninth wrong packet leaves the count at 0. -/
theorem C21_retry_count_stays_in_range_witness :
    Reachable test_env test_state_pin8
    ∧ test_state_pin8._flash_tries = 0
    ∧ (0 ≤ test_state_pin8._flash_tries ∧ test_state_pin8._flash_tries ≤ 8)
    ∧ (ctap_handle_packet test_env test_state_pin8 [6, 2]).map
        (fun r => (r.1, r.2.2._flash_tries)) = some (CTAP2_ERR_PIN_INVALID, 0)
    ∧ 0 ≤ ((ctap_handle_packet test_env test_state_pin8 [6, 2]).getD
        (0, { data := [], length := 0 }, test_state)).2.2._flash_tries :=
  ⟨test_state_pin8_reachable, by decide!,
    ⟨(C21_retry_count_stays_in_range test_env test_state_pin8 test_state_pin8_reachable).1,
      (C21_retry_count_stays_in_range test_env test_state_pin8 test_state_pin8_reachable).2.1⟩,
    by decide!,
    ((C21_retry_count_stays_in_range test_env test_state_pin8
      test_state_pin8_reachable).2.2.1 [6, 2]
      ((ctap_handle_packet test_env test_state_pin8 [6, 2]).getD
        (0, { data := [], length := 0 }, test_state)) (by decide!)).1⟩

theorem le32_injective (c1 c2 : Nat) (h1 : c1 < 4294967296) (h2 : c2 < 4294967296)
    (h : le32 c1 = le32 c2) : c1 = c2 := by
  simp only [le32, List.cons.injEq, and_true] at h
  omega

/-! ## C24: what the tag input determines -/

set_option maxRecDepth 100000 in
/-- C24, counterexample: for the relying parties with ids `[97, 98]` and `[97]` and the
users with ids `[99]` and `[98, 99]` (same name, same count, same device secret) the
byte strings fed to SHA-256 are equal although rp.id and user.id both differ; the tag
made for the first pair therefore authenticates a descriptor for the second relying
party. -/
theorem C24_tag_input_is_a_plain_concatenation :
    test_rp_long.id ≠ test_rp_short.id ∧ test_user_long.id ≠ test_user_shifted.id
    ∧ auth_tag_input test_env (test_env.master_secret test_state.world.secret_epoch)
        test_rp_long test_user_long 7
      = auth_tag_input test_env (test_env.master_secret test_state.world.secret_epoch)
        test_rp_short test_user_shifted 7
    ∧ ctap_authenticate_credential test_env test_state test_rp_short
        { type := PUB_KEY_CRED_PUB_KEY
          credential :=
            { tag := make_auth_tag test_env test_state test_rp_long test_user_long 7
              user := test_user_shifted, count := 7 } } = 1 := by
  decide!

/-- C24 (corrected): for a fixed device secret and 32-bit counts, two inputs of
`make_auth_tag` whose rp.id have the same length and whose user.id have the same length
and that give the same byte string to SHA-256 agree in rp.id, in user.id, in the
NUL-truncated user.name and in the count: among inputs with these lengths fixed, a
difference in any of the four components changes the hash input. -/
theorem C24_tag_input_binds_at_fixed_lengths (env : Env) (secret : Bytes) (rp1 rp2 : rpId)
    (user1 user2 : CTAP_userEntity) (count1 count2 : Nat)
    (hrp : rp1.id.length = rp2.id.length) (huser : user1.id.length = user2.id.length)
    (hc1 : count1 < 4294967296) (hc2 : count2 < 4294967296)
    (h : auth_tag_input env secret rp1 user1 count1
      = auth_tag_input env secret rp2 user2 count2) :
    rp1.id = rp2.id ∧ user1.id = user2.id
    ∧ user1.name.take (strnlen user1.name env.USER_NAME_LIMIT)
      = user2.name.take (strnlen user2.name env.USER_NAME_LIMIT)
    ∧ count1 = count2 := by
  unfold auth_tag_input at h
  have h1 := List.append_cancel_right h
  have h2 := List.append_inj' h1 (by simp [le32])
  have h3 := List.append_inj h2.1 (by simp [hrp, huser])
  have h4 := List.append_inj h3.1 hrp
  exact ⟨h4.1, h4.2, h3.2, le32_injective count1 count2 hc1 hc2 h2.2⟩

set_option maxRecDepth 100000 in
/-- C24, at concrete inputs: `test_rp` and `test_user` against themselves, and the
counts 7 and 42, which give different hash inputs. -/
theorem C24_tag_input_binds_at_fixed_lengths_witness :
    (test_rp.id = test_rp.id ∧ test_user.id = test_user.id
      ∧ test_user.name.take (strnlen test_user.name test_env.USER_NAME_LIMIT)
        = test_user.name.take (strnlen test_user.name test_env.USER_NAME_LIMIT)
      ∧ 7 = 7)
    ∧ auth_tag_input test_env [0, 42] test_rp test_user 7
      ≠ auth_tag_input test_env [0, 42] test_rp test_user 42 :=
  ⟨C24_tag_input_binds_at_fixed_lengths test_env [0, 42] test_rp test_rp test_user test_user
      7 7 rfl rfl (by decide) (by decide) rfl,
    fun h => absurd
      (C24_tag_input_binds_at_fixed_lengths test_env [0, 42] test_rp test_rp test_user test_user
        7 42 rfl rfl (by decide) (by decide) h).2.2.2 (by decide)⟩

theorem getD_set_ne (l : Bytes) (i j a d : Nat) (h : i ≠ j) :
    (l.set i a).getD j d = l.getD j d := by
  simp only [List.getD_eq_getElem?_getD, List.getElem?_set_ne h]

theorem getD_set_self (l : Bytes) (i a d : Nat) (h : i < l.length) :
    (l.set i a).getD i d = a := by
  simp only [List.getD_eq_getElem?_getD, List.getElem?_set_self h, Option.getD_some]

theorem memmove_length (src : Bytes) : ∀ (dst : Bytes) (off : Nat),
    (memmove dst off src).length = dst.length := by
  induction src with
  | nil => intro dst off; rfl
  | cons b bs ih =>
    intro dst off
    simp only [memmove]
    rw [ih, List.length_set]

theorem memmove_getD_lt (src : Bytes) : ∀ (dst : Bytes) (off j d : Nat), j < off →
    (memmove dst off src).getD j d = dst.getD j d := by
  induction src with
  | nil => intro dst off j d _; rfl
  | cons b bs ih =>
    intro dst off j d h
    simp only [memmove]
    rw [ih _ _ _ _ (by omega), getD_set_ne _ _ _ _ _ (by omega)]

theorem memmove_append (src : Bytes) : ∀ (dst extra : Bytes) (off : Nat),
    off + src.length ≤ dst.length →
    memmove (dst ++ extra) off src = memmove dst off src ++ extra := by
  induction src with
  | nil => intro dst extra off _; rfl
  | cons b bs ih =>
    intro dst extra off h
    simp only [List.length_cons] at h
    simp only [memmove]
    rw [List.set_append_left _ _ (by omega), ih _ _ _ (by rw [List.length_set]; omega)]

theorem leading_zeros_le (buf : Bytes) (n : Nat) : leading_zeros buf n ≤ n := by
  unfold leading_zeros
  calc ((buf.take n).takeWhile (fun b => b == 0)).length
      ≤ (buf.take n).length := (List.takeWhile_sublist _).length_le
    _ ≤ n := by simp [List.length_take]

theorem readBytes_length (buf : Bytes) (off n : Nat) : (readBytes buf off n).length = n := by
  simp [readBytes]

/-- The ten writes of lines 372-384 for pad bits `pr`, `ps` and leading-zero counts
`lr`, `ls`: the header bytes they leave, the bound on the length, and that they all land
below index 72. -/
theorem der_writes (pr ps : Int) (lr ls : Nat) (src1 src2 : Bytes) (d : Bytes → Bytes)
    (hpr : 0 ≤ pr ∧ pr ≤ 1) (hps : 0 ≤ ps ∧ ps ≤ 1) (hlr : lr ≤ 32) (hls : ls ≤ 32)
    (h1 : src1.length = 32) (h2 : src2.length = 32)
    (hd : ∀ buf, d buf =
      memmove
        (((((memmove
          (((((buf.set 0 0x30).set 1 (u8i (0x44 + ps + pr - ls - lr))).set 2 0x02).set
            (3 + pr).toNat 0).set 3 (u8i (0x20 + pr - lr)))
          (4 + pr).toNat src1).set (4 + 32 + pr - lr).toNat 0x02).set
            (5 + 32 + pr + ps - lr).toNat 0).set (5 + 32 + pr - lr).toNat
              (u8i (0x20 + ps - ls))))
        (6 + 32 + pr + ps - lr).toNat src2)
    (sigder : Bytes) (hlen : sigder.length = 72) :
    (d sigder).length = 72
    ∧ (d sigder).getD 0 0 = 0x30
    ∧ ((d sigder).getD 1 0 : Int) = 0x44 + ps + pr - ls - lr
    ∧ (d sigder).getD 2 0 = 0x02
    ∧ ((d sigder).getD 3 0 : Int) = 0x20 + pr - lr
    ∧ (d sigder).getD (4 + (d sigder).getD 3 0) 0 = 0x02
    ∧ ((d sigder).getD (5 + (d sigder).getD 3 0) 0 : Int) = 0x20 + ps - ls
    ∧ (∀ extra, d (sigder ++ extra) = d sigder ++ extra) := by
  have hu1 : u8i (0x44 + ps + pr - ls - lr) = (0x44 + ps + pr - ls - lr).toNat := by
    unfold u8i
    congr 1
    omega
  have hu3 : u8i (0x20 + pr - lr) = (0x20 + pr - lr).toNat := by
    unfold u8i
    congr 1
    omega
  have hu5 : u8i (0x20 + ps - ls) = (0x20 + ps - ls).toNat := by
    unfold u8i
    congr 1
    omega
  have h3 : (d sigder).getD 3 0 = (0x20 + pr - lr).toNat := by
    rw [hd, memmove_getD_lt _ _ _ _ _ (by omega), getD_set_ne _ _ _ _ _ (by omega),
      getD_set_ne _ _ _ _ _ (by omega), getD_set_ne _ _ _ _ _ (by omega),
      memmove_getD_lt _ _ _ _ _ (by omega),
      getD_set_self _ _ _ _ (by simp only [List.length_set]; omega), hu3]
  have hi4 : 4 + (0x20 + pr - (lr : Int)).toNat = (4 + 32 + pr - lr).toNat := by omega
  have hi5 : 5 + (0x20 + pr - (lr : Int)).toNat = (5 + 32 + pr - lr).toNat := by omega
  refine ⟨?_, ?_, ?_, ?_, ?_, ?_, ?_, ?_⟩
  · rw [hd]
    simp only [memmove_length, List.length_set]
    exact hlen
  · rw [hd, memmove_getD_lt _ _ _ _ _ (by omega), getD_set_ne _ _ _ _ _ (by omega),
      getD_set_ne _ _ _ _ _ (by omega), getD_set_ne _ _ _ _ _ (by omega),
      memmove_getD_lt _ _ _ _ _ (by omega), getD_set_ne _ _ _ _ _ (by omega),
      getD_set_ne _ _ _ _ _ (by omega), getD_set_ne _ _ _ _ _ (by omega),
      getD_set_ne _ _ _ _ _ (by omega), getD_set_self _ _ _ _ (by omega)]
  · rw [hd, memmove_getD_lt _ _ _ _ _ (by omega), getD_set_ne _ _ _ _ _ (by omega),
      getD_set_ne _ _ _ _ _ (by omega), getD_set_ne _ _ _ _ _ (by omega),
      memmove_getD_lt _ _ _ _ _ (by omega), getD_set_ne _ _ _ _ _ (by omega),
      getD_set_ne _ _ _ _ _ (by omega), getD_set_ne _ _ _ _ _ (by omega),
      getD_set_self _ _ _ _ (by simp only [List.length_set]; omega), hu1]
    omega
  · rw [hd, memmove_getD_lt _ _ _ _ _ (by omega), getD_set_ne _ _ _ _ _ (by omega),
      getD_set_ne _ _ _ _ _ (by omega), getD_set_ne _ _ _ _ _ (by omega),
      memmove_getD_lt _ _ _ _ _ (by omega), getD_set_ne _ _ _ _ _ (by omega),
      getD_set_ne _ _ _ _ _ (by omega),
      getD_set_self _ _ _ _ (by simp only [List.length_set]; omega)]
  · rw [h3]
    omega
  · rw [h3, hi4, hd, memmove_getD_lt _ _ _ _ _ (by omega), getD_set_ne _ _ _ _ _ (by omega),
      getD_set_ne _ _ _ _ _ (by omega),
      getD_set_self _ _ _ _ (by simp only [memmove_length, List.length_set]; omega)]
  · rw [h3, hi5, hd, memmove_getD_lt _ _ _ _ _ (by omega),
      getD_set_self _ _ _ _ (by simp only [memmove_length, List.length_set]; omega), hu5]
    omega
  · intro extra
    rw [hd, hd]
    rw [List.set_append_left _ _ (by omega),
      List.set_append_left _ _ (by simp only [List.length_set]; omega),
      List.set_append_left _ _ (by simp only [List.length_set]; omega),
      List.set_append_left _ _ (by simp only [List.length_set]; omega),
      List.set_append_left _ _ (by simp only [List.length_set]; omega),
      memmove_append _ _ _ _ (by simp only [List.length_set]; omega),
      List.set_append_left _ _ (by simp only [memmove_length, List.length_set]; omega),
      List.set_append_left _ _ (by simp only [memmove_length, List.length_set]; omega),
      List.set_append_left _ _ (by simp only [memmove_length, List.length_set]; omega),
      memmove_append _ _ _ _ (by simp only [memmove_length, List.length_set]; omega)]

theorem pad_bit_range (b : Nat) :
    (0 : Int) ≤ (if b &&& 0x80 = 0x80 then 1 else 0)
    ∧ (if b &&& 0x80 = 0x80 then (1 : Int) else 0) ≤ 1 := by
  split_ifs <;> exact ⟨by decide, by decide⟩

/-- The header bytes, the length and the write bound of `ctap_calculate_signature_der`,
for any raw signature and a 72-byte `sigder`. -/
theorem signature_der_layout (lead_r0 lead_s0 : Nat) (sigbuf sigder : Bytes)
    (hlen : sigder.length = 72) :
    (ctap_calculate_signature_der lead_r0 lead_s0 sigbuf sigder).1
      = 2 + ((ctap_calculate_signature_der lead_r0 lead_s0 sigbuf sigder).2.getD 1 0 : Int)
    ∧ (ctap_calculate_signature_der lead_r0 lead_s0 sigbuf sigder).2.getD 1 0
      = 4 + (ctap_calculate_signature_der lead_r0 lead_s0 sigbuf sigder).2.getD 3 0
        + (ctap_calculate_signature_der lead_r0 lead_s0 sigbuf sigder).2.getD
          (5 + (ctap_calculate_signature_der lead_r0 lead_s0 sigbuf sigder).2.getD 3 0) 0
    ∧ (ctap_calculate_signature_der lead_r0 lead_s0 sigbuf sigder).2.getD 0 0 = 0x30
    ∧ (ctap_calculate_signature_der lead_r0 lead_s0 sigbuf sigder).2.getD 2 0 = 0x02
    ∧ (ctap_calculate_signature_der lead_r0 lead_s0 sigbuf sigder).2.getD
        (4 + (ctap_calculate_signature_der lead_r0 lead_s0 sigbuf sigder).2.getD 3 0) 0 = 0x02
    ∧ 4 ≤ (ctap_calculate_signature_der lead_r0 lead_s0 sigbuf sigder).1
    ∧ (ctap_calculate_signature_der lead_r0 lead_s0 sigbuf sigder).1 ≤ 72
    ∧ (ctap_calculate_signature_der lead_r0 lead_s0 sigbuf sigder).2.length = 72
    ∧ (∀ extra, (ctap_calculate_signature_der lead_r0 lead_s0 sigbuf (sigder ++ extra)).2
        = (ctap_calculate_signature_der lead_r0 lead_s0 sigbuf sigder).2 ++ extra) := by
  have hpr := pad_bit_range (sigbuf.getD (0 + lead_r0) 0)
  have hps := pad_bit_range (sigbuf.getD (32 + lead_s0) 0)
  have hlr := leading_zeros_le sigbuf 32
  have hls := leading_zeros_le (sigbuf.drop 32) 32
  have h1 := readBytes_length sigbuf ((leading_zeros sigbuf 32 : Nat) : Int).toNat 32
  have h2 := readBytes_length sigbuf
    (32 + ((leading_zeros (sigbuf.drop 32) 32 : Nat) : Int)).toNat 32
  have hdef : ∀ buf, ctap_calculate_signature_der lead_r0 lead_s0 sigbuf buf =
      ((0x46 : Int) + (if sigbuf.getD (32 + lead_s0) 0 &&& 0x80 = 0x80 then 1 else 0)
        + (if sigbuf.getD (0 + lead_r0) 0 &&& 0x80 = 0x80 then 1 else 0)
        - (leading_zeros sigbuf 32 : Nat) - (leading_zeros (sigbuf.drop 32) 32 : Nat),
       memmove
        (((((memmove
          (((((buf.set 0 0x30).set 1 (u8i (0x44
              + (if sigbuf.getD (32 + lead_s0) 0 &&& 0x80 = 0x80 then 1 else 0)
              + (if sigbuf.getD (0 + lead_r0) 0 &&& 0x80 = 0x80 then 1 else 0)
              - (leading_zeros (sigbuf.drop 32) 32 : Nat)
              - (leading_zeros sigbuf 32 : Nat)))).set 2 0x02).set
            (3 + (if sigbuf.getD (0 + lead_r0) 0 &&& 0x80 = 0x80 then (1 : Int) else 0)).toNat
              0).set 3
            (u8i (0x20 + (if sigbuf.getD (0 + lead_r0) 0 &&& 0x80 = 0x80 then 1 else 0)
              - (leading_zeros sigbuf 32 : Nat))))
          (4 + (if sigbuf.getD (0 + lead_r0) 0 &&& 0x80 = 0x80 then (1 : Int) else 0)).toNat
          (readBytes sigbuf ((leading_zeros sigbuf 32 : Nat) : Int).toNat 32)).set
            (4 + 32 + (if sigbuf.getD (0 + lead_r0) 0 &&& 0x80 = 0x80 then (1 : Int) else 0)
              - (leading_zeros sigbuf 32 : Nat)).toNat 0x02).set
            (5 + 32 + (if sigbuf.getD (0 + lead_r0) 0 &&& 0x80 = 0x80 then (1 : Int) else 0)
              + (if sigbuf.getD (32 + lead_s0) 0 &&& 0x80 = 0x80 then 1 else 0)
              - (leading_zeros sigbuf 32 : Nat)).toNat 0).set
            (5 + 32 + (if sigbuf.getD (0 + lead_r0) 0 &&& 0x80 = 0x80 then (1 : Int) else 0)
              - (leading_zeros sigbuf 32 : Nat)).toNat
              (u8i (0x20 + (if sigbuf.getD (32 + lead_s0) 0 &&& 0x80 = 0x80 then 1 else 0)
                - (leading_zeros (sigbuf.drop 32) 32 : Nat)))))
        (6 + 32 + (if sigbuf.getD (0 + lead_r0) 0 &&& 0x80 = 0x80 then (1 : Int) else 0)
          + (if sigbuf.getD (32 + lead_s0) 0 &&& 0x80 = 0x80 then 1 else 0)
          - (leading_zeros sigbuf 32 : Nat)).toNat
        (readBytes sigbuf (32 + ((leading_zeros (sigbuf.drop 32) 32 : Nat) : Int)).toNat 32)) := by
    intro buf
    unfold ctap_calculate_signature_der
    rfl
  generalize (if sigbuf.getD (0 + lead_r0) 0 &&& 0x80 = 0x80 then (1 : Int) else 0) = pr
    at hpr hdef
  generalize (if sigbuf.getD (32 + lead_s0) 0 &&& 0x80 = 0x80 then (1 : Int) else 0) = ps
    at hps hdef
  generalize readBytes sigbuf ((leading_zeros sigbuf 32 : Nat) : Int).toNat 32 = src1
    at h1 hdef
  generalize readBytes sigbuf (32 + ((leading_zeros (sigbuf.drop 32) 32 : Nat) : Int)).toNat 32
    = src2 at h2 hdef
  generalize leading_zeros sigbuf 32 = lr at hlr hdef
  generalize leading_zeros (sigbuf.drop 32) 32 = ls at hls hdef
  generalize hd : (fun buf => (ctap_calculate_signature_der lead_r0 lead_s0 sigbuf buf).2) = d
  have hdd : ∀ buf, (ctap_calculate_signature_der lead_r0 lead_s0 sigbuf buf).2 = d buf := by
    intro buf
    rw [← hd]
  have hret : (ctap_calculate_signature_der lead_r0 lead_s0 sigbuf sigder).1
      = 0x46 + ps + pr - lr - ls := by rw [hdef]
  obtain ⟨k0, k1, k2, k3, k4, k5, k6, k7⟩ := der_writes pr ps lr ls src1 src2 d
    hpr hps hlr hls h1 h2 (fun buf => by rw [← hdd, hdef]) sigder hlen
  simp only [hdd]
  rw [hret]
  refine ⟨?_, ?_, k1, k3, k5, ?_, ?_, k0, k7⟩
  · rw [k2]
    omega
  · have : ((d sigder).getD 1 0 : Int)
        = ((4 + (d sigder).getD 3 0 + (d sigder).getD (5 + (d sigder).getD 3 0) 0 : Nat)
          : Int) := by
      push_cast
      rw [k2, k4, k6]
      omega
    exact_mod_cast this
  · omega
  · omega

/-! ## C25: length and bounds of the DER signature -/

/-- C25: for every raw signature the signer returns (64 bytes) and a 72-byte `sigder`,
the value `ctap_calculate_signature` returns is 2 + sigder[1]; sigder[1] is 4 plus the
two INTEGER length bytes written (sigder[3], and the byte that follows the second 0x02
tag at index 4 + sigder[3]); the returned length is at most 72; and every write lands
below index 72: run on a longer buffer, the function leaves all bytes from index 72 on
as they were. -/
theorem C25_der_length_is_computed_and_within_72 (env : Env) (w : World)
    (data clientDataHash sigder : Bytes)
    (hlen : sigder.length = 72) :
    (ctap_calculate_signature env w data clientDataHash sigder).len
      = 2 + ((ctap_calculate_signature env w data clientDataHash sigder).sigder.getD 1 0 : Int)
    ∧ (ctap_calculate_signature env w data clientDataHash sigder).sigder.getD 1 0
      = 4 + (ctap_calculate_signature env w data clientDataHash sigder).sigder.getD 3 0
        + (ctap_calculate_signature env w data clientDataHash sigder).sigder.getD
          (5 + (ctap_calculate_signature env w data clientDataHash sigder).sigder.getD 3 0) 0
    ∧ (ctap_calculate_signature env w data clientDataHash sigder).sigder.getD 0 0 = 0x30
    ∧ (ctap_calculate_signature env w data clientDataHash sigder).sigder.getD 2 0 = 0x02
    ∧ (ctap_calculate_signature env w data clientDataHash sigder).sigder.getD
        (4 + (ctap_calculate_signature env w data clientDataHash sigder).sigder.getD 3 0) 0
      = 0x02
    ∧ (ctap_calculate_signature env w data clientDataHash sigder).len ≤ 72
    ∧ (ctap_calculate_signature env w data clientDataHash sigder).sigder.length = 72
    ∧ (∀ extra, (ctap_calculate_signature env w data clientDataHash (sigder ++ extra)).sigder
        = (ctap_calculate_signature env w data clientDataHash sigder).sigder ++ extra) := by
  have hl : ∀ buf, (ctap_calculate_signature env w data clientDataHash buf).len
      = (ctap_calculate_signature_der env.lead_r_outer env.lead_s_outer
          (env.ecc256_sign w.loaded_key
            ((env.sha256 (data ++ clientDataHash.take CLIENT_DATA_HASH_SIZE)).take 32)
            w.sign_calls) buf).1 := by
    intro buf
    unfold ctap_calculate_signature
    simp only
  have hs : ∀ buf, (ctap_calculate_signature env w data clientDataHash buf).sigder
      = (ctap_calculate_signature_der env.lead_r_outer env.lead_s_outer
          (env.ecc256_sign w.loaded_key
            ((env.sha256 (data ++ clientDataHash.take CLIENT_DATA_HASH_SIZE)).take 32)
            w.sign_calls) buf).2 := by
    intro buf
    unfold ctap_calculate_signature
    simp only
  obtain ⟨k1, k2, k3, k4, k5, _, k7, k8, k9⟩ := signature_der_layout env.lead_r_outer
    env.lead_s_outer
    (env.ecc256_sign w.loaded_key
      ((env.sha256 (data ++ clientDataHash.take CLIENT_DATA_HASH_SIZE)).take 32) w.sign_calls)
    sigder hlen
  simp only [hl, hs]
  exact ⟨k1, k2, k3, k4, k5, k7, k8, k9⟩

set_option maxRecDepth 100000 in
/-- C25, at a concrete input: the test signer on the test device, into 72 zero bytes. -/
theorem C25_der_length_is_computed_and_within_72_witness :
    (test_env.ecc256_sign test_state.world.loaded_key
      ((test_env.sha256 ([1, 2, 3] ++ (List.replicate 32 9).take CLIENT_DATA_HASH_SIZE)).take 32)
      test_state.world.sign_calls).length = 64
    ∧ (ctap_calculate_signature test_env test_state.world [1, 2, 3] (List.replicate 32 9)
      (List.replicate 72 0)).len = 70
    ∧ (ctap_calculate_signature test_env test_state.world [1, 2, 3] (List.replicate 32 9)
      (List.replicate 72 0)).len
      = 2 + ((ctap_calculate_signature test_env test_state.world [1, 2, 3] (List.replicate 32 9)
        (List.replicate 72 0)).sigder.getD 1 0 : Int)
    ∧ (ctap_calculate_signature test_env test_state.world [1, 2, 3] (List.replicate 32 9)
      (List.replicate 72 0)).len ≤ 72 :=
  ⟨by decide!, by decide!,
    (C25_der_length_is_computed_and_within_72 test_env test_state.world [1, 2, 3]
      (List.replicate 32 9) (List.replicate 72 0) (by decide)).1,
    (C25_der_length_is_computed_and_within_72 test_env test_state.world [1, 2, 3]
      (List.replicate 32 9) (List.replicate 72 0) (by decide)).2.2.2.2.2.1⟩

/-! ## C26: the credential that is signed and returned -/

set_option maxRecDepth 100000 in
/-- C26 (code_bug), the code at the failing input: the allow-list holds a valid
credential of count 3000000000 and a forged descriptor.  `ctap_filter_invalid_credentials`
sets the count of the forged one to 0, `cred_cmp_func` returns
`0 - 3000000000 = 1294967296 > 0` for the pair, so the sort puts the invalidated entry
first; the valid count is 1 and `creds[0]`, the invalidated entry, is the credential
that is signed and returned, with status success. -/
theorem C26_invalidated_entry_is_returned :
    ctap_authenticate_credential test_env test_state test_rp (test_credential 3000000000) = 1
    ∧ ctap_authenticate_credential test_env test_state test_rp test_forged_credential = 0
    ∧ cred_cmp_func (test_credential 3000000000)
        { test_forged_credential with
          credential := { test_forged_credential.credential with count := 0 } } = 1294967296
    ∧ (qsort_creds (invalidate_credentials test_env test_state test_rp
        [test_credential 3000000000, test_forged_credential])).map
          (fun c => c.credential.count) = [0, 3000000000]
    ∧ (ctap_get_assertion
        (test_env_allow [test_credential 3000000000, test_forged_credential]) test_state [1]).1
      = CTAP1_ERR_SUCCESS
    ∧ response_number_of_credentials (ctap_get_assertion
        (test_env_allow [test_credential 3000000000, test_forged_credential])
        test_state [1]).2.1 = some 1
    ∧ response_credential_id (ctap_get_assertion
        (test_env_allow [test_credential 3000000000, test_forged_credential])
        test_state [1]).2.1
      = some (test_credential_id { test_forged_credential.credential with count := 0 })
    ∧ test_credential_id { test_forged_credential.credential with count := 0 }
      ≠ test_credential_id (test_credential 3000000000).credential := by
  decide!

/-- A get-assertion that does not succeed leaves the saved continuation as it was. -/
theorem get_assertion_failed_keeps_saved (env : Env) (s : State) (req : Bytes)
    (h : (ctap_get_assertion env s req).1 ≠ 0) :
    (ctap_get_assertion env s req).2.2.getAssertionState = s.getAssertionState := by
  have hbody : ∀ GA, (ctap_get_assertion_body env s GA).1 ≠ 0 →
      (ctap_get_assertion_body env s GA).2.2.getAssertionState = s.getAssertionState := by
    intro GA hne
    by_cases hv : valid_credentials env s GA.rp GA.creds = []
    · rw [get_assertion_body_invalid env s GA hv]
    · exact absurd (get_assertion_body_number env s GA (List.length_pos.mpr hv)).1 hne
  unfold ctap_get_assertion at h ⊢
  simp only at h ⊢
  split_ifs at h ⊢
  all_goals first
    | rfl
    | exact hbody _ h

/-- The state a GET_ASSERTION packet that does not succeed leaves: the saved
continuation of before, with GET_ASSERTION as the last command. -/
theorem handle_packet_get_assertion_failed (env : Env) (s : State) (req : Bytes)
    (r : Nat × CTAP_RESPONSE × State)
    (h : ctap_handle_packet env s (CTAP_GET_ASSERTION :: req) = some r)
    (hfail : r.1 ≠ CTAP1_ERR_SUCCESS) :
    r.2.2.getAssertionState = { s.getAssertionState with lastcmd := CTAP_GET_ASSERTION } := by
  unfold ctap_handle_packet at h
  simp only [List.headD_cons, List.tail_cons, Option.map_eq_some'] at h
  obtain ⟨a, h1, h2⟩ := h
  subst h2
  split_ifs at h1
  · simp only [Option.some.injEq] at h1
    subst h1
    rfl
  · have hdisp : ctap_handle_packet_dispatch env s CTAP_GET_ASSERTION req =
        some ((ctap_get_assertion env s req).1, (ctap_get_assertion env s req).2.1,
          CTAP_GET_ASSERTION, (ctap_get_assertion env s req).2.2) := by
      unfold ctap_handle_packet_dispatch
      simp only
      rw [if_neg (by decide), if_pos trivial]
    rw [hdisp] at h1
    simp only [Option.some.injEq] at h1
    subst h1
    simp only at hfail ⊢
    rw [get_assertion_failed_keeps_saved env s req hfail]

/-! ## C27: get-next-assertion after a failed get-assertion -/

/-- C27 (code_bug), what the code does: `ctap_handle_packet` records GET_ASSERTION as
the last command whatever the status, and a get-assertion that fails leaves the saved
credential list alone.  So when an earlier get-assertion has left credentials saved, a
GET_NEXT_ASSERTION packet right after a failed GET_ASSERTION packet (parse error, PIN
failure, CREDENTIAL_NOT_VALID or lockout) is answered with success and carries the next
saved credential. -/
theorem C27_next_assertion_after_failed_get_assertion (env : Env) (s : State) (req : Bytes)
    (r : Nat × CTAP_RESPONSE × State)
    (h : ctap_handle_packet env s (CTAP_GET_ASSERTION :: req) = some r)
    (hfail : r.1 ≠ CTAP1_ERR_SUCCESS) (hsaved : 0 < s.getAssertionState.count) :
    ∃ r2, ctap_handle_packet env r.2.2 [GET_NEXT_ASSERTION] = some r2
      ∧ r2.1 = CTAP1_ERR_SUCCESS
      ∧ response_credential_id r2.2.1.data = some (env.credential_id
          (s.getAssertionState.creds.getD (s.getAssertionState.count - 1)
            zero_credential).credential) := by
  have hst := handle_packet_get_assertion_failed env s req r h hfail
  obtain ⟨r2, h2, hs2, _, _, _, _, _, _, _, hid⟩ := handle_packet_next env r.2.2
    (by rw [hst]) (by rw [hst]; exact hsaved)
  refine ⟨r2, h2, hs2, ?_⟩
  rw [hid, hst]

set_option maxRecDepth 100000 in
/-- C27, at the failing input: the test device after a get-assertion over three valid
credentials (two saved); a GET_ASSERTION packet that fails to parse and one answered
CREDENTIAL_NOT_VALID are each followed by a get-next-assertion that succeeds and returns
the saved credential of count 9. -/
theorem C27_next_assertion_after_failed_get_assertion_witness :
    test_state_ga3.getAssertionState.count = 2
    ∧ (ctap_run test_env test_state [[2, 2], [2, 9], [GET_NEXT_ASSERTION]]).map
        (fun r => r.1.map (fun x => x.1)) = some [CTAP1_ERR_SUCCESS, 0x12, CTAP1_ERR_SUCCESS]
    ∧ (ctap_run test_env_forged test_state_ga3 [[2, 1], [GET_NEXT_ASSERTION]]).map
        (fun r => r.1.map (fun x => (x.1, response_credential_id x.2.data)))
      = some [(CTAP2_ERR_CREDENTIAL_NOT_VALID, none),
          (CTAP1_ERR_SUCCESS, some (test_credential_id (test_credential 9).credential))]
    ∧ ∃ r2, ctap_handle_packet test_env
          ((ctap_handle_packet test_env test_state_ga3 [CTAP_GET_ASSERTION, 9]).getD
            (0, { data := [], length := 0 }, test_state)).2.2 [GET_NEXT_ASSERTION] = some r2
        ∧ r2.1 = CTAP1_ERR_SUCCESS
        ∧ response_credential_id r2.2.1.data = some (test_env.credential_id
            (test_state_ga3.getAssertionState.creds.getD
              (test_state_ga3.getAssertionState.count - 1) zero_credential).credential) :=
  ⟨by decide!, by decide!, by decide!,
    C27_next_assertion_after_failed_get_assertion test_env test_state_ga3 [9]
      ((ctap_handle_packet test_env test_state_ga3 [CTAP_GET_ASSERTION, 9]).getD
        (0, { data := [], length := 0 }, test_state))
      (by decide!) (by decide!) (by decide!)⟩

theorem update_pin_none_iff (env : Env) (s : State) (pin : Bytes) (len : Int) :
    ctap_update_pin env s pin len = none ↔
      (len > (env.NEW_PIN_ENC_MAX_SIZE : Int) - 1 ∨ len < 4) := by
  unfold ctap_update_pin
  split_ifs with h
  · exact ⟨fun _ => h, fun _ => rfl⟩
  · exact ⟨fun h0 => absurd h0 (by simp), fun h0 => absurd h0 h⟩

/-! ## C28: the fatal length check of `ctap_update_pin` -/

/-- C28: `ctap_update_pin` exits exactly when `len > NEW_PIN_ENC_MAX_SIZE - 1` or
`len < 4`, and no call from `ctap_update_pin_if_verified` does: for every input the
function returns, and whenever it has called `ctap_update_pin` (status 0) the length it
passed - the string length of the decrypted buffer - satisfies
4 ≤ len ≤ NEW_PIN_ENC_MAX_SIZE - 1 and the call returned.  Hence `ctap_client_pin` and
`ctap_handle_packet` return for every request. -/
theorem C28_update_pin_length_check_is_never_hit (env : Env) (s : State) :
    (∀ (s0 : State) (pin : Bytes) (len : Int), ctap_update_pin env s0 pin len = none ↔
        (len > (env.NEW_PIN_ENC_MAX_SIZE : Int) - 1 ∨ len < 4))
    ∧ (∀ (pinEnc : Bytes) (len : Nat) (platform_pubkey pinAuth : Bytes)
        (pinHashEnc : Option Bytes),
        (∃ r, ctap_update_pin_if_verified env s pinEnc len platform_pubkey pinAuth pinHashEnc
          = some r)
        ∧ (∀ r, ctap_update_pin_if_verified env s pinEnc len platform_pubkey pinAuth pinHashEnc
            = some r → r.1 = 0 →
          (4 : Int) ≤ strnlen (decrypted_newPinEnc env s pinEnc len platform_pubkey)
            env.NEW_PIN_ENC_MAX_SIZE
          ∧ (strnlen (decrypted_newPinEnc env s pinEnc len platform_pubkey)
            env.NEW_PIN_ENC_MAX_SIZE : Int) ≤ (env.NEW_PIN_ENC_MAX_SIZE : Int) - 1
          ∧ ∃ s0, ctap_update_pin env s0 (decrypted_newPinEnc env s pinEnc len platform_pubkey)
              (strnlen (decrypted_newPinEnc env s pinEnc len platform_pubkey)
                env.NEW_PIN_ENC_MAX_SIZE) = some r.2))
    ∧ (∀ req, ∃ r, ctap_client_pin env s req = some r)
    ∧ (∀ pkt, ∃ r, ctap_handle_packet env s pkt = some r) := by
  refine ⟨fun s0 pin len => update_pin_none_iff env s0 pin len,
    fun pinEnc len platform_pubkey pinAuth pinHashEnc =>
      ⟨update_pin_if_verified_total env s pinEnc len platform_pubkey pinAuth pinHashEnc,
        fun r h h0 => ?_⟩,
    fun req => client_pin_total env s req, fun pkt => handle_packet_total env s pkt⟩
  rcases update_pin_if_verified_cases env s pinEnc len platform_pubkey pinAuth pinHashEnc r h
    with ⟨hne, _⟩ | ⟨_, _, s0, hs0⟩
  · exact absurd h0 hne
  · obtain ⟨_, _, _, h4, hmax⟩ := update_pin_fields env s0 r.2 _ _ hs0
    exact ⟨h4, by omega, s0, hs0⟩

end Ctap
